import Mathlib

/-!
# aos_servicemanager: network manager

A shallow embedding of `networkmanager/networkmanager.go` and the properties
of its attach / detach / query API. The embedding of `dirDigest` of
`servicemanager/image.go` follows the definitions of the network manager, its
properties are at the end.

Conventions of the embedding

* A Go `map[string]V` is an association list `List (String × V)`; a lookup
  returns the first binding of a key, an assignment replaces that binding (or
  appends one), `delete` removes every binding of the key and `len(m) == 0`
  is emptiness of the list. The iteration order of a Go map is not fixed; no
  result below depends on it.
* A Go `error` is a value of `Error`, which keeps the condition and drops the
  message text; `aoserrors.Wrap` keeps the condition and is the identity.
* Everything outside the orchestrator (plugin runtime, namespaces, subnet
  pool, traffic monitor, file system) is an environment `Env`: each
  operation's outcome is a function of the calls made so far and of its
  arguments. Every such call is appended to the `trace` of the `World`; only
  the reads of the traffic counters and the pure helpers `GetIPAddressRange`
  and `ConfListFromBytes` are not recorded.
* JSON text is represented by the value it encodes; `json.Marshal` of the
  plain configuration structs does not fail.
* A file path is the list of the components given to `path.Join`.
* A call of the API runs from its start to its return. The section on two
  concurrent attaches splits `AddInstanceToNetwork` at the points where the
  lock of the manager is free and interleaves two calls.
-/

namespace networkmanager

/-! ## Consts -/

def bridgePrefix : String := "br-"
def instanceIfName : String := "eth0"
def pathToNetNs : String := "/run/netns"
def cniVersion : String := "0.4.0"
def adminChainPrefix : String := "INSTANCE_"
def burstLen : Nat := 12800
def exposePortConfigExpectedLen : Nat := 2
def allowedConnectionsExpectedLen : Nat := 3

/-- The modulus of `uint64` arithmetic. -/
def uint64Mod : Nat := 2 ^ 64

/-- The files of a network directory that are not instance records. -/
def skipNetworkFileNames : List String := ["lock", "last_reserved_ip.0"]

/-! ## Errors -/

/-- Error conditions of the package. `external` is an error handed back by a
collaborator (runtime, namespace, file system, traffic monitor, subnet pool). -/
inductive Error where
  | alreadyInNetwork
  | notInNetwork
  | trafficMonitorDisable
  | unexpectedPeriod
  | cantFindNetworkInstance
  | noIPAddress
  | instanceNotFound
  | hostnameExists
  | unsupportedExposedPorts
  | unsupportedAllowedConnections
  | chainNotFound
  | incorrectFileContent
  | external (code : Nat)
  deriving DecidableEq, Repr

deriving instance DecidableEq for Except

/-! ## Go maps -/

namespace Map

/-- The value of `m[key]` and whether the key is present. -/
def get {V : Type} : List (String × V) → String → Option V
  | [], _ => none
  | (k, v) :: m, key => if k = key then some v else get m key

/-- The assignment `m[key] = v`. -/
def set {V : Type} : List (String × V) → String → V → List (String × V)
  | [], key, v => [(key, v)]
  | (k, x) :: m, key, v => if k = key then (k, v) :: m else (k, x) :: set m key v

/-- The builtin `delete(m, key)`. -/
def delete {V : Type} (m : List (String × V)) (key : String) : List (String × V) :=
  m.filter (fun kv => !decide (kv.1 = key))

end Map

/-! ## Types -/

/-- A path: the components handed to `path.Join`. -/
abbrev Path := List String

structure netInstanceData where
  instanceIP : String
  hosts : List String
  deriving DecidableEq, Repr

/-- The instance-network cache `map[networkID]map[instanceID]netInstanceData`. -/
abbrev InstancesData := List (String × List (String × netInstanceData))

/-- A `net.IPNet`. -/
structure IPNet where
  IP : List Nat
  Mask : List Nat
  deriving DecidableEq, Repr

/-- An `aostypes.Host`. -/
structure Host where
  IP : String
  Hostname : String
  deriving DecidableEq, Repr

/-- Network parameters set for instance (`aostypes.InstanceIdent` is embedded:
`ServiceID`, `SubjectID`, `Instance`). The `uint64` fields are naturals below
`2 ^ 64`. -/
structure NetworkParams where
  ServiceID : String
  SubjectID : String
  Instance : Nat
  Hostname : String
  Aliases : List String
  IngressKbit : Nat
  EgressKbit : Nat
  ExposedPorts : List String
  AllowedConnections : List String
  Hosts : List Host
  DNSSevers : List String
  HostsFilePath : String
  ResolvConfFilePath : String
  UploadLimit : Nat
  DownloadLimit : Nat
  deriving DecidableEq, Repr

/-- The `allocator.Range` of the host-local address allocator. -/
structure Range where
  RangeStart : List Nat
  RangeEnd : List Nat
  Subnet : IPNet
  deriving DecidableEq, Repr

/-- The `allocator.IPAMConfig`; a route is given by its destination. -/
structure IPAMConfig where
  DataDir : Path
  Type_ : String
  Range : Range
  Routes : List String
  deriving DecidableEq, Repr

structure bridgeNetConf where
  Type_ : String
  Bridge : String
  IsGateway : Bool
  IsDefaultGateway : Bool
  ForceAddress : Bool
  IPMasq : Bool
  MTU : Int
  HairpinMode : Bool
  PromiscMode : Bool
  Vlan : Int
  IPAM : IPAMConfig
  deriving DecidableEq, Repr

structure bandwidthNetConf where
  Type_ : String
  IngressRate : Nat
  IngressBurst : Nat
  EgressRate : Nat
  EgressBurst : Nat
  deriving DecidableEq, Repr

structure inputAccessConfig where
  Port : String
  Protocol : String
  deriving DecidableEq, Repr

structure outputAccessConfig where
  UUID : String
  Port : String
  Protocol : String
  deriving DecidableEq, Repr

structure aosFirewallNetConf where
  Type_ : String
  UUID : String
  IptablesAdminChainName : String
  AllowPublicConnections : Bool
  InputAccess : List inputAccessConfig
  OutputAccess : List outputAccessConfig
  deriving DecidableEq, Repr

structure aosDNSNetConf where
  Type_ : String
  MultiDomain : Bool
  DomainName : String
  Capabilities : List (String × Bool)
  deriving DecidableEq, Repr

/-- One serialised plugin configuration (a `json.RawMessage`), represented by
the struct it was marshalled from. -/
inductive PluginConf where
  | bridge (conf : bridgeNetConf)
  | firewall (conf : aosFirewallNetConf)
  | bandwidth (conf : bandwidthNetConf)
  | dns (conf : aosDNSNetConf)
  deriving DecidableEq, Repr

/-- The `type` member of a serialised plugin configuration. -/
def PluginConf.type : PluginConf → String
  | .bridge conf => conf.Type_
  | .firewall conf => conf.Type_
  | .bandwidth conf => conf.Type_
  | .dns conf => conf.Type_

structure cniNetwork where
  Name : String
  CNIVersion : String
  Plugins : List PluginConf
  deriving DecidableEq, Repr

/-- The `cni.NetworkConfigList` of the plugin runtime. -/
structure NetworkConfigList where
  Name : String
  CNIVersion : String
  Plugins : List PluginConf
  deriving DecidableEq, Repr

/-- The `cni.RuntimeConf` of the plugin runtime. `CapabilityArgs` is a map
whose values are maps from a network to its alias list. -/
structure RuntimeConf where
  ContainerID : String
  NetNS : Path
  IfName : String
  Args : List (String × String)
  CapabilityArgs : List (String × List (String × List String))
  deriving DecidableEq, Repr

/-- The `types.DNS` part of a result. -/
structure DNS where
  Nameservers : List String
  deriving DecidableEq, Repr

/-- The `current.Result` of an add: every entry of `IPs` is the rendering
`Address.IP.String()` of the address. -/
structure Result where
  IPs : List String
  DNS : DNS
  deriving DecidableEq, Repr

/-- A `types.Result` as handed back by the runtime. The code reads it only
through `current.GetResult`, so it is given by the outcome of that
conversion. -/
structure TypesResult where
  GetResult : Except Error Result

/-- The part of the traffic monitor the network manager reads and writes. -/
structure trafficMonitoring where
  trafficPeriod : Int
  inChain : String
  outChain : String
  deriving DecidableEq, Repr

/-- NetworkManager network manager instance. -/
structure NetworkManager where
  hosts : List Host
  networkDir : Path
  trafficMonitoring : Option trafficMonitoring
  instancesData : InstancesData
  deriving DecidableEq, Repr

/-- The part of `config.Config` that `New` reads. -/
structure Config where
  WorkingDir : String
  Hosts : List Host
  deriving DecidableEq, Repr

/-- A traffic store handed to `New`; it is only passed on to the constructor
of the traffic monitor. -/
structure TrafficStorage where
  handle : Nat
  deriving DecidableEq, Repr

/-! ## Environment -/

/-- A call that leaves the orchestrator. -/
inductive Call where
  | GetIPSubnet (networkID : String)
  | createNetNS (instanceID : String)
  | DeleteNamed (instanceID : String)
  | ValidateNetworkList (netConfig : NetworkConfigList)
  | AddNetworkList (netConfig : NetworkConfigList) (runtimeConfig : RuntimeConf)
  | DelNetworkList (netConfig : NetworkConfigList) (runtimeConfig : RuntimeConf)
  | GetNetworkListCachedConfig (netConfig : NetworkConfigList) (runtimeConfig : RuntimeConf)
  | startInstanceTrafficMonitor (instanceID instanceIP : String) (downloadLimit uploadLimit : Nat)
  | stopInstanceTrafficMonitor (instanceID : String)
  | writeHostToHostsFile (hostsFilePath instanceIP networkID hostname : String) (hosts : List Host)
  | writeResolveConfFile (resolvConfFilePath : String) (mainServers extraServers : List String)
  | releaseIPNetPool (networkID : String)
  | removeBridgeInterface (networkID : String)
  | RemoveAll (dir : Path)
  | newIPam
  | ReadDir (dir : Path)
  | Stat (file : Path)
  | Open (file : Path)
  | newTrafficMonitor
  | runUpdateIptables
  deriving DecidableEq, Repr

/-- The calls made so far, oldest first. -/
abbrev Trace := List Call

/-- The collaborators of the orchestrator. The outcome of an operation may
depend on every call made before it. -/
structure Env where
  GetIPSubnet : Trace → String → Except Error IPNet
  GetIPAddressRange : IPNet → List Nat × List Nat
  createNetNS : Trace → String → Except Error Unit
  DeleteNamed : Trace → String → Except Error Unit
  ValidateNetworkList : Trace → NetworkConfigList → Except Error Unit
  AddNetworkList : Trace → NetworkConfigList → RuntimeConf → Except Error TypesResult
  DelNetworkList : Trace → NetworkConfigList → RuntimeConf → Except Error Unit
  GetNetworkListCachedConfig :
    Trace → NetworkConfigList → RuntimeConf → Except Error (Option cniNetwork × RuntimeConf)
  confListRejected : cniNetwork → Option Error
  startInstanceTrafficMonitor : Trace → String → String → Nat → Nat → Except Error Unit
  stopInstanceTrafficMonitor : Trace → String → Except Error Unit
  getInstanceChains : Trace → String → Option (String × String)
  getInputOutputTrafficData : Trace → String → String → Except Error (Nat × Nat)
  writeHostToHostsFile : Trace → String → String → String → String → List Host → Except Error Unit
  writeResolveConfFile : Trace → String → List String → List String → Except Error Unit
  removeBridgeInterface : Trace → String → Except Error Unit
  RemoveAll : Trace → Path → Except Error Unit
  newIPam : Trace → Except Error Unit
  ReadDir : Trace → Path → Except Error (List String)
  Stat : Trace → Path → Except Error Unit
  Open : Trace → Path → Except Error (List String)
  newTrafficMonitor : Trace → Option trafficMonitoring × Except Error Unit

/-- The manager together with the record of the calls it has made. -/
structure World where
  manager : NetworkManager
  trace : Trace
  deriving DecidableEq, Repr

/-- Append a call to the trace. -/
def World.record (w : World) (c : Call) : World :=
  { w with trace := w.trace ++ [c] }

/-- Replace the cache of the manager. -/
def World.setInstancesData (w : World) (data : InstancesData) : World :=
  { w with manager := { w.manager with instancesData := data } }

/-! ## Library functions -/

/-- Split a character list at every occurrence of `sep`. -/
def splitChars (sep : Char) : List Char → List (List Char)
  | [] => [[]]
  | c :: cs =>
    if c = sep then [] :: splitChars sep cs
    else
      match splitChars sep cs with
      | [] => [[c]]
      | h :: t => (c :: h) :: t

/-- The library `strings.Split(s, sep)` for a separator of one character
(the code splits at "/" only). -/
def stringsSplit (s : String) (sep : Char) : List String :=
  (splitChars sep s.toList).map String.mk

/-- The library `strings.ContainsAny(s, chars)`. -/
def stringsContainsAny (s chars : String) : Bool :=
  s.toList.any (fun c => chars.toList.contains c)

/-- The library `strings.Join(elems, sep)`. -/
def stringsJoin : List String → String → String
  | [], _ => ""
  | [e], _ => e
  | e :: es, sep => e ++ sep ++ stringsJoin es sep

/-- The library `cni.ConfListFromBytes`: parses a serialised chain. The text
is represented by the `cniNetwork` it encodes. Parsing either rejects the
document (which ones is left to the environment) or returns the chain with
the same name, version and plugins in the same order. -/
def ConfListFromBytes (env : Env) (bytes : cniNetwork) : Except Error NetworkConfigList :=
  match env.confListRejected bytes with
  | some e => .error e
  | none => .ok { Name := bytes.Name, CNIVersion := bytes.CNIVersion, Plugins := bytes.Plugins }

/-! ## External calls

Each one reads its outcome from the environment at the current trace and
appends itself to the trace. -/

def GetIPSubnet (env : Env) (networkID : String) (w : World) : Except Error IPNet × World :=
  (env.GetIPSubnet w.trace networkID, w.record (.GetIPSubnet networkID))

def createNetNS (env : Env) (instanceID : String) (w : World) : Except Error Unit × World :=
  (env.createNetNS w.trace instanceID, w.record (.createNetNS instanceID))

def DeleteNamed (env : Env) (instanceID : String) (w : World) : Except Error Unit × World :=
  (env.DeleteNamed w.trace instanceID, w.record (.DeleteNamed instanceID))

def ValidateNetworkList (env : Env) (netConfig : NetworkConfigList) (w : World) :
    Except Error Unit × World :=
  (env.ValidateNetworkList w.trace netConfig, w.record (.ValidateNetworkList netConfig))

def AddNetworkList (env : Env) (netConfig : NetworkConfigList) (runtimeConfig : RuntimeConf)
    (w : World) : Except Error TypesResult × World :=
  (env.AddNetworkList w.trace netConfig runtimeConfig,
    w.record (.AddNetworkList netConfig runtimeConfig))

def DelNetworkList (env : Env) (netConfig : NetworkConfigList) (runtimeConfig : RuntimeConf)
    (w : World) : Except Error Unit × World :=
  (env.DelNetworkList w.trace netConfig runtimeConfig,
    w.record (.DelNetworkList netConfig runtimeConfig))

def GetNetworkListCachedConfig (env : Env) (netConfig : NetworkConfigList)
    (runtimeConfig : RuntimeConf) (w : World) :
    Except Error (Option cniNetwork × RuntimeConf) × World :=
  (env.GetNetworkListCachedConfig w.trace netConfig runtimeConfig,
    w.record (.GetNetworkListCachedConfig netConfig runtimeConfig))

def startInstanceTrafficMonitor (env : Env) (instanceID instanceIP : String)
    (downloadLimit uploadLimit : Nat) (w : World) : Except Error Unit × World :=
  (env.startInstanceTrafficMonitor w.trace instanceID instanceIP downloadLimit uploadLimit,
    w.record (.startInstanceTrafficMonitor instanceID instanceIP downloadLimit uploadLimit))

def stopInstanceTrafficMonitor (env : Env) (instanceID : String) (w : World) :
    Except Error Unit × World :=
  (env.stopInstanceTrafficMonitor w.trace instanceID,
    w.record (.stopInstanceTrafficMonitor instanceID))

def writeHostToHostsFile (env : Env) (hostsFilePath instanceIP networkID hostname : String)
    (hosts : List Host) (w : World) : Except Error Unit × World :=
  (env.writeHostToHostsFile w.trace hostsFilePath instanceIP networkID hostname hosts,
    w.record (.writeHostToHostsFile hostsFilePath instanceIP networkID hostname hosts))

def writeResolveConfFile (env : Env) (resolvConfFilePath : String)
    (mainServers extraServers : List String) (w : World) : Except Error Unit × World :=
  (env.writeResolveConfFile w.trace resolvConfFilePath mainServers extraServers,
    w.record (.writeResolveConfFile resolvConfFilePath mainServers extraServers))

def releaseIPNetPool (networkID : String) (w : World) : World :=
  w.record (.releaseIPNetPool networkID)

def removeBridgeInterface (env : Env) (networkID : String) (w : World) :
    Except Error Unit × World :=
  (env.removeBridgeInterface w.trace networkID, w.record (.removeBridgeInterface networkID))

/-- The library `os.RemoveAll`. -/
def RemoveAll (env : Env) (dir : Path) (w : World) : Except Error Unit × World :=
  (env.RemoveAll w.trace dir, w.record (.RemoveAll dir))

def newIPam (env : Env) (w : World) : Except Error Unit × World :=
  (env.newIPam w.trace, w.record .newIPam)

/-- The library `ioutil.ReadDir`: the names of the entries of a directory. -/
def ReadDir (env : Env) (dir : Path) (w : World) : Except Error (List String) × World :=
  (env.ReadDir w.trace dir, w.record (.ReadDir dir))

/-- The library `os.Stat`; only its error is read. -/
def Stat (env : Env) (file : Path) (w : World) : Except Error Unit × World :=
  (env.Stat w.trace file, w.record (.Stat file))

/-- The library `os.Open` followed by a `bufio.Scanner` over the file: the
lines the scanner yields. -/
def Open (env : Env) (file : Path) (w : World) : Except Error (List String) × World :=
  (env.Open w.trace file, w.record (.Open file))

/-- The constructor of the traffic monitor: the monitor it returns (nil or
not) and its error. -/
def newTrafficMonitor (env : Env) (w : World) :
    (Option trafficMonitoring × Except Error Unit) × World :=
  (env.newTrafficMonitor w.trace, w.record .newTrafficMonitor)

def runUpdateIptables (w : World) : World :=
  w.record .runUpdateIptables

/-! ## Private -/

/-- GetNetnsPath get path to instance network namespace. -/
def GetNetnsPath (instanceID : String) : Path :=
  [pathToNetNs, instanceID]

def isInstanceInNetwork (manager : NetworkManager) (instanceID networkID : String) : Bool :=
  match Map.get manager.instancesData networkID with
  | some instances =>
    match Map.get instances instanceID with
    | some _ => true
    | none => false
  | none => false

/-- The expression `manager.instancesData[networkID]`: a missing network reads
as the nil map. -/
def networkInstances (manager : NetworkManager) (networkID : String) :
    List (String × netInstanceData) :=
  (Map.get manager.instancesData networkID).getD []

def updateInstanceNetworkCache (manager : NetworkManager)
    (instanceID networkID instanceIP : String) (hosts : List String) :
    Except Error Unit × NetworkManager :=
  match Map.get (networkInstances manager networkID) instanceID with
  | none => (.error .cantFindNetworkInstance, manager)
  | some networkInstanceData =>
    let networkInstanceData := { networkInstanceData with hosts := hosts }
    let networkInstanceData := { networkInstanceData with instanceIP := instanceIP }
    (.ok (), { manager with
      instancesData := Map.set manager.instancesData networkID
        (Map.set (networkInstances manager networkID) instanceID networkInstanceData) })

def addInstanceNetworkToCache (manager : NetworkManager) (instanceID networkID : String) :
    NetworkManager :=
  let manager :=
    match Map.get manager.instancesData networkID with
    | some _ => manager
    | none => { manager with instancesData := Map.set manager.instancesData networkID [] }
  { manager with
    instancesData := Map.set manager.instancesData networkID
      (Map.set (networkInstances manager networkID) instanceID { instanceIP := "", hosts := [] }) }

def postNetworkClear (env : Env) (networkID : String) (w : World) : Except Error Unit × World :=
  let w := releaseIPNetPool networkID w
  match removeBridgeInterface env networkID w with
  | (.error err, w) => (.error err, w)
  | (.ok (), w) => (.ok (), w)

def clearNetwork (env : Env) (networkID : String) (w : World) : Except Error Unit × World :=
  let networkDir := w.manager.networkDir ++ [networkID]
  match postNetworkClear env networkID w with
  | (.error err, w) => (.error err, w)
  | (.ok (), w) => (.ok (), (RemoveAll env networkDir w).2)

/-- The statement `delete(manager.instancesData[networkID], instanceID)`: the
inner map is changed in place; deleting from the nil map of a missing network
does nothing. -/
def deleteFromInstancesData (data : InstancesData) (instanceID networkID : String) :
    InstancesData :=
  match Map.get data networkID with
  | some instances => Map.set data networkID (Map.delete instances instanceID)
  | none => data

def deleteInstanceNetworkFromCache (env : Env) (instanceID networkID : String) (w : World) :
    Except Error Unit × World :=
  let w := w.setInstancesData (deleteFromInstancesData w.manager.instancesData instanceID networkID)
  let networkEmpty := (networkInstances w.manager networkID).length == 0
  if networkEmpty then clearNetwork env networkID w else (.ok (), w)

def createResolvConfAndHostFile (env : Env) (networkID instanceIP : String)
    (nameservers : List String) (params : NetworkParams) (w : World) :
    Except Error Unit × World :=
  let hostsStep : Except Error Unit × World :=
    if params.HostsFilePath ≠ "" then
      writeHostToHostsFile env params.HostsFilePath instanceIP networkID params.Hostname
        params.Hosts w
    else (.ok (), w)
  match hostsStep with
  | (.error err, w) => (.error err, w)
  | (.ok (), w) =>
    if params.ResolvConfFilePath ≠ "" then
      let mainServers := ["8.8.8.8"]
      let mainServers := if nameservers.length ≠ 0 then nameservers else mainServers
      match writeResolveConfFile env params.ResolvConfFilePath mainServers params.DNSSevers w with
      | (.error err, w) => (.error err, w)
      | (.ok (), w) => (.ok (), w)
    else (.ok (), w)

def addNetwork (env : Env) (_instanceID : String) (netConfig : NetworkConfigList)
    (runtimeConfig : RuntimeConf) (w : World) : Except Error (List String × String) × World :=
  match AddNetworkList env netConfig runtimeConfig w with
  | (.error err, w) => (.error err, w)
  | (.ok resAdd, w) =>
    match resAdd.GetResult with
    | .error err => (.error err, w)
    | .ok result =>
      if result.IPs.length == 0 then (.error .noIPAddress, w)
      else (.ok (result.DNS.Nameservers, result.IPs.getD 0 ""), w)

def prepareRuntimeConfig (instanceID networkID : String) (hosts : List String) : RuntimeConf :=
  let runtimeConfig : RuntimeConf :=
    { ContainerID := instanceID
      NetNS := GetNetnsPath instanceID
      IfName := instanceIfName
      Args := [("IgnoreUnknown", "1"), ("K8S_POD_NAME", instanceID)]
      CapabilityArgs := [] }
  if hosts.length ≠ 0 then
    { runtimeConfig with
      CapabilityArgs := Map.set runtimeConfig.CapabilityArgs "aliases" [(networkID, hosts)] }
  else runtimeConfig

/-- The three nested loops of `isHostnameExists`: some stored hostname of some
instance equals some new hostname. -/
def hostnameClash (instances : List (String × netInstanceData)) (hosts : List String) : Bool :=
  instances.any fun entry =>
    entry.2.hosts.any fun existHostname =>
      hosts.any fun newHostname => decide (existHostname = newHostname)

def isHostnameExists (manager : NetworkManager) (networkID : String) (hosts : List String) :
    Except Error Unit :=
  match Map.get manager.instancesData networkID with
  | none => .ok ()
  | some instances =>
    if hostnameClash instances hosts then .error .hostnameExists else .ok ()

def tryAppendDomainNameToHostname (hosts : List String) (networkID : String) : List String :=
  hosts.foldl
    (fun acc hostname =>
      if stringsContainsAny hostname "." then acc ++ [stringsJoin [hostname, networkID] "."]
      else acc)
    hosts

/-- The list `prepareHostnameList` has built when it reaches the check
`len(hosts) != 0` (lines 719-731). -/
def baseHostnameList (params : NetworkParams) : List String :=
  let hosts : List String := [] ++ params.Aliases
  let hosts := if params.Hostname ≠ "" then hosts ++ [params.Hostname] else hosts
  if params.ServiceID ≠ "" ∧ params.SubjectID ≠ "" then
    let hosts :=
      hosts ++ [toString params.Instance ++ "." ++ params.SubjectID ++ "." ++ params.ServiceID]
    if params.Instance = 0 then hosts ++ [params.SubjectID ++ "." ++ params.ServiceID]
    else hosts
  else hosts

/-- The list `prepareHostnameList` hands to `isHostnameExists` and returns on
success: the base list with the domain names appended when it is not empty. -/
def hostnameList (networkID : String) (params : NetworkParams) : List String :=
  let hosts := baseHostnameList params
  if hosts.length ≠ 0 then tryAppendDomainNameToHostname hosts networkID else hosts

def prepareHostnameList (manager : NetworkManager) (networkID : String)
    (params : NetworkParams) : Except Error (List String) :=
  let hosts := baseHostnameList params
  if hosts.length ≠ 0 then
    let hosts := tryAppendDomainNameToHostname hosts networkID
    match isHostnameExists manager networkID hosts with
    | .error err => .error err
    | .ok () => .ok hosts
  else .ok hosts

def getBridgePluginConfig (env : Env) (networkDir : Path) (networkID : String)
    (subnetwork : IPNet) : Except Error PluginConf :=
  let (minIPRange, maxIPRange) := env.GetIPAddressRange subnetwork
  let defaultRoute := "0.0.0.0/0"
  .ok (.bridge
    { Type_ := "bridge"
      Bridge := bridgePrefix ++ networkID
      IsGateway := true
      IsDefaultGateway := false
      ForceAddress := false
      IPMasq := true
      MTU := 0
      HairpinMode := true
      PromiscMode := false
      Vlan := 0
      IPAM :=
        { DataDir := networkDir
          Type_ := "host-local"
          Range := { RangeStart := minIPRange, RangeEnd := maxIPRange, Subnet := subnetwork }
          Routes := [defaultRoute] } })

/-- The loop over `exposedPorts` (lines 823-835), `inputAccess` being the list
built so far. -/
def exposedPortsLoop :
    List String → List inputAccessConfig → Except Error (List inputAccessConfig)
  | [], inputAccess => .ok inputAccess
  | exposePort :: rest, inputAccess =>
    let portConfig := stringsSplit exposePort '/'
    if portConfig.length > exposePortConfigExpectedLen ∨ portConfig.length = 0 then
      .error .unsupportedExposedPorts
    else
      let input : inputAccessConfig := { Port := portConfig.getD 0 "", Protocol := "tcp" }
      let input :=
        if portConfig.length = exposePortConfigExpectedLen then
          { input with Protocol := portConfig.getD 1 "" }
        else input
      exposedPortsLoop rest (inputAccess ++ [input])

/-- The loop over `allowedConnections` (lines 838-850), `outputAccess` being
the list built so far. -/
def allowedConnectionsLoop :
    List String → List outputAccessConfig → Except Error (List outputAccessConfig)
  | [], outputAccess => .ok outputAccess
  | allowConn :: rest, outputAccess =>
    let connConf := stringsSplit allowConn '/'
    if connConf.length > allowedConnectionsExpectedLen ∨ connConf.length < 2 then
      .error .unsupportedAllowedConnections
    else
      let output : outputAccessConfig :=
        { UUID := connConf.getD 0 "", Port := connConf.getD 1 "", Protocol := "tcp" }
      let output :=
        if connConf.length = allowedConnectionsExpectedLen then
          { output with Protocol := connConf.getD 2 "" }
        else output
      allowedConnectionsLoop rest (outputAccess ++ [output])

/-- The firewall struct that `getFirewallPluginConfig` marshals. -/
def getFirewallConf (instanceID : String) (exposedPorts allowedConnections : List String) :
    Except Error aosFirewallNetConf :=
  let aosFirewall : aosFirewallNetConf :=
    { Type_ := "aos-firewall"
      UUID := instanceID
      IptablesAdminChainName := adminChainPrefix ++ instanceID
      AllowPublicConnections := true
      InputAccess := []
      OutputAccess := [] }
  match exposedPortsLoop exposedPorts aosFirewall.InputAccess with
  | .error err => .error err
  | .ok inputAccess =>
    let aosFirewall := { aosFirewall with InputAccess := inputAccess }
    match allowedConnectionsLoop allowedConnections aosFirewall.OutputAccess with
    | .error err => .error err
    | .ok outputAccess => .ok { aosFirewall with OutputAccess := outputAccess }

def getFirewallPluginConfig (instanceID : String) (exposedPorts allowedConnections : List String) :
    Except Error PluginConf :=
  match getFirewallConf instanceID exposedPorts allowedConnections with
  | .error err => .error err
  | .ok aosFirewall => .ok (.firewall aosFirewall)

/-- The bandwidth struct that `getBandwidthPluginConfig` marshals; the
products are taken in `uint64`. -/
def getBandwidthConf (ingressKbit egressKbit : Nat) : bandwidthNetConf :=
  let bandwidth : bandwidthNetConf :=
    { Type_ := "bandwidth", IngressRate := 0, IngressBurst := 0, EgressRate := 0, EgressBurst := 0 }
  let bandwidth :=
    if ingressKbit > 0 then
      { bandwidth with IngressRate := ingressKbit * 1000 % uint64Mod, IngressBurst := burstLen }
    else bandwidth
  if egressKbit > 0 then
    { bandwidth with EgressRate := egressKbit * 1000 % uint64Mod, EgressBurst := burstLen }
  else bandwidth

def getBandwidthPluginConfig (ingressKbit egressKbit : Nat) : Except Error PluginConf :=
  .ok (.bandwidth (getBandwidthConf ingressKbit egressKbit))

def getDNSPluginConfig (networkID : String) : Except Error PluginConf :=
  .ok (.dns
    { Type_ := "dnsname"
      MultiDomain := true
      DomainName := networkID
      Capabilities := [("aliases", true)] })

def getRuntimeNetConfig (instanceID networkID : String) : NetworkConfigList × RuntimeConf :=
  ({ Name := networkID, CNIVersion := cniVersion, Plugins := [] },
   { ContainerID := instanceID
     NetNS := [pathToNetNs, instanceID]
     IfName := instanceIfName
     Args := []
     CapabilityArgs := [] })

def prepareNetworkConfigList (env : Env) (networkDir : Path) (instanceID networkID : String)
    (subnetwork : IPNet) (params : NetworkParams) : Except Error NetworkConfigList :=
  let networkConfig : cniNetwork := { Name := networkID, CNIVersion := cniVersion, Plugins := [] }
  match getBridgePluginConfig env networkDir networkID subnetwork with
  | .error err => .error err
  | .ok bridgeConfig =>
    let networkConfig := { networkConfig with Plugins := networkConfig.Plugins ++ [bridgeConfig] }
    match getFirewallPluginConfig instanceID params.ExposedPorts params.AllowedConnections with
    | .error err => .error err
    | .ok firewallConfig =>
      let networkConfig :=
        { networkConfig with Plugins := networkConfig.Plugins ++ [firewallConfig] }
      let bandwidthStep : Except Error cniNetwork :=
        if params.IngressKbit > 0 ∨ params.EgressKbit > 0 then
          match getBandwidthPluginConfig params.IngressKbit params.EgressKbit with
          | .error err => .error err
          | .ok bandwidthConfig =>
            .ok { networkConfig with Plugins := networkConfig.Plugins ++ [bandwidthConfig] }
        else .ok networkConfig
      match bandwidthStep with
      | .error err => .error err
      | .ok networkConfig =>
        match getDNSPluginConfig networkID with
        | .error err => .error err
        | .ok dnsConfig =>
          let networkConfig :=
            { networkConfig with Plugins := networkConfig.Plugins ++ [dnsConfig] }
          ConfListFromBytes env networkConfig

def prepareCNIConfig (env : Env) (instanceID networkID : String) (ipSubnet : IPNet)
    (params : NetworkParams) (w : World) :
    Except Error (NetworkConfigList × RuntimeConf × List String) × World :=
  match prepareHostnameList w.manager networkID params with
  | .error err => (.error err, w)
  | .ok hosts =>
    match prepareNetworkConfigList env w.manager.networkDir instanceID networkID ipSubnet
        params with
    | .error err => (.error err, w)
    | .ok netConfig =>
      match ValidateNetworkList env netConfig w with
      | (.error err, w) => (.error err, w)
      | (.ok (), w) => (.ok (netConfig, prepareRuntimeConfig instanceID networkID hosts, hosts), w)

/-- The body of `removeInstanceFromNetwork` without its deferred function
(lines 635-662). -/
def removeInstanceFromNetworkBody (env : Env) (instanceID networkID : String) (w : World) :
    Except Error Unit × World :=
  let (networkConfig, runtimeConfig) := getRuntimeNetConfig instanceID networkID
  match GetNetworkListCachedConfig env networkConfig runtimeConfig w with
  | (.error err, w) => (.error err, w)
  | (.ok (confBytes, runtimeConfig), w) =>
    match confBytes with
    | none => (.error .instanceNotFound, w)
    | some confBytes =>
      match ConfListFromBytes env confBytes with
      | .error err => (.error err, w)
      | .ok networkConfig =>
        match DelNetworkList env networkConfig runtimeConfig w with
        | (.error err, w) => (.error err, w)
        | (.ok (), w) =>
          match w.manager.trafficMonitoring with
          | some _ =>
            match stopInstanceTrafficMonitor env instanceID w with
            | (.error err, w) => (.error err, w)
            | (.ok (), w) => (.ok (), w)
          | none => (.ok (), w)

/-- The body followed by the deferred function: the namespace is deleted on
every path, and its error is returned only when the body had none. -/
def removeInstanceFromNetwork (env : Env) (instanceID networkID : String) (w : World) :
    Except Error Unit × World :=
  match removeInstanceFromNetworkBody env instanceID networkID w with
  | (err, w) =>
    match DeleteNamed env instanceID w with
    | (.error delErr, w) =>
      match err with
      | .ok () => (.error delErr, w)
      | .error e => (.error e, w)
    | (.ok (), w) => (err, w)

def readInstanceIDFromFile (env : Env) (pathToInstanceID : Path) (w : World) :
    Except Error String × World :=
  match Open env pathToInstanceID w with
  | (.error err, w) => (.error err, w)
  | (.ok lines, w) =>
    let cniInstanceInfo := lines.filter fun line => decide (line ≠ instanceIfName)
    if cniInstanceInfo.length ≠ 1 then (.error .incorrectFileContent, w)
    else (.ok (cniInstanceInfo.getD 0 ""), w)

def tryRemoveInstanceFromNetwork (env : Env) (instanceFileName networkID : String)
    (w : World) : Except Error Unit × World :=
  match readInstanceIDFromFile env (w.manager.networkDir ++ [networkID, instanceFileName])
      w with
  | (.error _, w) => (.ok (), w)
  | (.ok instanceID, w) =>
    match removeInstanceFromNetwork env instanceID networkID w with
    | (.error err, w) => (.error err, w)
    | (.ok (), w) => (.ok (), w)

/-- The loop of `deleteNetworkInstances` over the files of the network
directory; `err` is the first error so far (`none` is nil). -/
def deleteNetworkInstancesLoop (env : Env) (networkID : String) :
    List String → Option Error → World → Option Error × World
  | [], err, w => (err, w)
  | instanceIDFile :: rest, err, w =>
    if skipNetworkFileNames.contains instanceIDFile then
      deleteNetworkInstancesLoop env networkID rest err w
    else
      match tryRemoveInstanceFromNetwork env instanceIDFile networkID w with
      | (.error netErr, w) =>
        deleteNetworkInstancesLoop env networkID rest (if err = none then some netErr else err) w
      | (.ok (), w) => deleteNetworkInstancesLoop env networkID rest err w

def deleteNetworkInstances (env : Env) (networkID : String) (w : World) :
    Except Error Unit × World :=
  let networkDir := w.manager.networkDir ++ [networkID]
  match Stat env networkDir w with
  | (.error _, w) => (.ok (), w)
  | (.ok (), w) =>
    match ReadDir env networkDir w with
    | (.error err, w) => (.error err, w)
    | (.ok filesInstanceID, w) =>
      match deleteNetworkInstancesLoop env networkID filesInstanceID none w with
      | (err, w) =>
        match clearNetwork env networkID w with
        | (.error clearErr, w) =>
          match err with
          | none => (.error clearErr, w)
          | some err => (.error err, w)
        | (.ok (), w) =>
          match err with
          | none => (.ok (), w)
          | some err => (.error err, w)

/-- The loop of `deleteAllNetworks` over the entries of the networks
directory; `err` is the first error so far (`none` is nil). -/
def deleteAllNetworksLoop (env : Env) : List String → Option Error → World → Option Error × World
  | [], err, w => (err, w)
  | networkIDFile :: rest, err, w =>
    match deleteNetworkInstances env networkIDFile w with
    | (.error networkErr, w) =>
      deleteAllNetworksLoop env rest (if err = none then some networkErr else err) w
    | (.ok (), w) => deleteAllNetworksLoop env rest err w

def deleteAllNetworks (env : Env) (w : World) : Except Error Unit × World :=
  match ReadDir env w.manager.networkDir w with
  | (.error _, w) => (.ok (), w)
  | (.ok filesNetworkID, w) =>
    match deleteAllNetworksLoop env filesNetworkID none w with
    | (err, w) =>
      let w := (RemoveAll env w.manager.networkDir w).2
      match err with
      | none => (.ok (), w)
      | some err => (.error err, w)

/-! ## Public -/

/-- New creates network manager instance. The result is the returned manager
(`none` is nil) and the returned error; `trace` holds the calls made before.
The choice of the runtime handle and of the subnet resolver is part of the
environment. -/
def New (env : Env) (cfg : Config) (trafficStorage : Option TrafficStorage) (trace : Trace) :
    (Option NetworkManager × Except Error Unit) × Trace :=
  let cniDir : Path := [cfg.WorkingDir, "cni"]
  let manager : NetworkManager :=
    { hosts := cfg.Hosts, networkDir := cniDir ++ ["networks"], trafficMonitoring := none,
      instancesData := [] }
  let w : World := { manager := manager, trace := trace }
  match newIPam env w with
  | (.error err, w) => ((none, .error err), w.trace)
  | (.ok (), w) =>
    let w := (deleteAllNetworks env w).2
    match RemoveAll env cniDir w with
    | (.error err, w) => ((none, .error err), w.trace)
    | (.ok (), w) =>
      match trafficStorage with
      | some _ =>
        match newTrafficMonitor env w with
        | ((monitor, .error err), w) =>
          ((some { w.manager with trafficMonitoring := monitor }, .error err), w.trace)
        | ((monitor, .ok ()), w) =>
          let w := { w with manager := { w.manager with trafficMonitoring := monitor } }
          let w := runUpdateIptables w
          ((some w.manager, .ok ()), w.trace)
      | none => ((some w.manager, .ok ()), w.trace)


/-- Lines 285-310 of `AddInstanceToNetwork`: the steps that follow the
registration of the deferred `DelNetworkList`. -/
def addInstanceToNetworkAttach (env : Env) (instanceID networkID : String)
    (params : NetworkParams) (netConfig : NetworkConfigList) (runtimeConfig : RuntimeConf)
    (hosts : List String) (w : World) : Except Error Unit × World :=
  match addNetwork env instanceID netConfig runtimeConfig w with
  | (.error err, w) => (.error err, w)
  | (.ok (nameservers, instanceIP), w) =>
    match createResolvConfAndHostFile env networkID instanceIP nameservers params w with
    | (.error err, w) => (.error err, w)
    | (.ok (), w) =>
      let monitorStep : Except Error Unit × World :=
        match w.manager.trafficMonitoring with
        | some _ =>
          startInstanceTrafficMonitor env instanceID instanceIP params.DownloadLimit
            params.UploadLimit w
        | none => (.ok (), w)
      match monitorStep with
      | (.error err, w) => (.error err, w)
      | (.ok (), w) =>
        match updateInstanceNetworkCache w.manager instanceID networkID instanceIP hosts with
        | (.error err, manager) => (.error err, { w with manager := manager })
        | (.ok (), manager) => (.ok (), { w with manager := manager })

/-- Lines 272-310: the configuration is prepared, the deferred
`DelNetworkList` is registered and runs when a later step fails; its own error
is logged only. -/
def addInstanceToNetworkConfigured (env : Env) (instanceID networkID : String)
    (ipSubnet : IPNet) (params : NetworkParams) (w : World) : Except Error Unit × World :=
  match prepareCNIConfig env instanceID networkID ipSubnet params w with
  | (.error err, w) => (.error err, w)
  | (.ok (netConfig, runtimeConfig, hosts), w) =>
    match addInstanceToNetworkAttach env instanceID networkID params netConfig runtimeConfig
        hosts w with
    | (.error err, w) => (.error err, (DelNetworkList env netConfig runtimeConfig w).2)
    | (.ok (), w) => (.ok (), w)

/-- Lines 260-310: the namespace is created, the deferred `netns.DeleteNamed`
is registered and runs when a later step fails; its own error is logged
only. -/
def addInstanceToNetworkInNetNS (env : Env) (instanceID networkID : String)
    (ipSubnet : IPNet) (params : NetworkParams) (w : World) : Except Error Unit × World :=
  match createNetNS env instanceID w with
  | (.error err, w) => (.error err, w)
  | (.ok (), w) =>
    match addInstanceToNetworkConfigured env instanceID networkID ipSubnet params w with
    | (.error err, w) => (.error err, (DeleteNamed env instanceID w).2)
    | (.ok (), w) => (.ok (), w)

/-- AddInstanceToNetwork adds instance to network. The deferred functions run
in the reverse order of their registration and only when the call returns an
error; the one registered first removes the pair from the cache. -/
def AddInstanceToNetwork (env : Env) (instanceID networkID : String) (params : NetworkParams)
    (w : World) : Except Error Unit × World :=
  if isInstanceInNetwork w.manager instanceID networkID then (.error .alreadyInNetwork, w)
  else
    match GetIPSubnet env networkID w with
    | (.error err, w) => (.error err, w)
    | (.ok ipSubnet, w) =>
      let w := { w with manager := addInstanceNetworkToCache w.manager instanceID networkID }
      match addInstanceToNetworkInNetNS env instanceID networkID ipSubnet params w with
      | (.error err, w) =>
        (.error err, (deleteInstanceNetworkFromCache env instanceID networkID w).2)
      | (.ok (), w) => (.ok (), w)

/-- RemoveInstanceFromNetwork removes instance from network. -/
def RemoveInstanceFromNetwork (env : Env) (instanceID networkID : String) (w : World) :
    Except Error Unit × World :=
  if !isInstanceInNetwork w.manager instanceID networkID then (.ok (), w)
  else
    let monitorStep : Except Error Unit × World :=
      match w.manager.trafficMonitoring with
      | some _ => stopInstanceTrafficMonitor env instanceID w
      | none => (.ok (), w)
    match monitorStep with
    | (.error err, w) => (.error err, w)
    | (.ok (), w) =>
      match removeInstanceFromNetwork env instanceID networkID w with
      | (.error err, w) => (.error err, w)
      | (.ok (), w) => deleteInstanceNetworkFromCache env instanceID networkID w

/-- GetInstanceIP return instance IP address. -/
def GetInstanceIP (manager : NetworkManager) (instanceID networkID : String) :
    Except Error String :=
  if !isInstanceInNetwork manager instanceID networkID then .error .notInNetwork
  else
    match Map.get (networkInstances manager networkID) instanceID with
    | some data => .ok data.instanceIP
    | none => .ok ""

def GetSystemTraffic (env : Env) (w : World) : Except Error (Nat × Nat) :=
  match w.manager.trafficMonitoring with
  | none => .error .trafficMonitorDisable
  | some monitor =>
    match env.getInputOutputTrafficData w.trace monitor.inChain monitor.outChain with
    | .error err => .error err
    | .ok (inputTrafficData, outputTrafficData) => .ok (inputTrafficData, outputTrafficData)

def GetInstanceTraffic (env : Env) (instanceID : String) (w : World) :
    Except Error (Nat × Nat) :=
  match w.manager.trafficMonitoring with
  | none => .error .trafficMonitorDisable
  | some _ =>
    match env.getInstanceChains w.trace instanceID with
    | none => .error .chainNotFound
    | some (inChain, outChain) =>
      match env.getInputOutputTrafficData w.trace inChain outChain with
      | .error err => .error err
      | .ok (inTrafficData, outTrafficData) => .ok (inTrafficData, outTrafficData)

/-- The constants `MinutePeriod` and `YearPeriod` are declared outside this
file and are parameters here. -/
def SetTrafficPeriod (MinutePeriod YearPeriod : Int) (manager : NetworkManager) (period : Int) :
    Except Error Unit × NetworkManager :=
  match manager.trafficMonitoring with
  | none => (.error .trafficMonitorDisable, manager)
  | some monitor =>
    if period < MinutePeriod ∨ period > YearPeriod then (.error .unexpectedPeriod, manager)
    else (.ok (), { manager with trafficMonitoring := some { monitor with trafficPeriod := period } })

/-! ## Observations and sample data -/

/-- The entry of the pair in the cache, when there is one:
`manager.instancesData[networkID][instanceID]` with its presence flag. -/
def instanceData (manager : NetworkManager) (instanceID networkID : String) :
    Option netInstanceData :=
  (Map.get manager.instancesData networkID).bind fun instances => Map.get instances instanceID

/-- Whether a call is an operation of the plugin runtime. -/
def Call.isRuntime : Call → Bool
  | .ValidateNetworkList _ => true
  | .AddNetworkList _ _ => true
  | .DelNetworkList _ _ => true
  | .GetNetworkListCachedConfig _ _ => true
  | _ => false

def sampleSubnet : IPNet :=
  { IP := [172, 17, 0, 0], Mask := [255, 255, 0, 0] }

/-- An add result with the given addresses and no nameserver. -/
def resultWith (ips : List String) : TypesResult :=
  { GetResult := .ok { IPs := ips, DNS := { Nameservers := [] } } }

/-- Every collaborator succeeds and the runtime's add reports `ips`. -/
def envWith (ips : List String) : Env :=
  { GetIPSubnet := fun _ _ => .ok sampleSubnet
    GetIPAddressRange := fun _ => ([172, 17, 0, 1], [172, 17, 255, 254])
    createNetNS := fun _ _ => .ok ()
    DeleteNamed := fun _ _ => .ok ()
    ValidateNetworkList := fun _ _ => .ok ()
    AddNetworkList := fun _ _ _ => .ok (resultWith ips)
    DelNetworkList := fun _ _ _ => .ok ()
    GetNetworkListCachedConfig := fun _ netConfig runtimeConfig =>
      .ok (some { Name := netConfig.Name, CNIVersion := netConfig.CNIVersion, Plugins := [] },
        runtimeConfig)
    confListRejected := fun _ => none
    startInstanceTrafficMonitor := fun _ _ _ _ _ => .ok ()
    stopInstanceTrafficMonitor := fun _ _ => .ok ()
    getInstanceChains := fun _ _ => none
    getInputOutputTrafficData := fun _ _ _ => .ok (0, 0)
    writeHostToHostsFile := fun _ _ _ _ _ _ => .ok ()
    writeResolveConfFile := fun _ _ _ _ => .ok ()
    removeBridgeInterface := fun _ _ => .ok ()
    RemoveAll := fun _ _ => .ok ()
    newIPam := fun _ => .ok ()
    ReadDir := fun _ _ => .ok []
    Stat := fun _ _ => .ok ()
    Open := fun _ _ => .ok []
    newTrafficMonitor := fun _ =>
      (some { trafficPeriod := 1, inChain := "AOS_SYSTEM_IN", outChain := "AOS_SYSTEM_OUT" },
        .ok ()) }

/-- Every collaborator succeeds and the runtime's add reports 172.17.0.2. -/
def envOK : Env := envWith ["172.17.0.2"]

/-- As `envOK`, but the runtime rejects every add. -/
def envAddFails : Env :=
  { envOK with AddNetworkList := fun _ _ _ => .error (.external 1) }

/-- A manager with an empty cache and no traffic monitor. -/
def emptyManager : NetworkManager :=
  { hosts := [], networkDir := ["/var/aos", "cni", "networks"], trafficMonitoring := none,
    instancesData := [] }

/-- A manager with an empty cache and a traffic monitor of period 1. -/
def monitoredManager : NetworkManager :=
  { emptyManager with
    trafficMonitoring := some { trafficPeriod := 1, inChain := "AOS_SYSTEM_IN",
                                outChain := "AOS_SYSTEM_OUT" } }

def emptyWorld : World :=
  { manager := emptyManager, trace := [] }

/-- No identifiers, hostname, aliases, ports or limits. -/
def noParams : NetworkParams :=
  { ServiceID := "", SubjectID := "", Instance := 0, Hostname := "", Aliases := [],
    IngressKbit := 0, EgressKbit := 0, ExposedPorts := [], AllowedConnections := [],
    Hosts := [], DNSSevers := [], HostsFilePath := "", ResolvConfFilePath := "",
    UploadLimit := 0, DownloadLimit := 0 }

/-- Hostname "web", exposed port "80/tcp", no bandwidth limits. -/
def webParams : NetworkParams :=
  { noParams with Hostname := "web", ExposedPorts := ["80/tcp"] }

/-- The world in which instance i1 is attached to network n1 with hostname
"web" and address 172.17.0.2. -/
def webWorld : World :=
  { manager :=
      { emptyManager with
        instancesData := [("n1", [("i1", { instanceIP := "172.17.0.2", hosts := ["web"] })])] }
    trace := [] }

/-- The world `w'` comes from `w` by external calls only: the manager is the
same and the trace has grown at its end. -/
def World.Extends (w w' : World) : Prop :=
  w'.manager = w.manager ∧ w.trace <+: w'.trace

/-- What a successful run of the attach steps on the manager `manager` (the
cache with the placeholder in it) and the trace `trace` has done when it ends
in `w'`: the hostname list passed the check, the runtime's add was called at
some later trace `t` and gave a result whose first address is `instanceIP`,
and the cache entry was finalized with that address and the hostnames. -/
def AttachOutcome (env : Env) (instanceID networkID : String) (params : NetworkParams)
    (manager : NetworkManager) (trace : Trace) (w' : World) : Prop :=
  ∃ (t : Trace) (netConfig : NetworkConfigList) (runtimeConfig : RuntimeConf)
    (resAdd : TypesResult) (result : Result) (instanceIP : String) (rest hosts : List String),
    trace <+: t ∧
    (t ++ [Call.AddNetworkList netConfig runtimeConfig]) <+: w'.trace ∧
    env.AddNetworkList t netConfig runtimeConfig = .ok resAdd ∧
    resAdd.GetResult = .ok result ∧
    result.IPs = instanceIP :: rest ∧
    prepareHostnameList manager networkID params = .ok hosts ∧
    updateInstanceNetworkCache manager instanceID networkID instanceIP hosts
      = (.ok (), w'.manager)

/-- The worlds reached from a world with an empty cache by a sequence of
attach and detach calls that do not interleave; each call may succeed or
fail. -/
inductive Reachable (env : Env) : World → Prop where
  | init (w : World) (h : w.manager.instancesData = []) : Reachable env w
  | add (w : World) (instanceID networkID : String) (params : NetworkParams)
      (h : Reachable env w) :
      Reachable env (AddInstanceToNetwork env instanceID networkID params w).2
  | remove (w : World) (instanceID networkID : String) (h : Reachable env w) :
      Reachable env (RemoveInstanceFromNetwork env instanceID networkID w).2

/-- No two distinct instances of one network have a stored hostname in
common. -/
def HostnamesUnique (manager : NetworkManager) : Prop :=
  ∀ (networkID i j : String) (di dj : netInstanceData) (name : String),
    i ≠ j → instanceData manager i networkID = some di →
    instanceData manager j networkID = some dj → name ∈ di.hosts → name ∉ dj.hosts

/-! ## Descriptions of the configuration builder

The definitions of this section follow the words of the specification; the
properties compare them with the functions above. -/

/-- The number of '/' in an entry. -/
def slashCount (entry : String) : Nat :=
  entry.toList.count '/'

/-- The text of an entry before its first '/': the whole entry when it has
none. -/
def textBeforeSlash (entry : String) : String :=
  String.mk (entry.toList.takeWhile fun c => decide (c ≠ '/'))

/-- The text of an entry after its first '/'. -/
def textAfterSlash (entry : String) : String :=
  String.mk ((entry.toList.dropWhile fun c => decide (c ≠ '/')).drop 1)

/-- The inbound element of an exposed-ports entry "port[/protocol]": the port
is the text before the '/', the protocol the text after it, or "tcp" when the
entry has no '/'. -/
def inputAccessOf (entry : String) : inputAccessConfig :=
  { Port := textBeforeSlash entry
    Protocol := if slashCount entry = 0 then "tcp" else textAfterSlash entry }

/-- The segments an entry splits into at '/'. -/
def segments (entry : String) : List String :=
  stringsSplit entry '/'

/-- The outbound element of an allowed-connections entry
"peerInstanceID/port[/protocol]": peer UUID is the first segment, port the
second, protocol the third, or "tcp" when there are only two. -/
def outputAccessOf (entry : String) : outputAccessConfig :=
  { UUID := (segments entry).getD 0 ""
    Port := (segments entry).getD 1 ""
    Protocol := if (segments entry).length = 3 then (segments entry).getD 2 "" else "tcp" }

/-- Whether a hostname contains a dot. -/
def hasDot (hostname : String) : Bool :=
  decide ('.' ∈ hostname.toList)

/-- The hostname assembly in the words of the specification: all aliases, then
the hostname if it is not empty, then, only when both the service and the
subject identifier are not empty, "<Instance>.<SubjectID>.<ServiceID>",
followed by "<SubjectID>.<ServiceID>" exactly when the instance index is 0. -/
def assembledHostnames (params : NetworkParams) : List String :=
  params.Aliases
    ++ (if params.Hostname = "" then [] else [params.Hostname])
    ++ (if params.ServiceID = "" ∨ params.SubjectID = "" then []
        else
          [toString params.Instance ++ "." ++ params.SubjectID ++ "." ++ params.ServiceID]
            ++ (if params.Instance = 0 then [params.SubjectID ++ "." ++ params.ServiceID]
                else []))

/-- The main DNS servers in the words of the code: the runtime's nameservers
when it returned any, the fixed public resolver otherwise. -/
def mainServersOf (nameservers : List String) : List String :=
  if nameservers.length ≠ 0 then nameservers else ["8.8.8.8"]

/-- As `envOK`, but the runtime's cached-config lookup reports no
configuration: no bytes and no error. -/
def envNoCachedConfig : Env :=
  { envOK with
    GetNetworkListCachedConfig := fun _ _ runtimeConfig => .ok (none, runtimeConfig) }

/-- As `envOK`, but the removal of a bridge fails. -/
def envBridgeFails : Env :=
  { envOK with removeBridgeInterface := fun _ _ => .error (.external 2) }

/-- A resolv.conf path and one DNS server supplied by the caller. -/
def dnsParams : NetworkParams :=
  { noParams with ResolvConfFilePath := "/etc/resolv.conf", DNSSevers := ["1.1.1.1"] }

/-- The world in which i1 and i2 are attached to n1. -/
def twoWorld : World :=
  { manager :=
      { emptyManager with
        instancesData :=
          [("n1", [("i1", { instanceIP := "172.17.0.2", hosts := ["web"] }),
                   ("i2", { instanceIP := "172.17.0.3", hosts := ["db"] })])] }
    trace := [] }

/-- Whether a call belongs to the teardown of a network: release of its
subnet, removal of its bridge, deletion of its working directory. -/
def Call.isTeardown : Call → Bool
  | .releaseIPNetPool _ => true
  | .removeBridgeInterface _ => true
  | .RemoveAll _ => true
  | _ => false

/-- Lines 321-325 of `RemoveInstanceFromNetwork`: the traffic monitor of the
instance is stopped when the manager has a traffic monitor. -/
def stopMonitorStep (env : Env) (instanceID : String) (w : World) : Except Error Unit × World :=
  match w.manager.trafficMonitoring with
  | some _ => stopInstanceTrafficMonitor env instanceID w
  | none => (.ok (), w)

/-- The world right after the placeholder insert of `AddInstanceToNetwork`:
the subnet has been resolved and the pair is in the cache with an empty
entry. -/
def afterPlaceholder (instanceID networkID : String) (w : World) : World :=
  { manager := addInstanceNetworkToCache w.manager instanceID networkID
    trace := w.trace ++ [Call.GetIPSubnet networkID] }

/-- The chain `prepareNetworkConfigList` builds for instance i2 in network n1
with `noParams` in the sample environments. -/
def sampleChain : NetworkConfigList :=
  { Name := "n1"
    CNIVersion := "0.4.0"
    Plugins :=
      [.bridge
        { Type_ := "bridge", Bridge := "br-n1", IsGateway := true, IsDefaultGateway := false,
          ForceAddress := false, IPMasq := true, MTU := 0, HairpinMode := true,
          PromiscMode := false, Vlan := 0,
          IPAM :=
            { DataDir := ["/var/aos", "cni", "networks"], Type_ := "host-local",
              Range := { RangeStart := [172, 17, 0, 1], RangeEnd := [172, 17, 255, 254],
                         Subnet := sampleSubnet },
              Routes := ["0.0.0.0/0"] } },
       .firewall
        { Type_ := "aos-firewall", UUID := "i2", IptablesAdminChainName := "INSTANCE_i2",
          AllowPublicConnections := true, InputAccess := [], OutputAccess := [] },
       .dns
        { Type_ := "dnsname", MultiDomain := true, DomainName := "n1",
          Capabilities := [("aliases", true)] }] }

/-- As `envOK`, but the namespace deletion fails. -/
def envDeleteNamedFails : Env :=
  { envOK with DeleteNamed := fun _ _ => .error (.external 3) }

/-- As `envOK`, but the runtime's del and the namespace deletion fail. -/
def envDelFails : Env :=
  { envOK with
    DelNetworkList := fun _ _ _ => .error (.external 4)
    DeleteNamed := fun _ _ => .error (.external 3) }

/-! ## Two concurrent attaches

`AddInstanceToNetwork` holds the lock of the manager only inside the helpers
it calls: the check of line 241 runs under the read lock, the placeholder
insert of line 250 under the write lock, and the lock is free in between. A
call is split here at these points, and two calls on the same manager are
interleaved step by step. The steps after the placeholder insert run several
critical sections of the same call in a row, which is one of the schedules of
the code. -/

/-- Where a call of `AddInstanceToNetwork` stands: the step it runs next, or
the error it has returned. -/
inductive AttachState where
  | atCheck
  | atSubnet
  | atPlaceholder (ipSubnet : IPNet)
  | atNetNS (ipSubnet : IPNet)
  | atConfig (ipSubnet : IPNet)
  | returned (result : Except Error Unit)
  deriving DecidableEq, Repr

/-- One step of a call of `AddInstanceToNetwork`: the check of lines 241-243,
the subnet resolution of lines 245-248, the placeholder insert of line 250,
the namespace creation of lines 260-262, and lines 272-310; a step that
returns an error runs the deferred functions registered before it. -/
def attachStep (env : Env) (instanceID networkID : String) (params : NetworkParams) :
    AttachState → World → AttachState × World
  | .atCheck, w =>
    if isInstanceInNetwork w.manager instanceID networkID then
      (.returned (.error .alreadyInNetwork), w)
    else (.atSubnet, w)
  | .atSubnet, w =>
    match GetIPSubnet env networkID w with
    | (.error err, w) => (.returned (.error err), w)
    | (.ok ipSubnet, w) => (.atPlaceholder ipSubnet, w)
  | .atPlaceholder ipSubnet, w =>
    (.atNetNS ipSubnet,
      { w with manager := addInstanceNetworkToCache w.manager instanceID networkID })
  | .atNetNS ipSubnet, w =>
    match createNetNS env instanceID w with
    | (.error err, w) =>
      (.returned (.error err), (deleteInstanceNetworkFromCache env instanceID networkID w).2)
    | (.ok (), w) => (.atConfig ipSubnet, w)
  | .atConfig ipSubnet, w =>
    match addInstanceToNetworkConfigured env instanceID networkID ipSubnet params w with
    | (.error err, w) =>
      (.returned (.error err),
        (deleteInstanceNetworkFromCache env instanceID networkID
          (DeleteNamed env instanceID w).2).2)
    | (.ok (), w) => (.returned (.ok ()), w)
  | .returned result, w => (.returned result, w)

/-- The call run on its own for `steps` steps. -/
def attachRun (env : Env) (instanceID networkID : String) (params : NetworkParams) :
    Nat → AttachState × World → AttachState × World
  | 0, s => s
  | steps + 1, s =>
    attachRun env instanceID networkID params steps
      (attachStep env instanceID networkID params s.1 s.2)

/-- One of two callers of `AddInstanceToNetwork`. -/
inductive Caller where
  | first
  | second
  deriving DecidableEq, Repr

/-- Two calls of `AddInstanceToNetwork` in progress on one manager. -/
structure Concurrent where
  stateFirst : AttachState
  stateSecond : AttachState
  world : World
  deriving DecidableEq, Repr

/-- Both calls are about to start. -/
def Concurrent.start (w : World) : Concurrent :=
  { stateFirst := .atCheck, stateSecond := .atCheck, world := w }

/-- The chosen caller runs its next step; both calls are for the same pair. -/
def concurrentStep (env : Env) (instanceID networkID : String)
    (paramsFirst paramsSecond : NetworkParams) (s : Concurrent) : Caller → Concurrent
  | .first =>
    { s with
      stateFirst := (attachStep env instanceID networkID paramsFirst s.stateFirst s.world).1
      world := (attachStep env instanceID networkID paramsFirst s.stateFirst s.world).2 }
  | .second =>
    { s with
      stateSecond := (attachStep env instanceID networkID paramsSecond s.stateSecond s.world).1
      world := (attachStep env instanceID networkID paramsSecond s.stateSecond s.world).2 }

/-- The interleaving given by a schedule, its first entry first. -/
def runSchedule (env : Env) (instanceID networkID : String)
    (paramsFirst paramsSecond : NetworkParams) (schedule : List Caller) (s : Concurrent) :
    Concurrent :=
  schedule.foldl (concurrentStep env instanceID networkID paramsFirst paramsSecond) s

/-- Whether the namespace of the instance exists after the calls of the trace:
the last creation or deletion of it is a creation. -/
def namespaceExists (trace : Trace) (instanceID : String) : Bool :=
  (trace.filter fun c => c = Call.createNetNS instanceID ∨ c = Call.DeleteNamed instanceID).getLast?
    = some (Call.createNetNS instanceID)

/-- As `envOK`, but a namespace that exists cannot be created again. -/
def envNetNSExclusive : Env :=
  { envOK with
    createNetNS := fun trace instanceID =>
      if namespaceExists trace instanceID then .error (.external 5) else .ok () }

/-- Both checks first, then the first call to its return, then the second. -/
def checksFirst : List Caller :=
  [.first, .second, .first, .first, .first, .first, .second, .second, .second, .second]

/-- The second call starts when the first has inserted its placeholder. -/
def checkAfterPlaceholder : List Caller :=
  [.first, .first, .first, .second]

end networkmanager

/-!
# aos_servicemanager: digest of an unpacked directory

A shallow embedding of `dirDigest` of `servicemanager/image.go`.

* The hash function SHA-256 is a parameter `sha256` from byte strings to byte
  strings; `%x` is the lowercase hexadecimal text `hexEncode`.
* A hash object is given by the text written to it so far; the text written
  by `dirDigest` is ASCII, its bytes are the codes of its characters.
* `open` is a function of the file name: what it returns does not depend on
  earlier calls. A reader is given by what `io.Copy` obtains from it.
* `sort.Strings` orders strings by their bytes; on the strings of Lean this
  is the lexicographic order of the characters.
* The slice of the caller is a list; `dirDigest` returns, next to its result,
  the list of the caller as it is after the call.
-/

namespace servicemanager

/-- Error conditions of `dirDigest`: the file-name error of its own, or an
error handed back by `open` or by the reader. -/
inductive Error where
  | newLineInFileName
  | external (code : Nat)
  deriving DecidableEq, Repr

/-- A byte string. -/
abbrev Bytes := List Nat

/-- The argument `open`: its error, or a reader, which is given by the outcome
of `io.Copy` from it: the content of the file, or a read error. -/
abbrev Opener := String → Except Error (Except Error Bytes)

/-- The order `sort.Strings` sorts by. -/
def stringLE (a b : String) : Prop :=
  a.toList ≤ b.toList

instance stringLE.decidable : DecidableRel stringLE :=
  fun a b => inferInstanceAs (Decidable (a.toList ≤ b.toList))

/-- The library `sort.Strings`, as the list in increasing order. -/
def sortStrings (files : List String) : List String :=
  files.insertionSort stringLE

/-- The library `strings.Contains(s, substr)` for a `substr` of one character
(the code looks for "\n" only). -/
def stringsContains (s : String) (c : Char) : Bool :=
  s.toList.contains c

/-- One hexadecimal digit. -/
def hexDigit (n : Nat) : Char :=
  "0123456789abcdef".toList.getD n '0'

/-- The text `%x` of a byte string: two lowercase hexadecimal digits per
byte. -/
def hexEncode (bytes : Bytes) : String :=
  String.mk (bytes.flatMap fun b => [hexDigit (b / 16 % 16), hexDigit (b % 16)])

/-- The bytes of an ASCII text. -/
def textBytes (text : String) : Bytes :=
  text.toList.map Char.toNat

/-- The loop of `dirDigest` over the sorted names; `h` is the text written to
the hash object so far. -/
def dirDigestLoop (sha256 : Bytes → Bytes) (open_ : Opener) :
    List String → String → Except Error String
  | [], h => .ok h
  | file :: rest, h =>
    if stringsContains file '\n' then .error .newLineInFileName
    else
      match open_ file with
      | .error err => .error err
      | .ok r =>
        match r with
        | .error err => .error err
        | .ok content =>
          dirDigestLoop sha256 open_ rest (h ++ hexEncode (sha256 content) ++ "\n")

/-- The function `dirDigest`. The first component is its result, the second
the list of the caller after the call: the names are copied to a new slice
before they are sorted. -/
def dirDigest (sha256 : Bytes → Bytes) (files : List String) (open_ : Opener) :
    Except Error String × List String :=
  let caller := files
  let files := ([] : List String) ++ caller
  let files := sortStrings files
  match dirDigestLoop sha256 open_ files "" with
  | .error err => (.error err, caller)
  | .ok h => (.ok ("sha256:" ++ hexEncode (sha256 (textBytes h))), caller)

/-- The text that the hash object has received when every file of `names` has
been read: one line per name, in the order of `names`, with the hexadecimal
hash of the content of the file. -/
def hashLines (sha256 : Bytes → Bytes) (content : String → Bytes) : List String → String
  | [] => ""
  | file :: rest =>
    hexEncode (sha256 (content file)) ++ "\n" ++ hashLines sha256 content rest

/-- A sample hash: the length of the input and the sum of its bytes. -/
def sampleSha (bytes : Bytes) : Bytes :=
  [bytes.length % 256, bytes.sum % 256]

/-- A sample `open`: the files "a" and "b" have a content, "c" cannot be
read, every other file cannot be opened. -/
def sampleOpen : Opener := fun file =>
  if file = "a" then .ok (.ok [1, 2, 3])
  else if file = "b" then .ok (.ok [255])
  else if file = "c" then .ok (.error (.external 2))
  else .error (.external 1)

end servicemanager

namespace networkmanager

/-! # Properties -/

/-! ## Go maps -/

theorem Map.get_set_self {V : Type} (m : List (String × V)) (k : String) (v : V) :
    Map.get (Map.set m k v) k = some v := by
  induction m with
  | nil => simp [Map.set, Map.get]
  | cons kv m ih =>
    obtain ⟨k0, x⟩ := kv
    by_cases h : k0 = k <;> simp [Map.set, Map.get, h, ih]

theorem Map.get_set_of_ne {V : Type} (m : List (String × V)) {k k' : String} (v : V)
    (h : k ≠ k') : Map.get (Map.set m k v) k' = Map.get m k' := by
  induction m with
  | nil => simp [Map.set, Map.get, h]
  | cons kv m ih =>
    obtain ⟨k0, x⟩ := kv
    by_cases h0 : k0 = k
    · subst h0
      simp [Map.set, Map.get, h]
    · by_cases h1 : k0 = k'
      · subst h1
        simp [Map.set, Map.get, h0]
      · simp [Map.set, Map.get, h0, h1, ih]

theorem Map.get_delete_self {V : Type} (m : List (String × V)) (k : String) :
    Map.get (Map.delete m k) k = none := by
  induction m with
  | nil => simp [Map.delete, Map.get]
  | cons kv m ih =>
    obtain ⟨k0, x⟩ := kv
    by_cases h : k0 = k
    · simpa [Map.delete, List.filter_cons, h] using ih
    · simpa [Map.delete, List.filter_cons, h, Map.get] using ih

theorem Map.get_delete_of_ne {V : Type} (m : List (String × V)) {k k' : String}
    (h : k ≠ k') : Map.get (Map.delete m k) k' = Map.get m k' := by
  induction m with
  | nil => simp [Map.delete, Map.get]
  | cons kv m ih =>
    obtain ⟨k0, x⟩ := kv
    by_cases h0 : k0 = k
    · subst h0
      simpa [Map.delete, List.filter_cons, Map.get, h] using ih
    · by_cases h1 : k0 = k'
      · subst h1
        simp [Map.delete, List.filter_cons, Map.get, h0]
      · simpa [Map.delete, List.filter_cons, Map.get, h0, h1] using ih

theorem Map.mem_of_get {V : Type} (m : List (String × V)) {k : String} {v : V}
    (h : Map.get m k = some v) : (k, v) ∈ m := by
  induction m with
  | nil => simp [Map.get] at h
  | cons kv m ih =>
    obtain ⟨k0, x⟩ := kv
    by_cases h0 : k0 = k
    · subst h0
      simp [Map.get] at h
      simp [h]
    · simp [Map.get, h0] at h
      exact List.mem_cons_of_mem _ (ih h)

theorem Map.set_set {V : Type} (m : List (String × V)) (k : String) (a b : V) :
    Map.set (Map.set m k a) k b = Map.set m k b := by
  induction m with
  | nil => simp [Map.set]
  | cons kv m ih =>
    obtain ⟨k0, x⟩ := kv
    by_cases h : k0 = k <;> simp [Map.set, h, ih]

theorem Map.set_of_get {V : Type} (m : List (String × V)) {k : String} {v : V}
    (h : Map.get m k = some v) : Map.set m k v = m := by
  induction m with
  | nil => simp [Map.get] at h
  | cons kv m ih =>
    obtain ⟨k0, x⟩ := kv
    by_cases h0 : k0 = k
    · simp only [Map.get, h0, if_true, Option.some.injEq] at h
      simp [Map.set, h0, h]
    · simp only [Map.get, h0, if_false] at h
      simp [Map.set, h0, ih h]

theorem Map.delete_set_of_get_none {V : Type} (m : List (String × V)) {k : String} (v : V)
    (h : Map.get m k = none) : Map.delete (Map.set m k v) k = m := by
  induction m with
  | nil => simp [Map.set, Map.delete]
  | cons kv m ih =>
    obtain ⟨k0, x⟩ := kv
    by_cases h0 : k0 = k
    · simp [Map.get, h0] at h
    · simp only [Map.get, h0, if_false] at h
      have := ih h
      simp only [Map.delete] at this
      simp [Map.set, Map.delete, h0, List.filter_cons, this]

/-! ## The cache -/

theorem addInstanceNetworkToCache_fields (manager : NetworkManager)
    (instanceID networkID : String) :
    (addInstanceNetworkToCache manager instanceID networkID).hosts = manager.hosts ∧
      (addInstanceNetworkToCache manager instanceID networkID).networkDir = manager.networkDir ∧
      (addInstanceNetworkToCache manager instanceID networkID).trafficMonitoring
        = manager.trafficMonitoring := by
  unfold addInstanceNetworkToCache
  cases Map.get manager.instancesData networkID <;> exact ⟨rfl, rfl, rfl⟩

/-- Inserting the placeholder of a pair that is not cached into a network the
cache already knows, and deleting it again, gives back the cache. -/
theorem deleteFromInstancesData_addInstanceNetworkToCache (manager : NetworkManager)
    (instanceID networkID : String) (instances : List (String × netInstanceData))
    (hnet : Map.get manager.instancesData networkID = some instances)
    (hnew : isInstanceInNetwork manager instanceID networkID = false) :
    deleteFromInstancesData (addInstanceNetworkToCache manager instanceID networkID).instancesData
      instanceID networkID = manager.instancesData := by
  have hget : Map.get instances instanceID = none := by
    unfold isInstanceInNetwork at hnew
    simp only [hnet] at hnew
    cases hg : Map.get instances instanceID with
    | none => rfl
    | some d => simp [hg] at hnew
  unfold addInstanceNetworkToCache deleteFromInstancesData networkInstances
  simp only [hnet, Option.getD_some, Map.get_set_self, Map.set_set]
  rw [Map.delete_set_of_get_none _ _ hget]
  exact Map.set_of_get _ hnet

theorem isInstanceInNetwork_eq_isSome (manager : NetworkManager) (instanceID networkID : String) :
    isInstanceInNetwork manager instanceID networkID
      = (instanceData manager instanceID networkID).isSome := by
  unfold isInstanceInNetwork instanceData
  cases h : Map.get manager.instancesData networkID with
  | none => simp
  | some instances => cases h2 : Map.get instances instanceID <;> simp [h2]

theorem instanceData_addInstanceNetworkToCache (manager : NetworkManager)
    (instanceID networkID j n' : String) :
    instanceData (addInstanceNetworkToCache manager instanceID networkID) j n'
      = if networkID = n' ∧ instanceID = j then some { instanceIP := "", hosts := [] }
        else instanceData manager j n' := by
  unfold addInstanceNetworkToCache instanceData networkInstances
  by_cases hn : networkID = n'
  · subst hn
    by_cases hi : instanceID = j
    · subst hi
      cases h : Map.get manager.instancesData networkID <;>
        simp [h, Map.get_set_self]
    · cases h : Map.get manager.instancesData networkID <;>
        simp [h, hi, Map.get_set_self, Map.get_set_of_ne, Map.get]
  · cases h : Map.get manager.instancesData networkID <;>
      simp [h, hn, Map.get_set_of_ne]

theorem instanceData_deleteFromInstancesData (manager : NetworkManager)
    (instanceID networkID j n' : String) :
    instanceData
        { manager with
          instancesData := deleteFromInstancesData manager.instancesData instanceID networkID }
        j n'
      = if networkID = n' ∧ instanceID = j then none else instanceData manager j n' := by
  unfold deleteFromInstancesData instanceData
  by_cases hn : networkID = n'
  · subst hn
    by_cases hi : instanceID = j
    · subst hi
      cases h : Map.get manager.instancesData networkID <;>
        simp [h, Map.get_set_self, Map.get_delete_self]
    · cases h : Map.get manager.instancesData networkID <;>
        simp [h, hi, Map.get_set_self, Map.get_delete_of_ne]
  · cases h : Map.get manager.instancesData networkID <;>
      simp [h, hn, Map.get_set_of_ne]

theorem instanceData_updateInstanceNetworkCache (manager manager' : NetworkManager)
    (instanceID networkID instanceIP : String) (hosts : List String)
    (h : updateInstanceNetworkCache manager instanceID networkID instanceIP hosts
      = (.ok (), manager')) (j n' : String) :
    instanceData manager' j n'
      = if networkID = n' ∧ instanceID = j then some { instanceIP := instanceIP, hosts := hosts }
        else instanceData manager j n' := by
  unfold updateInstanceNetworkCache at h
  cases hg : Map.get (networkInstances manager networkID) instanceID with
  | none => simp [hg] at h
  | some d =>
    simp only [hg, Prod.mk.injEq, true_and] at h
    subst h
    unfold instanceData
    unfold networkInstances at hg ⊢
    by_cases hn : networkID = n'
    · subst hn
      by_cases hi : instanceID = j
      · subst hi
        simp [Map.get_set_self]
      · cases h : Map.get manager.instancesData networkID <;>
          simp [h, hi, Map.get_set_self, Map.get_set_of_ne, Map.get]
    · simp [hn, Map.get_set_of_ne]

theorem updateInstanceNetworkCache_error (manager manager' : NetworkManager)
    (instanceID networkID instanceIP : String) (hosts : List String) (err : Error)
    (h : updateInstanceNetworkCache manager instanceID networkID instanceIP hosts
      = (.error err, manager')) : manager' = manager := by
  unfold updateInstanceNetworkCache at h
  cases hg : Map.get (networkInstances manager networkID) instanceID with
  | none =>
    simp [hg] at h
    exact h.2.symm
  | some d => simp [hg] at h

/-! ## Steps of the attach sequence -/

theorem addNetwork_world (env : Env) (instanceID : String) (netConfig : NetworkConfigList)
    (runtimeConfig : RuntimeConf) (w : World) :
    (addNetwork env instanceID netConfig runtimeConfig w).2
      = w.record (.AddNetworkList netConfig runtimeConfig) := by
  unfold addNetwork AddNetworkList
  cases env.AddNetworkList w.trace netConfig runtimeConfig with
  | error e => rfl
  | ok resAdd =>
    cases hres : resAdd.GetResult with
    | error e => simp [hres]
    | ok result =>
      by_cases hlen : result.IPs.length = 0 <;> simp [hres, hlen]

theorem addNetwork_ok (env : Env) (instanceID : String) (netConfig : NetworkConfigList)
    (runtimeConfig : RuntimeConf) (w w' : World) (nameservers : List String)
    (instanceIP : String)
    (h : addNetwork env instanceID netConfig runtimeConfig w
      = (.ok (nameservers, instanceIP), w')) :
    ∃ resAdd result rest,
      env.AddNetworkList w.trace netConfig runtimeConfig = .ok resAdd ∧
      resAdd.GetResult = .ok result ∧ result.IPs = instanceIP :: rest := by
  unfold addNetwork AddNetworkList at h
  cases hadd : env.AddNetworkList w.trace netConfig runtimeConfig with
  | error e => simp [hadd] at h
  | ok resAdd =>
    cases hres : resAdd.GetResult with
    | error e => simp [hadd, hres] at h
    | ok result =>
      refine ⟨resAdd, result, result.IPs.tail, rfl, hres, ?_⟩
      cases hips : result.IPs with
      | nil => simp [hadd, hres, hips] at h
      | cons ip rest =>
        simp [hadd, hres, hips] at h
        simp [h.1.2]

theorem World.extends_refl (w : World) : w.Extends w :=
  ⟨rfl, List.prefix_refl _⟩

theorem World.extends_trans {w w1 w2 : World} (h1 : w.Extends w1) (h2 : w1.Extends w2) :
    w.Extends w2 :=
  ⟨h2.1.trans h1.1, h1.2.trans h2.2⟩

theorem World.extends_record (w : World) (c : Call) : w.Extends (w.record c) :=
  ⟨rfl, List.prefix_append _ _⟩

theorem createResolvConfAndHostFile_extends (env : Env) (networkID instanceIP : String)
    (nameservers : List String) (params : NetworkParams) (w : World) :
    w.Extends (createResolvConfAndHostFile env networkID instanceIP nameservers params w).2 := by
  unfold createResolvConfAndHostFile
  have step1 : ∀ x : Except Error Unit × World,
      x = (if params.HostsFilePath ≠ "" then
            writeHostToHostsFile env params.HostsFilePath instanceIP networkID params.Hostname
              params.Hosts w
          else (.ok (), w)) → w.Extends x.2 := by
    intro x hx
    subst hx
    by_cases h1 : params.HostsFilePath = ""
    · simp [h1, World.extends_refl]
    · simp only [ne_eq, h1, not_false_eq_true, if_true]
      exact World.extends_record _ _
  generalize hx : (if params.HostsFilePath ≠ "" then
            writeHostToHostsFile env params.HostsFilePath instanceIP networkID params.Hostname
              params.Hosts w
          else (Except.ok (), w)) = x
  have hext := step1 x hx.symm
  obtain ⟨r, w1⟩ := x
  cases r with
  | error e => exact hext
  | ok u =>
    simp only []
    by_cases h2 : params.ResolvConfFilePath = ""
    · simpa [h2] using hext
    · simp only [ne_eq, h2, not_false_eq_true, if_true]
      generalize hy : writeResolveConfFile env params.ResolvConfFilePath _ params.DNSSevers w1 = y
      have hy2 : w1.Extends y.2 := by
        subst hy
        exact World.extends_record _ _
      obtain ⟨r2, w2⟩ := y
      cases r2 <;> exact World.extends_trans hext hy2

theorem addInstanceToNetworkAttach_error (env : Env) (instanceID networkID : String)
    (params : NetworkParams) (netConfig : NetworkConfigList) (runtimeConfig : RuntimeConf)
    (hosts : List String) (w w' : World) (err : Error)
    (h : addInstanceToNetworkAttach env instanceID networkID params netConfig runtimeConfig
      hosts w = (.error err, w')) : w.Extends w' := by
  unfold addInstanceToNetworkAttach at h
  have hw1 := addNetwork_world env instanceID netConfig runtimeConfig w
  generalize addNetwork env instanceID netConfig runtimeConfig w = x at h hw1
  obtain ⟨r1, w1⟩ := x
  simp only at hw1
  have e1 : w.Extends w1 := hw1 ▸ World.extends_record _ _
  cases r1 with
  | error e =>
    simp only [Prod.mk.injEq] at h
    exact h.2 ▸ e1
  | ok res =>
    obtain ⟨nameservers, instanceIP⟩ := res
    simp only at h
    have e2 := createResolvConfAndHostFile_extends env networkID instanceIP nameservers params w1
    generalize createResolvConfAndHostFile env networkID instanceIP nameservers params w1 = y
      at h e2
    obtain ⟨r2, w2⟩ := y
    cases r2 with
    | error e =>
      simp only [Prod.mk.injEq] at h
      exact h.2 ▸ World.extends_trans e1 e2
    | ok u =>
      simp only at h
      have e3 : w2.Extends
          (match w2.manager.trafficMonitoring with
            | some _ => startInstanceTrafficMonitor env instanceID instanceIP
                params.DownloadLimit params.UploadLimit w2
            | none => ((.ok () : Except Error Unit), w2)).2 := by
        cases w2.manager.trafficMonitoring with
        | none => exact World.extends_refl _
        | some m => exact World.extends_record _ _
      generalize (match w2.manager.trafficMonitoring with
            | some _ => startInstanceTrafficMonitor env instanceID instanceIP
                params.DownloadLimit params.UploadLimit w2
            | none => ((.ok () : Except Error Unit), w2)) = z at h e3
      obtain ⟨r3, w3⟩ := z
      have e13 : w.Extends w3 := World.extends_trans e1 (World.extends_trans e2 e3)
      cases r3 with
      | error e =>
        simp only [Prod.mk.injEq] at h
        exact h.2 ▸ e13
      | ok u =>
        simp only at h
        generalize hupd :
          updateInstanceNetworkCache w3.manager instanceID networkID instanceIP hosts = v at h
        obtain ⟨r4, m4⟩ := v
        cases r4 with
        | error e =>
          simp only [Prod.mk.injEq] at h
          have hm := updateInstanceNetworkCache_error _ _ _ _ _ _ _ hupd
          subst hm
          exact h.2 ▸ e13
        | ok u => simp at h

theorem addInstanceToNetworkAttach_ok (env : Env) (instanceID networkID : String)
    (params : NetworkParams) (netConfig : NetworkConfigList) (runtimeConfig : RuntimeConf)
    (hosts : List String) (w w' : World)
    (h : addInstanceToNetworkAttach env instanceID networkID params netConfig runtimeConfig
      hosts w = (.ok (), w')) :
    ∃ resAdd result instanceIP rest,
      env.AddNetworkList w.trace netConfig runtimeConfig = .ok resAdd ∧
      resAdd.GetResult = .ok result ∧ result.IPs = instanceIP :: rest ∧
      updateInstanceNetworkCache w.manager instanceID networkID instanceIP hosts
        = (.ok (), w'.manager) ∧
      (w.trace ++ [Call.AddNetworkList netConfig runtimeConfig]) <+: w'.trace := by
  unfold addInstanceToNetworkAttach at h
  have hw1 := addNetwork_world env instanceID netConfig runtimeConfig w
  generalize hadd : addNetwork env instanceID netConfig runtimeConfig w = x at h hw1
  obtain ⟨r1, w1⟩ := x
  simp only at hw1
  cases r1 with
  | error e => simp at h
  | ok res =>
    obtain ⟨nameservers, instanceIP⟩ := res
    obtain ⟨resAdd, result, rest, hres, hget, hips⟩ := addNetwork_ok _ _ _ _ _ _ _ _ hadd
    simp only at h
    have e2 := createResolvConfAndHostFile_extends env networkID instanceIP nameservers params w1
    generalize createResolvConfAndHostFile env networkID instanceIP nameservers params w1 = y
      at h e2
    obtain ⟨r2, w2⟩ := y
    cases r2 with
    | error e => simp at h
    | ok u =>
      simp only at h
      have e3 : w2.Extends
          (match w2.manager.trafficMonitoring with
            | some _ => startInstanceTrafficMonitor env instanceID instanceIP
                params.DownloadLimit params.UploadLimit w2
            | none => ((.ok () : Except Error Unit), w2)).2 := by
        cases w2.manager.trafficMonitoring with
        | none => exact World.extends_refl _
        | some m => exact World.extends_record _ _
      generalize (match w2.manager.trafficMonitoring with
            | some _ => startInstanceTrafficMonitor env instanceID instanceIP
                params.DownloadLimit params.UploadLimit w2
            | none => ((.ok () : Except Error Unit), w2)) = z at h e3
      obtain ⟨r3, w3⟩ := z
      have e13 : w1.Extends w3 := World.extends_trans e2 e3
      cases r3 with
      | error e => simp at h
      | ok u =>
        simp only at h
        generalize hupd :
          updateInstanceNetworkCache w3.manager instanceID networkID instanceIP hosts = v at h
        obtain ⟨r4, m4⟩ := v
        cases r4 with
        | error e => simp at h
        | ok u =>
          simp only [Prod.mk.injEq, true_and] at h
          subst h
          refine ⟨resAdd, result, instanceIP, rest, hres, hget, hips, ?_, ?_⟩
          · have hm : w3.manager = w.manager := by
              rw [e13.1, hw1]
              rfl
            rw [← hm]
            exact hupd
          · have ht := e13.2
            rw [hw1] at ht
            exact ht

/-! ## Preparing the configuration -/

theorem prepareHostnameList_ok (manager : NetworkManager) (networkID : String)
    (params : NetworkParams) (hosts : List String)
    (h : prepareHostnameList manager networkID params = .ok hosts) :
    hosts = hostnameList networkID params ∧
      ∀ j d, instanceData manager j networkID = some d →
        ∀ name, name ∈ d.hosts → name ∉ hosts := by
  unfold prepareHostnameList at h
  unfold hostnameList
  by_cases hlen : (baseHostnameList params).length = 0
  · simp only [hlen, ne_eq, not_true_eq_false, if_false, Except.ok.injEq] at h ⊢
    subst h
    refine ⟨rfl, ?_⟩
    intro j d _ name _
    rw [List.length_eq_zero.mp hlen]
    simp
  · simp only [hlen, ne_eq, not_false_eq_true, if_true] at h ⊢
    unfold isHostnameExists at h
    cases hget : Map.get manager.instancesData networkID with
    | none =>
      simp only [hget, Except.ok.injEq] at h
      refine ⟨h.symm, ?_⟩
      intro j d hd
      simp [instanceData, hget] at hd
    | some instances =>
      simp only [hget] at h
      by_cases hclash :
          hostnameClash instances (tryAppendDomainNameToHostname (baseHostnameList params) networkID)
            = true
      · simp [hclash] at h
      · simp only [hclash, Bool.false_eq_true, if_false, Except.ok.injEq] at h
        refine ⟨h.symm, ?_⟩
        intro j d hd name hname hmem
        apply hclash
        simp only [instanceData, hget, Option.some_bind] at hd
        have hin := Map.mem_of_get _ hd
        unfold hostnameClash
        rw [List.any_eq_true]
        refine ⟨(j, d), hin, ?_⟩
        rw [List.any_eq_true]
        refine ⟨name, hname, ?_⟩
        rw [List.any_eq_true]
        exact ⟨name, h ▸ hmem, by simp⟩

theorem prepareHostnameList_clash (manager : NetworkManager) (networkID : String)
    (params : NetworkParams) (j : String) (d : netInstanceData) (name : String)
    (hd : instanceData manager j networkID = some d) (hname : name ∈ d.hosts)
    (hmem : name ∈ hostnameList networkID params) :
    prepareHostnameList manager networkID params = .error .hostnameExists := by
  cases h : prepareHostnameList manager networkID params with
  | ok hosts =>
    obtain ⟨heq, hno⟩ := prepareHostnameList_ok _ _ _ _ h
    exact absurd (heq ▸ hmem) (hno j d hd name hname)
  | error e =>
    unfold prepareHostnameList at h
    by_cases hlen : (baseHostnameList params).length = 0
    · simp [hlen] at h
    · simp only [hlen, ne_eq, not_false_eq_true, if_true] at h
      unfold isHostnameExists at h
      cases hget : Map.get manager.instancesData networkID with
      | none => simp [hget] at h
      | some instances =>
        simp only [hget] at h
        by_cases hclash :
            hostnameClash instances
              (tryAppendDomainNameToHostname (baseHostnameList params) networkID) = true
        · simp [hclash] at h
          rw [h]
        · simp [hclash] at h

theorem prepareCNIConfig_error (env : Env) (instanceID networkID : String) (ipSubnet : IPNet)
    (params : NetworkParams) (w w' : World) (err : Error)
    (h : prepareCNIConfig env instanceID networkID ipSubnet params w = (.error err, w')) :
    w.Extends w' := by
  unfold prepareCNIConfig at h
  cases h1 : prepareHostnameList w.manager networkID params with
  | error e =>
    simp only [h1, Prod.mk.injEq] at h
    exact h.2 ▸ World.extends_refl _
  | ok hosts =>
    simp only [h1] at h
    cases h2 : prepareNetworkConfigList env w.manager.networkDir instanceID networkID ipSubnet
        params with
    | error e =>
      simp only [h2, Prod.mk.injEq] at h
      exact h.2 ▸ World.extends_refl _
    | ok netConfig =>
      simp only [h2] at h
      unfold ValidateNetworkList at h
      cases h3 : env.ValidateNetworkList w.trace netConfig with
      | error e =>
        simp only [h3, Prod.mk.injEq] at h
        exact h.2 ▸ World.extends_record _ _
      | ok u => simp [h3] at h

theorem prepareCNIConfig_ok (env : Env) (instanceID networkID : String) (ipSubnet : IPNet)
    (params : NetworkParams) (w w' : World) (netConfig : NetworkConfigList)
    (runtimeConfig : RuntimeConf) (hosts : List String)
    (h : prepareCNIConfig env instanceID networkID ipSubnet params w
      = (.ok (netConfig, runtimeConfig, hosts), w')) :
    prepareHostnameList w.manager networkID params = .ok hosts ∧
      w' = w.record (.ValidateNetworkList netConfig) := by
  unfold prepareCNIConfig at h
  cases h1 : prepareHostnameList w.manager networkID params with
  | error e => simp [h1] at h
  | ok hosts1 =>
    simp only [h1] at h
    cases h2 : prepareNetworkConfigList env w.manager.networkDir instanceID networkID ipSubnet
        params with
    | error e => simp [h2] at h
    | ok netConfig1 =>
      simp only [h2] at h
      unfold ValidateNetworkList at h
      cases h3 : env.ValidateNetworkList w.trace netConfig1 with
      | error e => simp [h3] at h
      | ok u =>
        simp only [h3, Prod.mk.injEq, Except.ok.injEq] at h
        obtain ⟨⟨hn, -, hh⟩, hw⟩ := h
        subst hn hh hw
        exact ⟨rfl, rfl⟩

theorem addInstanceToNetworkConfigured_error (env : Env) (instanceID networkID : String)
    (ipSubnet : IPNet) (params : NetworkParams) (w w' : World) (err : Error)
    (h : addInstanceToNetworkConfigured env instanceID networkID ipSubnet params w
      = (.error err, w')) : w.Extends w' := by
  unfold addInstanceToNetworkConfigured at h
  generalize h1 : prepareCNIConfig env instanceID networkID ipSubnet params w = x at h
  obtain ⟨r1, w1⟩ := x
  cases r1 with
  | error e =>
    simp only [Prod.mk.injEq] at h
    exact h.2 ▸ prepareCNIConfig_error _ _ _ _ _ _ _ _ h1
  | ok conf =>
    obtain ⟨netConfig, runtimeConfig, hosts⟩ := conf
    obtain ⟨-, hw1⟩ := prepareCNIConfig_ok _ _ _ _ _ _ _ _ _ _ h1
    have e1 : w.Extends w1 := hw1 ▸ World.extends_record _ _
    simp only at h
    generalize h2 : addInstanceToNetworkAttach env instanceID networkID params netConfig
      runtimeConfig hosts w1 = y at h
    obtain ⟨r2, w2⟩ := y
    cases r2 with
    | error e =>
      simp only [Prod.mk.injEq] at h
      have e2 := addInstanceToNetworkAttach_error _ _ _ _ _ _ _ _ _ _ h2
      exact h.2 ▸ World.extends_trans e1 (World.extends_trans e2 (World.extends_record _ _))
    | ok u => simp at h

theorem addInstanceToNetworkConfigured_ok (env : Env) (instanceID networkID : String)
    (ipSubnet : IPNet) (params : NetworkParams) (w w' : World)
    (h : addInstanceToNetworkConfigured env instanceID networkID ipSubnet params w
      = (.ok (), w')) :
    AttachOutcome env instanceID networkID params w.manager w.trace w' := by
  unfold addInstanceToNetworkConfigured at h
  generalize h1 : prepareCNIConfig env instanceID networkID ipSubnet params w = x at h
  obtain ⟨r1, w1⟩ := x
  cases r1 with
  | error e => simp at h
  | ok conf =>
    obtain ⟨netConfig, runtimeConfig, hosts⟩ := conf
    obtain ⟨hhosts, hw1⟩ := prepareCNIConfig_ok _ _ _ _ _ _ _ _ _ _ h1
    simp only at h
    generalize h2 : addInstanceToNetworkAttach env instanceID networkID params netConfig
      runtimeConfig hosts w1 = y at h
    obtain ⟨r2, w2⟩ := y
    cases r2 with
    | error e => simp at h
    | ok u =>
      simp only [Prod.mk.injEq, true_and] at h
      subst h
      obtain ⟨resAdd, result, instanceIP, rest, hadd, hget, hips, hupd, htr⟩ :=
        addInstanceToNetworkAttach_ok _ _ _ _ _ _ _ _ _ h2
      refine ⟨w1.trace, netConfig, runtimeConfig, resAdd, result, instanceIP, rest, hosts,
        ?_, htr, hadd, hget, hips, hhosts, ?_⟩
      · rw [hw1]
        exact List.prefix_append _ _
      · have hm : w1.manager = w.manager := by rw [hw1]; rfl
        rw [← hm]
        exact hupd

theorem addInstanceToNetworkInNetNS_error (env : Env) (instanceID networkID : String)
    (ipSubnet : IPNet) (params : NetworkParams) (w w' : World) (err : Error)
    (h : addInstanceToNetworkInNetNS env instanceID networkID ipSubnet params w
      = (.error err, w')) : w.Extends w' := by
  unfold addInstanceToNetworkInNetNS createNetNS at h
  have e1 : w.Extends (w.record (.createNetNS instanceID)) := World.extends_record _ _
  cases h1 : env.createNetNS w.trace instanceID with
  | error e =>
    simp only [h1, Prod.mk.injEq] at h
    exact h.2 ▸ e1
  | ok u =>
    simp only [h1] at h
    generalize h2 : addInstanceToNetworkConfigured env instanceID networkID ipSubnet params
      (w.record (.createNetNS instanceID)) = y at h
    obtain ⟨r2, w2⟩ := y
    cases r2 with
    | error e =>
      simp only [Prod.mk.injEq] at h
      have e2 := addInstanceToNetworkConfigured_error _ _ _ _ _ _ _ _ h2
      exact h.2 ▸ World.extends_trans e1 (World.extends_trans e2 (World.extends_record _ _))
    | ok u => simp at h

theorem addInstanceToNetworkInNetNS_ok (env : Env) (instanceID networkID : String)
    (ipSubnet : IPNet) (params : NetworkParams) (w w' : World)
    (h : addInstanceToNetworkInNetNS env instanceID networkID ipSubnet params w
      = (.ok (), w')) :
    AttachOutcome env instanceID networkID params w.manager w.trace w' := by
  unfold addInstanceToNetworkInNetNS createNetNS at h
  cases h1 : env.createNetNS w.trace instanceID with
  | error e => simp [h1] at h
  | ok u =>
    simp only [h1] at h
    generalize h2 : addInstanceToNetworkConfigured env instanceID networkID ipSubnet params
      (w.record (.createNetNS instanceID)) = y at h
    obtain ⟨r2, w2⟩ := y
    cases r2 with
    | error e => simp at h
    | ok u =>
      simp only [Prod.mk.injEq, true_and] at h
      subst h
      obtain ⟨t, netConfig, runtimeConfig, resAdd, result, instanceIP, rest, hosts, hpre, htr,
        hadd, hget, hips, hhosts, hupd⟩ := addInstanceToNetworkConfigured_ok _ _ _ _ _ _ _ h2
      exact ⟨t, netConfig, runtimeConfig, resAdd, result, instanceIP, rest, hosts,
        (List.prefix_append _ _).trans hpre, htr, hadd, hget, hips, hhosts, hupd⟩

/-! ## Removing a pair from the cache -/

theorem clearNetwork_extends (env : Env) (networkID : String) (w : World) :
    w.Extends (clearNetwork env networkID w).2 := by
  unfold clearNetwork postNetworkClear removeBridgeInterface releaseIPNetPool RemoveAll
  have e1 : w.Extends ((w.record (.releaseIPNetPool networkID)).record
      (.removeBridgeInterface networkID)) :=
    World.extends_trans (World.extends_record _ _) (World.extends_record _ _)
  cases h : env.removeBridgeInterface (w.record (.releaseIPNetPool networkID)).trace networkID with
  | error e => simpa [h] using e1
  | ok u =>
    simp only [h]
    exact World.extends_trans e1 (World.extends_record _ _)

theorem deleteInstanceNetworkFromCache_extends (env : Env) (instanceID networkID : String)
    (w : World) :
    (w.setInstancesData
        (deleteFromInstancesData w.manager.instancesData instanceID networkID)).Extends
      (deleteInstanceNetworkFromCache env instanceID networkID w).2 := by
  unfold deleteInstanceNetworkFromCache
  simp only
  split
  · exact clearNetwork_extends _ _ _
  · exact World.extends_refl _

theorem instanceData_deleteInstanceNetworkFromCache (env : Env) (instanceID networkID : String)
    (w : World) (j n' : String) :
    instanceData (deleteInstanceNetworkFromCache env instanceID networkID w).2.manager j n'
      = if networkID = n' ∧ instanceID = j then none else instanceData w.manager j n' := by
  rw [(deleteInstanceNetworkFromCache_extends env instanceID networkID w).1]
  exact instanceData_deleteFromInstancesData w.manager instanceID networkID j n'

/-! ## The effect of an attach on the cache -/

theorem AddInstanceToNetwork_error_cache (env : Env) (instanceID networkID : String)
    (params : NetworkParams) (w w' : World) (err : Error)
    (h : AddInstanceToNetwork env instanceID networkID params w = (.error err, w'))
    (j n' : String) : instanceData w'.manager j n' = instanceData w.manager j n' := by
  unfold AddInstanceToNetwork at h
  by_cases hin : isInstanceInNetwork w.manager instanceID networkID = true
  · simp only [hin, if_true, Prod.mk.injEq] at h
    rw [← h.2]
  · simp only [hin, Bool.false_eq_true, if_false] at h
    unfold GetIPSubnet at h
    cases h1 : env.GetIPSubnet w.trace networkID with
    | error e =>
      simp only [h1, Prod.mk.injEq] at h
      rw [← h.2]
      rfl
    | ok ipSubnet =>
      simp only [h1] at h
      generalize h2 : addInstanceToNetworkInNetNS env instanceID networkID ipSubnet params _ = y
        at h
      obtain ⟨r2, w2⟩ := y
      cases r2 with
      | ok u => simp at h
      | error e =>
        simp only [Prod.mk.injEq] at h
        rw [← h.2, instanceData_deleteInstanceNetworkFromCache,
          (addInstanceToNetworkInNetNS_error _ _ _ _ _ _ _ _ h2).1]
        simp only [World.record]
        rw [instanceData_addInstanceNetworkToCache]
        by_cases hc : networkID = n' ∧ instanceID = j
        · obtain ⟨hn, hi⟩ := hc
          subst hn hi
          rw [isInstanceInNetwork_eq_isSome] at hin
          cases hd : instanceData w.manager instanceID networkID with
          | none => simp
          | some d => simp [hd] at hin
        · simp [hc]

/-- On an error return the manager is the one before the call, or the one
before the call with the placeholder of the pair inserted and deleted
again. -/
theorem AddInstanceToNetwork_error_manager (env : Env) (instanceID networkID : String)
    (params : NetworkParams) (w w' : World) (err : Error)
    (h : AddInstanceToNetwork env instanceID networkID params w = (.error err, w')) :
    w'.manager = w.manager ∨
      (isInstanceInNetwork w.manager instanceID networkID = false ∧
        w'.manager = { w.manager with
          instancesData := deleteFromInstancesData
            (addInstanceNetworkToCache w.manager instanceID networkID).instancesData
            instanceID networkID }) := by
  unfold AddInstanceToNetwork at h
  by_cases hin : isInstanceInNetwork w.manager instanceID networkID = true
  · simp only [hin, if_true, Prod.mk.injEq] at h
    exact Or.inl (by rw [← h.2])
  · simp only [hin, Bool.false_eq_true, if_false] at h
    unfold GetIPSubnet at h
    cases h1 : env.GetIPSubnet w.trace networkID with
    | error e =>
      simp only [h1, Prod.mk.injEq] at h
      exact Or.inl (by rw [← h.2]; rfl)
    | ok ipSubnet =>
      simp only [h1] at h
      generalize h2 : addInstanceToNetworkInNetNS env instanceID networkID ipSubnet params _ = y
        at h
      obtain ⟨r2, w2⟩ := y
      cases r2 with
      | ok u => simp at h
      | error e =>
        simp only [Prod.mk.injEq] at h
        refine Or.inr ⟨by simpa using hin, ?_⟩
        rw [← h.2, (deleteInstanceNetworkFromCache_extends env instanceID networkID w2).1]
        simp only [World.setInstancesData]
        rw [(addInstanceToNetworkInNetNS_error _ _ _ _ _ _ _ _ h2).1]
        simp only [World.record]
        obtain ⟨f1, f2, f3⟩ := addInstanceNetworkToCache_fields w.manager instanceID networkID
        rw [f1, f2, f3]

theorem AddInstanceToNetwork_ok (env : Env) (instanceID networkID : String)
    (params : NetworkParams) (w w' : World)
    (h : AddInstanceToNetwork env instanceID networkID params w = (.ok (), w')) :
    isInstanceInNetwork w.manager instanceID networkID = false ∧
      AttachOutcome env instanceID networkID params
        (addInstanceNetworkToCache w.manager instanceID networkID) w.trace w' := by
  unfold AddInstanceToNetwork at h
  by_cases hin : isInstanceInNetwork w.manager instanceID networkID = true
  · simp [hin] at h
  · simp only [hin, Bool.false_eq_true, if_false] at h
    refine ⟨by simpa using hin, ?_⟩
    unfold GetIPSubnet at h
    cases h1 : env.GetIPSubnet w.trace networkID with
    | error e => simp [h1] at h
    | ok ipSubnet =>
      simp only [h1] at h
      generalize h2 : addInstanceToNetworkInNetNS env instanceID networkID ipSubnet params _ = y
        at h
      obtain ⟨r2, w2⟩ := y
      cases r2 with
      | error e => simp at h
      | ok u =>
        simp only [Prod.mk.injEq, true_and] at h
        subst h
        obtain ⟨t, netConfig, runtimeConfig, resAdd, result, instanceIP, rest, hosts, hpre, htr,
          hadd, hget, hips, hhosts, hupd⟩ := addInstanceToNetworkInNetNS_ok _ _ _ _ _ _ _ h2
        exact ⟨t, netConfig, runtimeConfig, resAdd, result, instanceIP, rest, hosts,
          (List.prefix_append _ _).trans hpre, htr, hadd, hget, hips, hhosts, hupd⟩

theorem networkInstances_length_ne_zero (manager : NetworkManager) (j networkID : String)
    (d : netInstanceData) (h : instanceData manager j networkID = some d) :
    ((networkInstances manager networkID).length == 0) = false := by
  unfold instanceData at h
  unfold networkInstances
  cases hg : Map.get manager.instancesData networkID with
  | none => simp [hg] at h
  | some instances =>
    simp only [hg, Option.some_bind] at h
    have hin := Map.mem_of_get _ h
    cases instances with
    | nil => simp at hin
    | cons a l => simp

theorem deleteInstanceNetworkFromCache_of_other (env : Env) (instanceID networkID : String)
    (w : World) (j : String) (d : netInstanceData) (hne : instanceID ≠ j)
    (h : instanceData w.manager j networkID = some d) :
    deleteInstanceNetworkFromCache env instanceID networkID w
      = (.ok (), w.setInstancesData
          (deleteFromInstancesData w.manager.instancesData instanceID networkID)) := by
  have hd := instanceData_deleteFromInstancesData w.manager instanceID networkID j networkID
  simp only [hne, and_false, if_false] at hd
  rw [h] at hd
  have hlen := networkInstances_length_ne_zero _ _ _ _ hd
  unfold deleteInstanceNetworkFromCache
  simp only [World.setInstancesData]
  rw [hlen]
  simp

theorem removeInstanceFromNetworkBody_extends (env : Env) (instanceID networkID : String)
    (w : World) : w.Extends (removeInstanceFromNetworkBody env instanceID networkID w).2 := by
  unfold removeInstanceFromNetworkBody GetNetworkListCachedConfig
  simp only
  have e1 : w.Extends (w.record (.GetNetworkListCachedConfig
      (getRuntimeNetConfig instanceID networkID).1 (getRuntimeNetConfig instanceID networkID).2)) :=
    World.extends_record _ _
  cases env.GetNetworkListCachedConfig w.trace (getRuntimeNetConfig instanceID networkID).1
      (getRuntimeNetConfig instanceID networkID).2 with
  | error e => exact e1
  | ok res =>
    obtain ⟨confBytes, runtimeConfig⟩ := res
    cases confBytes with
    | none => exact e1
    | some confBytes =>
      simp only
      cases ConfListFromBytes env confBytes with
      | error e => exact e1
      | ok networkConfig =>
        simp only
        unfold DelNetworkList
        have e2 := World.extends_trans e1 (World.extends_record _
          (.DelNetworkList networkConfig runtimeConfig))
        cases env.DelNetworkList _ networkConfig runtimeConfig with
        | error e => exact e2
        | ok u =>
          simp only
          generalize hw2 : World.record (World.record w _) _ = w2 at e2
          cases hm : w2.manager.trafficMonitoring with
          | none => exact e2
          | some m =>
            simp only
            unfold stopInstanceTrafficMonitor
            have e3 := World.extends_trans e2 (World.extends_record _
              (.stopInstanceTrafficMonitor instanceID))
            cases env.stopInstanceTrafficMonitor w2.trace instanceID <;> exact e3

theorem removeInstanceFromNetwork_extends (env : Env) (instanceID networkID : String)
    (w : World) : w.Extends (removeInstanceFromNetwork env instanceID networkID w).2 := by
  unfold removeInstanceFromNetwork
  have e1 := removeInstanceFromNetworkBody_extends env instanceID networkID w
  generalize removeInstanceFromNetworkBody env instanceID networkID w = x at e1
  obtain ⟨err, w1⟩ := x
  simp only at e1 ⊢
  unfold DeleteNamed
  have e2 := World.extends_trans e1 (World.extends_record _ (.DeleteNamed instanceID))
  cases env.DeleteNamed w1.trace instanceID with
  | error delErr => cases err <;> exact e2
  | ok u => exact e2

/-- A detach either leaves the cache as it is or ends with the removal of the
pair from it. -/
theorem RemoveInstanceFromNetwork_cache (env : Env) (instanceID networkID : String)
    (w : World) :
    (RemoveInstanceFromNetwork env instanceID networkID w).2.manager = w.manager ∨
      ∃ w1, w.Extends w1 ∧
        RemoveInstanceFromNetwork env instanceID networkID w
          = deleteInstanceNetworkFromCache env instanceID networkID w1 := by
  unfold RemoveInstanceFromNetwork
  by_cases hin : isInstanceInNetwork w.manager instanceID networkID = true
  · simp only [hin, Bool.not_true, Bool.false_eq_true, if_false]
    have e1 : w.Extends
        (match w.manager.trafficMonitoring with
          | some _ => stopInstanceTrafficMonitor env instanceID w
          | none => ((.ok () : Except Error Unit), w)).2 := by
      cases w.manager.trafficMonitoring with
      | none => exact World.extends_refl _
      | some m => exact World.extends_record _ _
    generalize (match w.manager.trafficMonitoring with
          | some _ => stopInstanceTrafficMonitor env instanceID w
          | none => ((.ok () : Except Error Unit), w)) = x at e1
    obtain ⟨r1, w1⟩ := x
    cases r1 with
    | error e => exact Or.inl e1.1
    | ok u =>
      simp only
      have e2 := removeInstanceFromNetwork_extends env instanceID networkID w1
      generalize removeInstanceFromNetwork env instanceID networkID w1 = y at e2
      obtain ⟨r2, w2⟩ := y
      cases r2 with
      | error e => exact Or.inl (World.extends_trans e1 e2).1
      | ok u => exact Or.inr ⟨w2, World.extends_trans e1 e2, rfl⟩
  · simp [hin]

theorem instanceData_RemoveInstanceFromNetwork (env : Env) (instanceID networkID : String)
    (w : World) (j n' : String) :
    instanceData (RemoveInstanceFromNetwork env instanceID networkID w).2.manager j n'
        = instanceData w.manager j n' ∨
      instanceData (RemoveInstanceFromNetwork env instanceID networkID w).2.manager j n'
        = none := by
  rcases RemoveInstanceFromNetwork_cache env instanceID networkID w with h | ⟨w1, e1, h⟩
  · exact Or.inl (by rw [h])
  · rw [h, instanceData_deleteInstanceNetworkFromCache, e1.1]
    by_cases hc : networkID = n' ∧ instanceID = j
    · exact Or.inr (by simp [hc])
    · exact Or.inl (by simp [hc])

/-! ## Attach: conflicts and rollback -/

/-- C1: when the pair (instanceID, networkID) is already in the cache, as a
finalized entry or as an empty placeholder, `AddInstanceToNetwork` returns the
"already in the network" error for every `params`, the cache is unchanged and
no external call has been made: the trace is the one before the call, so no
subnet was resolved, no namespace created and the runtime was not invoked. -/
theorem attach_of_cached_pair_rejected (env : Env) (instanceID networkID : String)
    (params : NetworkParams) (w : World)
    (h : isInstanceInNetwork w.manager instanceID networkID = true) :
    (AddInstanceToNetwork env instanceID networkID params w).1 = .error .alreadyInNetwork ∧
      (AddInstanceToNetwork env instanceID networkID params w).2.manager.instancesData
        = w.manager.instancesData ∧
      (AddInstanceToNetwork env instanceID networkID params w).2.trace = w.trace := by
  unfold AddInstanceToNetwork
  simp [h]

theorem attach_of_cached_pair_rejected_witness :
    isInstanceInNetwork webWorld.manager "i1" "n1" = true ∧
      (AddInstanceToNetwork envOK "i1" "n1" noParams webWorld).1 = .error .alreadyInNetwork ∧
      (AddInstanceToNetwork envOK "i1" "n1" noParams webWorld).2.manager.instancesData
        = webWorld.manager.instancesData ∧
      (AddInstanceToNetwork envOK "i1" "n1" noParams webWorld).2.trace = webWorld.trace :=
  ⟨by decide, attach_of_cached_pair_rejected envOK "i1" "n1" noParams webWorld (by decide)⟩

/-- C2: when a hostname of the list computed for the attach equals a hostname
stored in the cache for an instance `j` of the same network,
`AddInstanceToNetwork` fails and the cache is as before the call: every pair
has the entry it had, so a pair that was absent is absent, the earlier
instance `j` is present with the same address and hostnames, and the network
has the same instances; the manager as a whole is the one before the call. -/
theorem attach_hostname_clash_keeps_cache (env : Env) (instanceID networkID : String)
    (params : NetworkParams) (w : World) (j : String) (d : netInstanceData) (name : String)
    (hd : instanceData w.manager j networkID = some d) (hname : name ∈ d.hosts)
    (hmem : name ∈ hostnameList networkID params) :
    (∃ err, (AddInstanceToNetwork env instanceID networkID params w).1 = .error err) ∧
      (∀ j' n', instanceData (AddInstanceToNetwork env instanceID networkID params w).2.manager
          j' n' = instanceData w.manager j' n') ∧
      (isInstanceInNetwork w.manager instanceID networkID = false →
        isInstanceInNetwork (AddInstanceToNetwork env instanceID networkID params w).2.manager
          instanceID networkID = false) ∧
      instanceData (AddInstanceToNetwork env instanceID networkID params w).2.manager
        j networkID = some d ∧
      (AddInstanceToNetwork env instanceID networkID params w).2.manager = w.manager := by
  generalize hres : AddInstanceToNetwork env instanceID networkID params w = res
  obtain ⟨r, w'⟩ := res
  cases r with
  | ok u =>
    exfalso
    obtain ⟨hnew, t, netConfig, runtimeConfig, resAdd, result, instanceIP, rest, hosts, -, -, -,
      -, -, hhosts, -⟩ := AddInstanceToNetwork_ok _ _ _ _ _ _ hres
    have hji : instanceID ≠ j := by
      intro hij
      subst hij
      rw [isInstanceInNetwork_eq_isSome, hd] at hnew
      simp at hnew
    have hd' : instanceData (addInstanceNetworkToCache w.manager instanceID networkID)
        j networkID = some d := by
      rw [instanceData_addInstanceNetworkToCache]
      simp [hji, hd]
    have := prepareHostnameList_clash _ _ _ _ _ _ hd' hname hmem
    rw [this] at hhosts
    cases hhosts
  | error err =>
    have hsame := AddInstanceToNetwork_error_cache _ _ _ _ _ _ _ hres
    refine ⟨⟨err, rfl⟩, hsame, ?_, ?_, ?_⟩
    · intro hnew
      rw [isInstanceInNetwork_eq_isSome] at hnew ⊢
      simp only
      rw [hsame]
      exact hnew
    · simp only
      rw [hsame]
      exact hd
    · rcases AddInstanceToNetwork_error_manager _ _ _ _ _ _ _ hres with hm | ⟨hnew, hm⟩
      · exact hm
      · simp only
        rw [hm]
        cases hnet : Map.get w.manager.instancesData networkID with
        | none => simp [instanceData, hnet] at hd
        | some instances =>
          rw [deleteFromInstancesData_addInstanceNetworkToCache _ _ _ _ hnet hnew]

theorem attach_hostname_clash_keeps_cache_witness :
    (∃ err, (AddInstanceToNetwork envOK "i2" "n1" webParams webWorld).1 = .error err) ∧
      (∀ j' n', instanceData (AddInstanceToNetwork envOK "i2" "n1" webParams webWorld).2.manager
          j' n' = instanceData webWorld.manager j' n') ∧
      (isInstanceInNetwork webWorld.manager "i2" "n1" = false →
        isInstanceInNetwork (AddInstanceToNetwork envOK "i2" "n1" webParams webWorld).2.manager
          "i2" "n1" = false) ∧
      instanceData (AddInstanceToNetwork envOK "i2" "n1" webParams webWorld).2.manager
        "i1" "n1" = some { instanceIP := "172.17.0.2", hosts := ["web"] } ∧
      (AddInstanceToNetwork envOK "i2" "n1" webParams webWorld).2.manager = webWorld.manager :=
  attach_hostname_clash_keeps_cache envOK "i2" "n1" webParams webWorld "i1"
    { instanceIP := "172.17.0.2", hosts := ["web"] } "web" (by decide) (by decide) (by decide)

/-- C4: when the pair was not cached and `AddInstanceToNetwork` returns an
error, the pair is not in the cache on return and every other pair has the
entry it had before the call. An error of a step after the placeholder insert
(namespace creation, hostname check, config build or validation, runtime add,
hosts or resolv.conf writing, traffic-monitor start, cache finalize) is such
an error: the placeholder is inserted only for a pair that was not cached. -/
theorem attach_failure_rolls_back_cache (env : Env) (instanceID networkID : String)
    (params : NetworkParams) (w : World) (err : Error)
    (hnew : isInstanceInNetwork w.manager instanceID networkID = false)
    (herr : (AddInstanceToNetwork env instanceID networkID params w).1 = .error err) :
    isInstanceInNetwork (AddInstanceToNetwork env instanceID networkID params w).2.manager
        instanceID networkID = false ∧
      ∀ j n', (j, n') ≠ (instanceID, networkID) →
        instanceData (AddInstanceToNetwork env instanceID networkID params w).2.manager j n'
          = instanceData w.manager j n' := by
  generalize hres : AddInstanceToNetwork env instanceID networkID params w = res at herr
  obtain ⟨r, w'⟩ := res
  simp only at herr
  subst herr
  have hsame := AddInstanceToNetwork_error_cache _ _ _ _ _ _ _ hres
  refine ⟨?_, fun j n' _ => hsame j n'⟩
  rw [isInstanceInNetwork_eq_isSome] at hnew ⊢
  simp only
  rw [hsame]
  exact hnew

theorem attach_failure_rolls_back_cache_witness :
    isInstanceInNetwork
        (AddInstanceToNetwork envAddFails "i2" "n1" noParams webWorld).2.manager "i2" "n1"
        = false ∧
      ∀ j n', (j, n') ≠ ("i2", "n1") →
        instanceData (AddInstanceToNetwork envAddFails "i2" "n1" noParams webWorld).2.manager j n'
          = instanceData webWorld.manager j n' :=
  attach_failure_rolls_back_cache envAddFails "i2" "n1" noParams webWorld (.external 1)
    (by decide) (by decide)

/-- C3, counterexample: instance i1 is attached to n1 with hostname "web" and
i2 is attached to n1 with hostname "web" in an environment where every
collaborator succeeds. The attach returns the hostname error, and by then the
subnet of n1 has been resolved and the namespace of i2 created (and deleted
again in the rollback). -/
theorem hostname_clash_found_after_namespace_creation :
    instanceData webWorld.manager "i1" "n1" = some { instanceIP := "172.17.0.2", hosts := ["web"] } ∧
      "web" ∈ hostnameList "n1" webParams ∧
      AddInstanceToNetwork envOK "i2" "n1" webParams webWorld
        = (.error .hostnameExists,
            { manager := webWorld.manager
              trace := [.GetIPSubnet "n1", .createNetNS "i2", .DeleteNamed "i2"] }) ∧
      Call.GetIPSubnet "n1" ∈ (AddInstanceToNetwork envOK "i2" "n1" webParams webWorld).2.trace ∧
      Call.createNetNS "i2" ∈ (AddInstanceToNetwork envOK "i2" "n1" webParams webWorld).2.trace := by
  decide

/-- C3, amended: when a hostname of the list computed for the attach equals a
hostname stored for an instance of the same network, `AddInstanceToNetwork`
returns an error and the calls it has made are an initial part of: subnet
resolution for the network, namespace creation for the instance, namespace
deletion for the instance. No operation of the plugin runtime (validate, add,
del) is among them. When the pair was not cached and subnet resolution and
namespace creation succeed, the error is the hostname error and all three
calls have been made. -/
theorem attach_hostname_clash_calls (env : Env) (instanceID networkID : String)
    (params : NetworkParams) (w : World) (j : String) (d : netInstanceData) (name : String)
    (hd : instanceData w.manager j networkID = some d) (hname : name ∈ d.hosts)
    (hmem : name ∈ hostnameList networkID params) :
    (∃ err, (AddInstanceToNetwork env instanceID networkID params w).1 = .error err) ∧
      (∃ calls,
        (AddInstanceToNetwork env instanceID networkID params w).2.trace = w.trace ++ calls ∧
        calls <+: [Call.GetIPSubnet networkID, Call.createNetNS instanceID,
          Call.DeleteNamed instanceID] ∧
        ∀ c ∈ calls, c.isRuntime = false) ∧
      (∀ ipSubnet, isInstanceInNetwork w.manager instanceID networkID = false →
        env.GetIPSubnet w.trace networkID = .ok ipSubnet →
        env.createNetNS (w.trace ++ [Call.GetIPSubnet networkID]) instanceID = .ok () →
        (AddInstanceToNetwork env instanceID networkID params w).1 = .error .hostnameExists ∧
        (AddInstanceToNetwork env instanceID networkID params w).2.trace
          = w.trace ++ [Call.GetIPSubnet networkID, Call.createNetNS instanceID,
              Call.DeleteNamed instanceID]) := by
  have hruntime : ∀ calls : List Call,
      calls <+: [Call.GetIPSubnet networkID, Call.createNetNS instanceID,
          Call.DeleteNamed instanceID] → ∀ c ∈ calls, c.isRuntime = false := by
    intro calls hpre c hc
    have hc' := hpre.subset hc
    simp only [List.mem_cons, List.mem_singleton, List.not_mem_nil, or_false] at hc'
    rcases hc' with rfl | rfl | rfl <;> rfl
  by_cases hin : isInstanceInNetwork w.manager instanceID networkID = true
  · have hA : AddInstanceToNetwork env instanceID networkID params w
        = (.error .alreadyInNetwork, w) := by
      unfold AddInstanceToNetwork
      simp [hin]
    rw [hA]
    refine ⟨⟨_, rfl⟩, ⟨[], by simp, by simp, by simp⟩, ?_⟩
    intro _ hnew
    rw [hin] at hnew
    cases hnew
  · have hji : instanceID ≠ j := by
      intro hij
      subst hij
      rw [isInstanceInNetwork_eq_isSome, hd] at hin
      simp at hin
    have hd' : instanceData (addInstanceNetworkToCache w.manager instanceID networkID)
        j networkID = some d := by
      rw [instanceData_addInstanceNetworkToCache]
      simp [hji, hd]
    have hclash := prepareHostnameList_clash _ _ _ _ _ _ hd' hname hmem
    unfold AddInstanceToNetwork GetIPSubnet
    simp only [hin, Bool.false_eq_true, if_false]
    cases h1 : env.GetIPSubnet w.trace networkID with
    | error e =>
      refine ⟨⟨_, rfl⟩, ⟨[Call.GetIPSubnet networkID], rfl, ?_, ?_⟩, ?_⟩
      · exact ⟨[_, _], rfl⟩
      · exact hruntime _ ⟨[_, _], rfl⟩
      · intro ipSubnet _ h
        cases h
    | ok ipSubnet =>
      simp only
      unfold addInstanceToNetworkInNetNS createNetNS
      simp only [World.record]
      cases h2 : env.createNetNS (w.trace ++ [Call.GetIPSubnet networkID]) instanceID with
      | error e =>
        simp only
        rw [deleteInstanceNetworkFromCache_of_other env instanceID networkID _ j d hji hd']
        refine ⟨⟨_, rfl⟩, ⟨[Call.GetIPSubnet networkID, Call.createNetNS instanceID], ?_, ?_, ?_⟩,
          ?_⟩
        · simp [World.setInstancesData]
        · exact ⟨[_], rfl⟩
        · exact hruntime _ ⟨[_], rfl⟩
        · intro _ _ _ h
          cases h
      | ok u =>
        simp only
        unfold addInstanceToNetworkConfigured prepareCNIConfig
        simp only [hclash, DeleteNamed, World.record]
        rw [deleteInstanceNetworkFromCache_of_other env instanceID networkID _ j d hji hd']
        refine ⟨⟨_, rfl⟩, ⟨[Call.GetIPSubnet networkID, Call.createNetNS instanceID,
          Call.DeleteNamed instanceID], ?_, List.prefix_refl _, hruntime _ (List.prefix_refl _)⟩,
          ?_⟩
        · simp [World.setInstancesData]
        · intro _ _ _ _
          refine ⟨?_, ?_⟩ <;> simp [World.setInstancesData]

theorem attach_hostname_clash_calls_witness :
    (AddInstanceToNetwork envOK "i2" "n1" webParams webWorld).1 = .error .hostnameExists ∧
      (AddInstanceToNetwork envOK "i2" "n1" webParams webWorld).2.trace
        = webWorld.trace ++ [Call.GetIPSubnet "n1", Call.createNetNS "i2",
            Call.DeleteNamed "i2"] :=
  (attach_hostname_clash_calls envOK "i2" "n1" webParams webWorld "i1"
    { instanceIP := "172.17.0.2", hosts := ["web"] } "web" (by decide) (by decide)
    (by decide)).2.2 sampleSubnet (by decide) rfl rfl

/-! ## Detach -/

theorem RemoveInstanceFromNetwork_ok_absent (env : Env) (instanceID networkID : String)
    (w w' : World) (h : RemoveInstanceFromNetwork env instanceID networkID w = (.ok (), w')) :
    isInstanceInNetwork w'.manager instanceID networkID = false := by
  unfold RemoveInstanceFromNetwork at h
  by_cases hin : isInstanceInNetwork w.manager instanceID networkID = true
  · simp only [hin, Bool.not_true, Bool.false_eq_true, if_false] at h
    generalize (match w.manager.trafficMonitoring with
        | some _ => stopInstanceTrafficMonitor env instanceID w
        | none => ((.ok () : Except Error Unit), w)) = x at h
    obtain ⟨r1, w1⟩ := x
    cases r1 with
    | error e => simp at h
    | ok u =>
      simp only at h
      generalize removeInstanceFromNetwork env instanceID networkID w1 = y at h
      obtain ⟨r2, w2⟩ := y
      cases r2 with
      | error e => simp at h
      | ok u =>
        simp only at h
        have hd := instanceData_deleteInstanceNetworkFromCache env instanceID networkID w2
          instanceID networkID
        rw [h] at hd
        simp only [and_self, if_true] at hd
        rw [isInstanceInNetwork_eq_isSome, hd]
        rfl
  · simp only [hin, Bool.not_false, if_true, Prod.mk.injEq, true_and] at h
    subst h
    simpa using hin

/-- C5: detach idempotence. When the pair is not in the cache,
`RemoveInstanceFromNetwork` returns success and the world is the one before
the call: the cache is unchanged and no external call (traffic monitor,
runtime, namespace) was made. Hence a second detach of the same pair, issued
right after a successful one, returns success and changes nothing. -/
theorem detach_of_uncached_pair_is_noop (env : Env) (instanceID networkID : String)
    (w : World) :
    (isInstanceInNetwork w.manager instanceID networkID = false →
      RemoveInstanceFromNetwork env instanceID networkID w = (.ok (), w)) ∧
    (∀ w', RemoveInstanceFromNetwork env instanceID networkID w = (.ok (), w') →
      RemoveInstanceFromNetwork env instanceID networkID w' = (.ok (), w')) := by
  have noop : ∀ v : World, isInstanceInNetwork v.manager instanceID networkID = false →
      RemoveInstanceFromNetwork env instanceID networkID v = (.ok (), v) := by
    intro v hv
    unfold RemoveInstanceFromNetwork
    simp [hv]
  exact ⟨noop w, fun w' h => noop w' (RemoveInstanceFromNetwork_ok_absent _ _ _ _ _ h)⟩

theorem detach_of_uncached_pair_is_noop_witness :
    RemoveInstanceFromNetwork envOK "i1" "n1" emptyWorld = (.ok (), emptyWorld) ∧
      RemoveInstanceFromNetwork envOK "i1" "n1"
          (RemoveInstanceFromNetwork envOK "i1" "n1" webWorld).2
        = (.ok (), (RemoveInstanceFromNetwork envOK "i1" "n1" webWorld).2) :=
  ⟨(detach_of_uncached_pair_is_noop envOK "i1" "n1" emptyWorld).1 (by decide),
    (detach_of_uncached_pair_is_noop envOK "i1" "n1" webWorld).2 _ (by decide)⟩

/-! ## Hostname uniqueness -/

theorem AddInstanceToNetwork_ok_cache (env : Env) (instanceID networkID : String)
    (params : NetworkParams) (w w' : World)
    (h : AddInstanceToNetwork env instanceID networkID params w = (.ok (), w')) :
    ∃ instanceIP,
      (∀ j n', instanceData w'.manager j n'
        = if networkID = n' ∧ instanceID = j then
            some { instanceIP := instanceIP, hosts := hostnameList networkID params }
          else instanceData w.manager j n') ∧
      (∀ j d, instanceID ≠ j → instanceData w.manager j networkID = some d →
        ∀ name, name ∈ d.hosts → name ∉ hostnameList networkID params) := by
  obtain ⟨-, t, netConfig, runtimeConfig, resAdd, result, instanceIP, rest, hosts, -, -, -,
    -, -, hhosts, hupd⟩ := AddInstanceToNetwork_ok _ _ _ _ _ _ h
  obtain ⟨heq, hno⟩ := prepareHostnameList_ok _ _ _ _ hhosts
  subst heq
  refine ⟨instanceIP, ?_, ?_⟩
  · intro j n'
    rw [instanceData_updateInstanceNetworkCache _ _ _ _ _ _ hupd,
      instanceData_addInstanceNetworkToCache]
    by_cases hc : networkID = n' ∧ instanceID = j <;> simp [hc]
  · intro j d hji hd
    apply hno j d
    rw [instanceData_addInstanceNetworkToCache]
    simp [hji, hd]

/-- C6: hostname uniqueness is an invariant. In every world reached from an
empty cache by attach and detach calls that do not interleave, each
succeeding or failing, no two distinct instances attached to the same network
have a stored hostname in common. -/
theorem hostnames_unique_of_reachable (env : Env) (w : World) (h : Reachable env w) :
    HostnamesUnique w.manager := by
  induction h with
  | init w hempty =>
    intro networkID i j di dj name _ hi
    simp [instanceData, hempty, Map.get] at hi
  | add w instanceID networkID params _ ih =>
    generalize hres : AddInstanceToNetwork env instanceID networkID params w = res
    obtain ⟨r, w'⟩ := res
    cases r with
    | error err =>
      have hsame := AddInstanceToNetwork_error_cache _ _ _ _ _ _ _ hres
      intro n i j di dj name hij hi hj
      simp only at hi hj
      rw [hsame] at hi hj
      exact ih n i j di dj name hij hi hj
    | ok u =>
      obtain ⟨instanceIP, hcache, hno⟩ := AddInstanceToNetwork_ok_cache _ _ _ _ _ _ hres
      intro n i j di dj name hij hi hj hname
      simp only at hi hj
      rw [hcache] at hi hj
      by_cases hn : networkID = n
      · subst hn
        by_cases hii : instanceID = i
        · subst hii
          simp only [and_self, if_true, Option.some.injEq] at hi
          simp only [hij, and_false, if_false] at hj
          subst hi
          intro hmem
          exact hno j dj hij hj name hmem hname
        · simp only [hii, and_false, if_false] at hi
          by_cases hjj : instanceID = j
          · subst hjj
            simp only [and_self, if_true, Option.some.injEq] at hj
            subst hj
            exact hno i di hii hi name hname
          · simp only [hjj, and_false, if_false] at hj
            exact ih networkID i j di dj name hij hi hj hname
      · simp only [hn, false_and, if_false] at hi hj
        exact ih n i j di dj name hij hi hj hname
  | remove w instanceID networkID _ ih =>
    intro n i j di dj name hij hi hj
    have hi' : instanceData w.manager i n = some di := by
      rcases instanceData_RemoveInstanceFromNetwork env instanceID networkID w i n with h | h
      · rw [← h]; exact hi
      · rw [h] at hi; cases hi
    have hj' : instanceData w.manager j n = some dj := by
      rcases instanceData_RemoveInstanceFromNetwork env instanceID networkID w j n with h | h
      · rw [← h]; exact hj
      · rw [h] at hj; cases hj
    exact ih n i j di dj name hij hi' hj'

theorem hostnames_unique_of_reachable_witness :
    HostnamesUnique
      (AddInstanceToNetwork envOK "i2" "n1" { noParams with Hostname := "db" }
        (AddInstanceToNetwork envOK "i1" "n1" webParams emptyWorld).2).2.manager :=
  hostnames_unique_of_reachable envOK _
    (Reachable.add _ "i2" "n1" { noParams with Hostname := "db" }
      (Reachable.add _ "i1" "n1" webParams (Reachable.init emptyWorld rfl)))

/-! ## Address of an attached instance -/

theorem GetInstanceIP_of_instanceData (manager : NetworkManager) (instanceID networkID : String)
    (d : netInstanceData) (h : instanceData manager instanceID networkID = some d) :
    GetInstanceIP manager instanceID networkID = .ok d.instanceIP := by
  have hin : isInstanceInNetwork manager instanceID networkID = true := by
    rw [isInstanceInNetwork_eq_isSome, h]
    rfl
  unfold GetInstanceIP
  simp only [hin, Bool.not_true, Bool.false_eq_true, if_false]
  unfold instanceData at h
  unfold networkInstances
  cases hg : Map.get manager.instancesData networkID with
  | none => simp [hg] at h
  | some instances =>
    simp only [hg, Option.some_bind] at h
    simp [h]

/-- C7: whenever `AddInstanceToNetwork` succeeds, the runtime's add was called
during the attach (at a trace `t` that continues the trace before the call)
and its result held at least one address, and `GetInstanceIP` for the pair in
the resulting manager succeeds and returns the first address of that result.
When every result the runtime's add can give holds no address,
`AddInstanceToNetwork` fails. -/
theorem attach_success_reports_first_address (env : Env) (instanceID networkID : String)
    (params : NetworkParams) (w : World) :
    (∀ w', AddInstanceToNetwork env instanceID networkID params w = (.ok (), w') →
      ∃ (t : Trace) (netConfig : NetworkConfigList) (runtimeConfig : RuntimeConf)
        (resAdd : TypesResult) (result : Result) (instanceIP : String) (rest : List String),
        w.trace <+: t ∧
        (t ++ [Call.AddNetworkList netConfig runtimeConfig]) <+: w'.trace ∧
        env.AddNetworkList t netConfig runtimeConfig = .ok resAdd ∧
        resAdd.GetResult = .ok result ∧
        result.IPs = instanceIP :: rest ∧
        GetInstanceIP w'.manager instanceID networkID = .ok instanceIP) ∧
    ((∀ t netConfig runtimeConfig resAdd result,
        env.AddNetworkList t netConfig runtimeConfig = .ok resAdd →
        resAdd.GetResult = .ok result → result.IPs = []) →
      ∃ err, (AddInstanceToNetwork env instanceID networkID params w).1 = .error err) := by
  have main : ∀ w', AddInstanceToNetwork env instanceID networkID params w = (.ok (), w') →
      ∃ (t : Trace) (netConfig : NetworkConfigList) (runtimeConfig : RuntimeConf)
        (resAdd : TypesResult) (result : Result) (instanceIP : String) (rest : List String),
        w.trace <+: t ∧
        (t ++ [Call.AddNetworkList netConfig runtimeConfig]) <+: w'.trace ∧
        env.AddNetworkList t netConfig runtimeConfig = .ok resAdd ∧
        resAdd.GetResult = .ok result ∧
        result.IPs = instanceIP :: rest ∧
        GetInstanceIP w'.manager instanceID networkID = .ok instanceIP := by
    intro w' h
    obtain ⟨-, t, netConfig, runtimeConfig, resAdd, result, instanceIP, rest, hosts, hpre, htr,
      hadd, hget, hips, -, hupd⟩ := AddInstanceToNetwork_ok _ _ _ _ _ _ h
    refine ⟨t, netConfig, runtimeConfig, resAdd, result, instanceIP, rest, hpre, htr, hadd,
      hget, hips, ?_⟩
    have hd := instanceData_updateInstanceNetworkCache _ _ _ _ _ _ hupd instanceID networkID
    simp only [and_self, if_true] at hd
    exact GetInstanceIP_of_instanceData _ _ _ _ hd
  refine ⟨main, ?_⟩
  intro hnone
  generalize hres : AddInstanceToNetwork env instanceID networkID params w = res
  obtain ⟨r, w'⟩ := res
  cases r with
  | error err => exact ⟨err, rfl⟩
  | ok u =>
    obtain ⟨t, netConfig, runtimeConfig, resAdd, result, instanceIP, rest, -, -, hadd, hget,
      hips, -⟩ := main w' hres
    rw [hnone t netConfig runtimeConfig resAdd result hadd hget] at hips
    cases hips

theorem attach_success_reports_first_address_witness :
    (∃ (t : Trace) (netConfig : NetworkConfigList) (runtimeConfig : RuntimeConf)
        (resAdd : TypesResult) (result : Result) (instanceIP : String) (rest : List String),
        emptyWorld.trace <+: t ∧
        (t ++ [Call.AddNetworkList netConfig runtimeConfig])
          <+: (AddInstanceToNetwork envOK "i1" "n1" webParams emptyWorld).2.trace ∧
        envOK.AddNetworkList t netConfig runtimeConfig = .ok resAdd ∧
        resAdd.GetResult = .ok result ∧
        result.IPs = instanceIP :: rest ∧
        GetInstanceIP (AddInstanceToNetwork envOK "i1" "n1" webParams emptyWorld).2.manager
          "i1" "n1" = .ok instanceIP) ∧
      ∃ err, (AddInstanceToNetwork (envWith []) "i1" "n1" webParams emptyWorld).1
        = .error err :=
  ⟨(attach_success_reports_first_address envOK "i1" "n1" webParams emptyWorld).1 _ (by decide),
    (attach_success_reports_first_address (envWith []) "i1" "n1" webParams emptyWorld).2
      (by
        intro t netConfig runtimeConfig resAdd result hadd hget
        simp only [envWith, Except.ok.injEq] at hadd
        subst hadd
        simp only [resultWith, Except.ok.injEq] at hget
        subst hget
        rfl)⟩

/-! ## Construction -/

theorem readInstanceIDFromFile_extends (env : Env) (pathToInstanceID : Path) (w : World) :
    w.Extends (readInstanceIDFromFile env pathToInstanceID w).2 := by
  unfold readInstanceIDFromFile Open
  have e1 : w.Extends (w.record (.Open pathToInstanceID)) := World.extends_record _ _
  cases env.Open w.trace pathToInstanceID with
  | error e => exact e1
  | ok lines =>
    simp only
    split <;> exact e1

theorem tryRemoveInstanceFromNetwork_extends (env : Env) (instanceFileName networkID : String)
    (w : World) :
    w.Extends (tryRemoveInstanceFromNetwork env instanceFileName networkID w).2 := by
  unfold tryRemoveInstanceFromNetwork
  have e1 := readInstanceIDFromFile_extends env
    (w.manager.networkDir ++ [networkID, instanceFileName]) w
  generalize readInstanceIDFromFile env _ w = x at e1
  obtain ⟨r1, w1⟩ := x
  cases r1 with
  | error e => exact e1
  | ok instanceID =>
    simp only
    have e2 := removeInstanceFromNetwork_extends env instanceID networkID w1
    generalize removeInstanceFromNetwork env instanceID networkID w1 = y at e2
    obtain ⟨r, w2⟩ := y
    cases r <;> exact World.extends_trans e1 e2

theorem deleteNetworkInstancesLoop_extends (env : Env) (networkID : String)
    (files : List String) (err : Option Error) (w : World) :
    w.Extends (deleteNetworkInstancesLoop env networkID files err w).2 := by
  induction files generalizing err w with
  | nil => exact World.extends_refl _
  | cons file rest ih =>
    unfold deleteNetworkInstancesLoop
    split
    · exact ih err w
    · have e1 := tryRemoveInstanceFromNetwork_extends env file networkID w
      generalize tryRemoveInstanceFromNetwork env file networkID w = y at e1
      obtain ⟨r, w1⟩ := y
      cases r with
      | error netErr => exact World.extends_trans e1 (ih _ w1)
      | ok u => exact World.extends_trans e1 (ih _ w1)

theorem deleteNetworkInstances_extends (env : Env) (networkID : String) (w : World) :
    w.Extends (deleteNetworkInstances env networkID w).2 := by
  unfold deleteNetworkInstances Stat ReadDir
  simp only
  have e1 : w.Extends (w.record (.Stat (w.manager.networkDir ++ [networkID]))) :=
    World.extends_record _ _
  cases env.Stat w.trace (w.manager.networkDir ++ [networkID]) with
  | error e => exact e1
  | ok u =>
    simp only
    have e2 := World.extends_trans e1 (World.extends_record _
      (.ReadDir (w.manager.networkDir ++ [networkID])))
    cases env.ReadDir _ (w.manager.networkDir ++ [networkID]) with
    | error e => exact e2
    | ok files =>
      simp only
      have e3 := deleteNetworkInstancesLoop_extends env networkID files none
        ((w.record (.Stat (w.manager.networkDir ++ [networkID]))).record
          (.ReadDir (w.manager.networkDir ++ [networkID])))
      generalize deleteNetworkInstancesLoop env networkID files none _ = y at e3
      obtain ⟨err, w3⟩ := y
      simp only at e3 ⊢
      have e4 := clearNetwork_extends env networkID w3
      generalize clearNetwork env networkID w3 = z at e4
      obtain ⟨r, w4⟩ := z
      have e14 := World.extends_trans e2 (World.extends_trans e3 e4)
      cases r <;> cases err <;> exact e14

theorem deleteAllNetworksLoop_extends (env : Env) (files : List String) (err : Option Error)
    (w : World) : w.Extends (deleteAllNetworksLoop env files err w).2 := by
  induction files generalizing err w with
  | nil => exact World.extends_refl _
  | cons file rest ih =>
    unfold deleteAllNetworksLoop
    have e1 := deleteNetworkInstances_extends env file w
    generalize deleteNetworkInstances env file w = y at e1
    obtain ⟨r, w1⟩ := y
    cases r with
    | error networkErr => exact World.extends_trans e1 (ih _ w1)
    | ok u => exact World.extends_trans e1 (ih _ w1)

theorem deleteAllNetworks_extends (env : Env) (w : World) :
    w.Extends (deleteAllNetworks env w).2 := by
  unfold deleteAllNetworks ReadDir
  have e1 : w.Extends (w.record (.ReadDir w.manager.networkDir)) := World.extends_record _ _
  cases env.ReadDir w.trace w.manager.networkDir with
  | error e => exact e1
  | ok files =>
    simp only
    have e2 := deleteAllNetworksLoop_extends env files none (w.record (.ReadDir w.manager.networkDir))
    generalize deleteAllNetworksLoop env files none _ = y at e2
    obtain ⟨err, w2⟩ := y
    simp only at e2 ⊢
    have e3 : w.Extends (RemoveAll env w2.manager.networkDir w2).2 :=
      World.extends_trans e1 (World.extends_trans e2 (World.extends_record _ _))
    cases err <;> exact e3

theorem New_without_store (env : Env) (cfg : Config) (trace : Trace)
    (manager : NetworkManager) (h : (New env cfg none trace).1.1 = some manager) :
    manager.trafficMonitoring = none ∧ manager.instancesData = [] := by
  unfold New newIPam at h
  simp only at h
  cases hn : env.newIPam trace with
  | error e => simp [hn] at h
  | ok u =>
    simp only [hn] at h
    generalize hw1 : (deleteAllNetworks env _).2 = w1 at h
    have e1 := deleteAllNetworks_extends env
      (World.record ⟨⟨cfg.Hosts, [cfg.WorkingDir, "cni"] ++ ["networks"], none, []⟩, trace⟩
        .newIPam)
    rw [hw1] at e1
    unfold RemoveAll at h
    cases hr : env.RemoveAll w1.trace [cfg.WorkingDir, "cni"] with
    | error e => simp [hr] at h
    | ok u =>
      simp only [hr, World.record, Option.some.injEq] at h
      rw [← h, e1.1]
      exact ⟨rfl, rfl⟩

/-! ## Queries -/

/-- C8: queries fail explicitly. `GetInstanceIP` returns an error whenever the
pair is not in the cache. A manager that `New` returns when it is given no
traffic store has no traffic monitor, and in a manager without a traffic
monitor `GetSystemTraffic`, `GetInstanceTraffic` and `SetTrafficPeriod` return
the "traffic monitoring is disabled" error for every argument,
`SetTrafficPeriod` leaving the manager as it is. -/
theorem queries_fail_explicitly (env : Env) (MinutePeriod YearPeriod : Int) (w : World) :
    (∀ instanceID networkID, isInstanceInNetwork w.manager instanceID networkID = false →
      GetInstanceIP w.manager instanceID networkID = .error .notInNetwork) ∧
    (∀ cfg trace manager, (New env cfg none trace).1.1 = some manager →
      manager.trafficMonitoring = none) ∧
    (w.manager.trafficMonitoring = none →
      GetSystemTraffic env w = .error .trafficMonitorDisable ∧
      (∀ instanceID, GetInstanceTraffic env instanceID w = .error .trafficMonitorDisable) ∧
      ∀ period, SetTrafficPeriod MinutePeriod YearPeriod w.manager period
        = (.error .trafficMonitorDisable, w.manager)) := by
  refine ⟨?_, ?_, ?_⟩
  · intro instanceID networkID h
    unfold GetInstanceIP
    simp [h]
  · intro cfg trace manager h
    exact (New_without_store env cfg trace manager h).1
  · intro h
    refine ⟨?_, ?_, ?_⟩
    · unfold GetSystemTraffic
      simp [h]
    · intro instanceID
      unfold GetInstanceTraffic
      simp [h]
    · intro period
      unfold SetTrafficPeriod
      simp [h]

theorem queries_fail_explicitly_witness :
    GetInstanceIP webWorld.manager "i2" "n1" = .error .notInNetwork ∧
      emptyManager.trafficMonitoring = none ∧
      GetSystemTraffic envOK webWorld = .error .trafficMonitorDisable ∧
      (∀ instanceID, GetInstanceTraffic envOK instanceID webWorld
        = .error .trafficMonitorDisable) ∧
      ∀ period, SetTrafficPeriod 0 4 webWorld.manager period
        = (.error .trafficMonitorDisable, webWorld.manager) :=
  ⟨(queries_fail_explicitly envOK 0 4 webWorld).1 "i2" "n1" (by decide),
    (queries_fail_explicitly envOK 0 4 webWorld).2.1
      { WorkingDir := "/var/aos", Hosts := [] } [] emptyManager (by decide),
    (queries_fail_explicitly envOK 0 4 webWorld).2.2 rfl⟩

/-- C9: with a traffic monitor, `SetTrafficPeriod` with a period below
`MinutePeriod` or above `YearPeriod` returns an error and leaves the manager,
and so the monitor's `trafficPeriod`, unchanged; with a period within
[`MinutePeriod`, `YearPeriod`] it succeeds and the monitor's `trafficPeriod`
is exactly that period, nothing else being changed. -/
theorem SetTrafficPeriod_checks_range (MinutePeriod YearPeriod : Int)
    (manager : NetworkManager) (monitor : trafficMonitoring) (period : Int)
    (h : manager.trafficMonitoring = some monitor) :
    (period < MinutePeriod ∨ YearPeriod < period →
      SetTrafficPeriod MinutePeriod YearPeriod manager period
        = (.error .unexpectedPeriod, manager)) ∧
    (MinutePeriod ≤ period ∧ period ≤ YearPeriod →
      SetTrafficPeriod MinutePeriod YearPeriod manager period
        = (.ok (), { manager with
            trafficMonitoring := some { monitor with trafficPeriod := period } })) := by
  unfold SetTrafficPeriod
  refine ⟨?_, ?_⟩
  · intro hout
    have hc : period < MinutePeriod ∨ period > YearPeriod := hout
    simp [h, hc]
  · intro hin
    have hc : ¬(period < MinutePeriod ∨ period > YearPeriod) := by
      intro hor
      rcases hor with h1 | h1
      · exact absurd hin.1 (not_le.mpr h1)
      · exact absurd hin.2 (not_le.mpr h1)
    simp [h, hc]

theorem SetTrafficPeriod_checks_range_witness :
    SetTrafficPeriod 0 4 monitoredManager 7 = (.error .unexpectedPeriod, monitoredManager) ∧
      SetTrafficPeriod 0 4 monitoredManager 3
        = (.ok (), { monitoredManager with
            trafficMonitoring := some { trafficPeriod := 3, inChain := "AOS_SYSTEM_IN",
                                        outChain := "AOS_SYSTEM_OUT" } }) :=
  ⟨(SetTrafficPeriod_checks_range 0 4 monitoredManager
      { trafficPeriod := 1, inChain := "AOS_SYSTEM_IN", outChain := "AOS_SYSTEM_OUT" } 7 rfl).1
      (by decide),
    (SetTrafficPeriod_checks_range 0 4 monitoredManager
      { trafficPeriod := 1, inChain := "AOS_SYSTEM_IN", outChain := "AOS_SYSTEM_OUT" } 3 rfl).2
      (by decide)⟩

/-! ## The plugin chain -/

/-- C10: whenever `prepareNetworkConfigList` succeeds, the generated chain is
in the fixed order bridge, aos-firewall, [bandwidth], dnsname. With
`IngressKbit > 0` or `EgressKbit > 0` it has exactly four plugins, bandwidth
being the third; with both rates zero it has exactly the three plugins
bridge, aos-firewall, dnsname and no bandwidth plugin. -/
theorem plugin_chain_order (env : Env) (networkDir : Path) (instanceID networkID : String)
    (subnetwork : IPNet) (params : NetworkParams) (netConfig : NetworkConfigList)
    (h : prepareNetworkConfigList env networkDir instanceID networkID subnetwork params
      = .ok netConfig) :
    (params.IngressKbit > 0 ∨ params.EgressKbit > 0 →
      (∃ bridge firewall bandwidth dns,
        netConfig.Plugins
          = [.bridge bridge, .firewall firewall, .bandwidth bandwidth, .dns dns]) ∧
      netConfig.Plugins.map PluginConf.type = ["bridge", "aos-firewall", "bandwidth", "dnsname"]) ∧
    (params.IngressKbit = 0 ∧ params.EgressKbit = 0 →
      (∃ bridge firewall dns,
        netConfig.Plugins = [.bridge bridge, .firewall firewall, .dns dns]) ∧
      netConfig.Plugins.map PluginConf.type = ["bridge", "aos-firewall", "dnsname"] ∧
      ∀ plugin ∈ netConfig.Plugins, plugin.type ≠ "bandwidth") := by
  unfold prepareNetworkConfigList getBridgePluginConfig getFirewallPluginConfig
    getBandwidthPluginConfig getDNSPluginConfig ConfListFromBytes at h
  simp only [List.nil_append] at h
  cases hfw : getFirewallConf instanceID params.ExposedPorts params.AllowedConnections with
  | error e => simp [hfw] at h
  | ok firewall =>
    have hfwType : firewall.Type_ = "aos-firewall" := by
      unfold getFirewallConf at hfw
      simp only at hfw
      cases h1 : exposedPortsLoop params.ExposedPorts [] with
      | error e => simp [h1] at hfw
      | ok inputAccess =>
        simp only [h1] at hfw
        cases h2 : allowedConnectionsLoop params.AllowedConnections [] with
        | error e => simp [h2] at hfw
        | ok outputAccess =>
          simp only [h2, Except.ok.injEq] at hfw
          rw [← hfw]
    simp only [hfw] at h
    by_cases hrate : params.IngressKbit > 0 ∨ params.EgressKbit > 0
    · simp only [hrate, if_true, List.cons_append, List.nil_append] at h
      split at h
      · simp at h
      · simp only [Except.ok.injEq] at h
        subst h
        refine ⟨fun _ => ⟨⟨_, _, _, _, rfl⟩, ?_⟩, ?_⟩
        · simp only [List.map, PluginConf.type, hfwType, getBandwidthConf]
          split <;> split <;> rfl
        · intro hz
          omega
    · simp only [hrate, if_false, List.cons_append, List.nil_append] at h
      split at h
      · simp at h
      · simp only [Except.ok.injEq] at h
        subst h
        refine ⟨fun hpos => absurd hpos hrate, fun _ => ⟨⟨_, _, _, rfl⟩, ?_, ?_⟩⟩
        · simp [PluginConf.type, hfwType]
        · intro plugin hmem
          simp only [List.mem_cons, List.mem_singleton, List.not_mem_nil, or_false] at hmem
          rcases hmem with rfl | rfl | rfl
          · simp [PluginConf.type]
          · simp [PluginConf.type, hfwType]
          · simp [PluginConf.type]

theorem plugin_chain_order_witness :
    (∃ bridge firewall dns,
        ({ Name := "n1", CNIVersion := cniVersion,
           Plugins :=
            [.bridge
              { Type_ := "bridge", Bridge := "br-n1", IsGateway := true,
                IsDefaultGateway := false, ForceAddress := false, IPMasq := true, MTU := 0,
                HairpinMode := true, PromiscMode := false, Vlan := 0,
                IPAM :=
                  { DataDir := ["/var/aos", "cni", "networks"], Type_ := "host-local",
                    Range := { RangeStart := [172, 17, 0, 1], RangeEnd := [172, 17, 255, 254],
                               Subnet := sampleSubnet },
                    Routes := ["0.0.0.0/0"] } },
             .firewall
              { Type_ := "aos-firewall", UUID := "i1", IptablesAdminChainName := "INSTANCE_i1",
                AllowPublicConnections := true,
                InputAccess := [{ Port := "80", Protocol := "tcp" }], OutputAccess := [] },
             .dns
              { Type_ := "dnsname", MultiDomain := true, DomainName := "n1",
                Capabilities := [("aliases", true)] }] } : NetworkConfigList).Plugins
          = [.bridge bridge, .firewall firewall, .dns dns]) :=
  ((plugin_chain_order envOK ["/var/aos", "cni", "networks"] "i1" "n1" sampleSubnet webParams _
    (by decide)).2 (by decide)).1

/-! ## Splitting at a separator -/

theorem splitChars_length (sep : Char) (l : List Char) :
    (splitChars sep l).length = l.count sep + 1 := by
  induction l with
  | nil => rfl
  | cons c cs ih =>
    by_cases h : c = sep
    · subst h
      simp [splitChars, ih]
    · have hc : (c :: cs).count sep = cs.count sep := by
        rw [List.count_cons]
        simp [h]
      rw [hc]
      simp only [splitChars, h, if_false]
      cases hs : splitChars sep cs with
      | nil => simp [hs] at ih
      | cons a t =>
        rw [hs] at ih
        simpa using ih

theorem takeWhile_of_count_zero (sep : Char) (l : List Char) (h : l.count sep = 0) :
    l.takeWhile (fun c => decide (c ≠ sep)) = l := by
  induction l with
  | nil => rfl
  | cons c cs ih =>
    by_cases hc : c = sep
    · subst hc
      simp at h
    · have h' : cs.count sep = 0 := by
        rw [List.count_cons] at h
        simpa [hc] using h
      rw [List.takeWhile_cons_of_pos (by simpa using hc), ih h']

theorem splitChars_of_count_zero (sep : Char) (l : List Char) (h : l.count sep = 0) :
    splitChars sep l = [l] := by
  induction l with
  | nil => rfl
  | cons c cs ih =>
    by_cases hc : c = sep
    · subst hc
      simp at h
    · have h' : cs.count sep = 0 := by
        rw [List.count_cons] at h
        simpa [hc] using h
      unfold splitChars
      simp [hc, ih h']

theorem splitChars_of_count_one (sep : Char) (l : List Char) (h : l.count sep = 1) :
    splitChars sep l
      = [l.takeWhile (fun c => decide (c ≠ sep)),
         (l.dropWhile (fun c => decide (c ≠ sep))).drop 1] := by
  induction l with
  | nil => simp at h
  | cons c cs ih =>
    by_cases hc : c = sep
    · subst hc
      have h' : cs.count c = 0 := by
        simpa using h
      unfold splitChars
      simp [splitChars_of_count_zero c cs h', List.takeWhile_cons, List.dropWhile_cons]
    · have h' : cs.count sep = 1 := by
        rw [List.count_cons] at h
        simpa [hc] using h
      unfold splitChars
      simp [hc, ih h', List.takeWhile_cons, List.dropWhile_cons]

theorem segments_length (entry : String) : (segments entry).length = slashCount entry + 1 := by
  unfold segments stringsSplit slashCount
  rw [List.length_map, splitChars_length]

theorem segments_of_no_slash (entry : String) (h : slashCount entry = 0) :
    segments entry = [entry] ∧ textBeforeSlash entry = entry := by
  unfold segments stringsSplit textBeforeSlash
  unfold slashCount at h
  rw [splitChars_of_count_zero _ _ h, takeWhile_of_count_zero _ _ h]
  exact ⟨rfl, rfl⟩

theorem segments_of_one_slash (entry : String) (h : slashCount entry = 1) :
    segments entry = [textBeforeSlash entry, textAfterSlash entry] := by
  unfold segments stringsSplit textBeforeSlash textAfterSlash
  unfold slashCount at h
  rw [splitChars_of_count_one _ _ h]
  rfl

/-! ## The firewall configuration -/

theorem exposedPortsLoop_ok (exposedPorts : List String) (inputAccess : List inputAccessConfig)
    (h : ∀ entry ∈ exposedPorts, slashCount entry ≤ 1) :
    exposedPortsLoop exposedPorts inputAccess
      = .ok (inputAccess ++ exposedPorts.map inputAccessOf) := by
  induction exposedPorts generalizing inputAccess with
  | nil => simp [exposedPortsLoop]
  | cons entry rest ih =>
    have hrest : ∀ e ∈ rest, slashCount e ≤ 1 := fun e he => h e (List.mem_cons_of_mem _ he)
    have hentry := h entry (List.mem_cons_self _ _)
    unfold exposedPortsLoop
    have hlen := segments_length entry
    unfold segments at hlen
    simp only [hlen, exposePortConfigExpectedLen]
    have hcond : ¬(slashCount entry + 1 > 2 ∨ slashCount entry + 1 = 0) := by omega
    simp only [hcond, if_false]
    rw [ih _ hrest]
    by_cases h0 : slashCount entry = 0
    · obtain ⟨hseg, hbefore⟩ := segments_of_no_slash entry h0
      unfold segments at hseg
      simp [hseg, h0, inputAccessOf, hbefore]
    · have h1 : slashCount entry = 1 := by omega
      have hseg := segments_of_one_slash entry h1
      unfold segments at hseg
      simp [hseg, h1, inputAccessOf]

theorem exposedPortsLoop_error (exposedPorts : List String)
    (inputAccess : List inputAccessConfig)
    (h : ∃ entry ∈ exposedPorts, 2 ≤ slashCount entry) :
    exposedPortsLoop exposedPorts inputAccess = .error .unsupportedExposedPorts := by
  induction exposedPorts generalizing inputAccess with
  | nil =>
    obtain ⟨e, he, -⟩ := h
    simp at he
  | cons entry rest ih =>
    unfold exposedPortsLoop
    have hlen := segments_length entry
    unfold segments at hlen
    simp only [hlen, exposePortConfigExpectedLen]
    by_cases hbad : 2 ≤ slashCount entry
    · have hcond : slashCount entry + 1 > 2 ∨ slashCount entry + 1 = 0 := by omega
      rw [if_pos hcond]
    · have hcond : ¬(slashCount entry + 1 > 2 ∨ slashCount entry + 1 = 0) := by omega
      simp only [hcond, if_false]
      apply ih
      obtain ⟨e, he, hcount⟩ := h
      rcases List.mem_cons.mp he with rfl | he'
      · exact absurd hcount hbad
      · exact ⟨e, he', hcount⟩

theorem allowedConnectionsLoop_ok (allowedConnections : List String)
    (outputAccess : List outputAccessConfig)
    (h : ∀ entry ∈ allowedConnections,
      (segments entry).length = 2 ∨ (segments entry).length = 3) :
    allowedConnectionsLoop allowedConnections outputAccess
      = .ok (outputAccess ++ allowedConnections.map outputAccessOf) := by
  induction allowedConnections generalizing outputAccess with
  | nil => simp [allowedConnectionsLoop]
  | cons entry rest ih =>
    have hrest : ∀ e ∈ rest, (segments e).length = 2 ∨ (segments e).length = 3 :=
      fun e he => h e (List.mem_cons_of_mem _ he)
    have hentry := h entry (List.mem_cons_self _ _)
    unfold allowedConnectionsLoop
    change (if (segments entry).length > allowedConnectionsExpectedLen ∨ (segments entry).length < 2
      then _ else _) = _
    have hcond : ¬((segments entry).length > allowedConnectionsExpectedLen
        ∨ (segments entry).length < 2) := by
      unfold allowedConnectionsExpectedLen
      omega
    simp only [hcond, if_false]
    change allowedConnectionsLoop rest _ = _
    rw [ih _ hrest]
    simp only [List.map_cons, List.append_assoc, List.singleton_append, Except.ok.injEq,
      List.append_cancel_left_eq, List.cons.injEq, and_true]
    unfold outputAccessOf segments allowedConnectionsExpectedLen
    by_cases h3 : (stringsSplit entry '/').length = 3 <;> simp [h3]

theorem allowedConnectionsLoop_error (allowedConnections : List String)
    (outputAccess : List outputAccessConfig)
    (h : ∃ entry ∈ allowedConnections,
      ¬((segments entry).length = 2 ∨ (segments entry).length = 3)) :
    allowedConnectionsLoop allowedConnections outputAccess
      = .error .unsupportedAllowedConnections := by
  induction allowedConnections generalizing outputAccess with
  | nil =>
    obtain ⟨e, he, -⟩ := h
    simp at he
  | cons entry rest ih =>
    unfold allowedConnectionsLoop
    change (if (segments entry).length > allowedConnectionsExpectedLen ∨ (segments entry).length < 2
      then _ else _) = _
    by_cases hbad : (segments entry).length = 2 ∨ (segments entry).length = 3
    · have hcond : ¬((segments entry).length > allowedConnectionsExpectedLen
          ∨ (segments entry).length < 2) := by
        unfold allowedConnectionsExpectedLen
        omega
      simp only [hcond, if_false]
      apply ih
      obtain ⟨e, he, hseg⟩ := h
      rcases List.mem_cons.mp he with rfl | he'
      · exact absurd hbad hseg
      · exact ⟨e, he', hseg⟩
    · have hcond : (segments entry).length > allowedConnectionsExpectedLen
          ∨ (segments entry).length < 2 := by
        unfold allowedConnectionsExpectedLen
        omega
      simp [hcond]

/-- C11: for every instanceID and every exposed-ports list whose entries
contain at most one '/', `getFirewallPluginConfig` with no allowed connections
succeeds; the firewall config has the admin chain name "INSTANCE_" followed by
the instanceID, allows public connections, and its inbound list has one
element per entry in input order: the port is the text before the '/', the
protocol the text after it, or "tcp" when the entry has no '/'. -/
theorem exposed_ports_parsed (instanceID : String) (exposedPorts : List String)
    (h : ∀ entry ∈ exposedPorts, slashCount entry ≤ 1) :
    getFirewallPluginConfig instanceID exposedPorts []
      = .ok (.firewall
          { Type_ := "aos-firewall"
            UUID := instanceID
            IptablesAdminChainName := "INSTANCE_" ++ instanceID
            AllowPublicConnections := true
            InputAccess := exposedPorts.map inputAccessOf
            OutputAccess := [] }) := by
  unfold getFirewallPluginConfig getFirewallConf
  simp only [exposedPortsLoop_ok exposedPorts [] h, allowedConnectionsLoop, List.nil_append]
  rfl

theorem exposed_ports_parsed_witness :
    getFirewallPluginConfig "i1" ["80/tcp", "53"] []
      = .ok (.firewall
          { Type_ := "aos-firewall"
            UUID := "i1"
            IptablesAdminChainName := "INSTANCE_i1"
            AllowPublicConnections := true
            InputAccess := [{ Port := "80", Protocol := "tcp" }, { Port := "53", Protocol := "tcp" }]
            OutputAccess := [] }) :=
  exposed_ports_parsed "i1" ["80/tcp", "53"] (by decide)

/-- C12, counterexample: the entries "/tcp" (empty port), "80/" (empty
protocol) are not rejected: `getFirewallPluginConfig` succeeds and the inbound
list holds an element with an empty port and one with an empty protocol. -/
theorem exposed_port_with_empty_part_accepted :
    getFirewallPluginConfig "i1" ["/tcp", "80/"] []
      = .ok (.firewall
          { Type_ := "aos-firewall"
            UUID := "i1"
            IptablesAdminChainName := "INSTANCE_i1"
            AllowPublicConnections := true
            InputAccess := [{ Port := "", Protocol := "tcp" }, { Port := "80", Protocol := "" }]
            OutputAccess := [] }) := by
  decide

/-- C12, amended: an exposed-ports entry with more than one '/' (such as
"80/tcp/extra") is rejected as a configuration error: for every exposed-ports
list that contains such an entry and every allowed-connections list,
`getFirewallPluginConfig` returns the exposed-ports error and no
configuration. -/
theorem exposed_port_with_two_slashes_rejected (instanceID : String)
    (exposedPorts allowedConnections : List String)
    (h : ∃ entry ∈ exposedPorts, 2 ≤ slashCount entry) :
    getFirewallPluginConfig instanceID exposedPorts allowedConnections
      = .error .unsupportedExposedPorts := by
  unfold getFirewallPluginConfig getFirewallConf
  simp only [exposedPortsLoop_error exposedPorts [] h]

theorem exposed_port_with_two_slashes_rejected_witness :
    getFirewallPluginConfig "i1" ["80/tcp", "80/tcp/extra"] ["i2/80"]
      = .error .unsupportedExposedPorts :=
  exposed_port_with_two_slashes_rejected "i1" ["80/tcp", "80/tcp/extra"] ["i2/80"]
    ⟨"80/tcp/extra", by decide, by decide⟩

/-- C13: with an exposed-ports list whose entries contain at most one '/',
`getFirewallPluginConfig` succeeds if and only if every allowed-connections
entry splits at '/' into exactly 2 or 3 segments. On success the outbound list
has one element per entry in input order, with peer UUID the first segment,
port the second and protocol the third, or "tcp" when there are only two. An
entry with 1 segment or with 4 or more makes the whole call fail. -/
theorem allowed_connections_parsed (instanceID : String)
    (exposedPorts allowedConnections : List String)
    (h : ∀ entry ∈ exposedPorts, slashCount entry ≤ 1) :
    ((∃ config, getFirewallPluginConfig instanceID exposedPorts allowedConnections = .ok config)
      ↔ ∀ entry ∈ allowedConnections,
          (segments entry).length = 2 ∨ (segments entry).length = 3) ∧
    (∀ config, getFirewallPluginConfig instanceID exposedPorts allowedConnections = .ok config →
      config = .firewall
        { Type_ := "aos-firewall"
          UUID := instanceID
          IptablesAdminChainName := "INSTANCE_" ++ instanceID
          AllowPublicConnections := true
          InputAccess := exposedPorts.map inputAccessOf
          OutputAccess := allowedConnections.map outputAccessOf }) ∧
    ((∃ entry ∈ allowedConnections,
        (segments entry).length = 1 ∨ 4 ≤ (segments entry).length) →
      getFirewallPluginConfig instanceID exposedPorts allowedConnections
        = .error .unsupportedAllowedConnections) := by
  have hok : (∀ entry ∈ allowedConnections,
        (segments entry).length = 2 ∨ (segments entry).length = 3) →
      getFirewallPluginConfig instanceID exposedPorts allowedConnections
        = .ok (.firewall
          { Type_ := "aos-firewall"
            UUID := instanceID
            IptablesAdminChainName := "INSTANCE_" ++ instanceID
            AllowPublicConnections := true
            InputAccess := exposedPorts.map inputAccessOf
            OutputAccess := allowedConnections.map outputAccessOf }) := by
    intro hall
    unfold getFirewallPluginConfig getFirewallConf
    simp only [exposedPortsLoop_ok exposedPorts [] h,
      allowedConnectionsLoop_ok allowedConnections [] hall, List.nil_append]
    rfl
  have herr : (∃ entry ∈ allowedConnections,
        ¬((segments entry).length = 2 ∨ (segments entry).length = 3)) →
      getFirewallPluginConfig instanceID exposedPorts allowedConnections
        = .error .unsupportedAllowedConnections := by
    intro hbad
    unfold getFirewallPluginConfig getFirewallConf
    simp only [exposedPortsLoop_ok exposedPorts [] h,
      allowedConnectionsLoop_error allowedConnections [] hbad]
  refine ⟨⟨?_, fun hall => ⟨_, hok hall⟩⟩, ?_, ?_⟩
  · rintro ⟨config, hconfig⟩
    by_contra hnot
    push_neg at hnot
    obtain ⟨entry, hmem, h2, h3⟩ := hnot
    rw [herr ⟨entry, hmem, by simp [h2, h3]⟩] at hconfig
    cases hconfig
  · intro config hconfig
    by_cases hall : ∀ entry ∈ allowedConnections,
        (segments entry).length = 2 ∨ (segments entry).length = 3
    · rw [hok hall] at hconfig
      exact (Except.ok.inj hconfig).symm
    · push_neg at hall
      obtain ⟨entry, hmem, h2, h3⟩ := hall
      rw [herr ⟨entry, hmem, by simp [h2, h3]⟩] at hconfig
      cases hconfig
  · rintro ⟨entry, hmem, hlen⟩
    exact herr ⟨entry, hmem, by omega⟩

theorem allowed_connections_parsed_witness :
    (∀ config, getFirewallPluginConfig "i1" ["80/tcp"] ["i2/80", "i3/53/udp"] = .ok config →
      config = .firewall
        { Type_ := "aos-firewall"
          UUID := "i1"
          IptablesAdminChainName := "INSTANCE_i1"
          AllowPublicConnections := true
          InputAccess := ["80/tcp"].map inputAccessOf
          OutputAccess := ["i2/80", "i3/53/udp"].map outputAccessOf }) ∧
      getFirewallPluginConfig "i1" ["80/tcp"] ["i2"] = .error .unsupportedAllowedConnections :=
  ⟨(allowed_connections_parsed "i1" ["80/tcp"] ["i2/80", "i3/53/udp"] (by decide)).2.1,
    (allowed_connections_parsed "i1" ["80/tcp"] ["i2"] (by decide)).2.2
      ⟨"i2", by decide, by decide⟩⟩

/-! ## The bandwidth configuration -/

/-- C14, counterexample: the ingress rate 2^61 kbit/s is an unsigned 64-bit
value and is not zero, yet the configured ingress rate is 0 and not the
requested value multiplied by 1000: the product is taken in `uint64`, and
2^61 * 1000 is a multiple of 2^64. -/
theorem bandwidth_rate_wraps_around :
    2305843009213693952 < uint64Mod ∧
      getBandwidthPluginConfig 2305843009213693952 0
        = .ok (.bandwidth
            { Type_ := "bandwidth", IngressRate := 0, IngressBurst := 12800,
              EgressRate := 0, EgressBurst := 0 }) ∧
      (getBandwidthConf 2305843009213693952 0).IngressRate ≠ 2305843009213693952 * 1000 := by
  decide

/-- C14, amended: for every requested ingress and egress rate
`getBandwidthPluginConfig` sets, for each direction whose requested rate is
not zero, the configured rate to the requested value multiplied by 1000 in
unsigned 64-bit arithmetic (modulo 2^64) and the burst to 12800, and leaves
rate and burst of a direction whose requested rate is zero at zero. The
configured rate is the requested value multiplied by 1000 whenever that
product is below 2^64, that is for every requested rate up to
18446744073709551 kbit/s. -/
theorem bandwidth_rates (ingressKbit egressKbit : Nat) :
    getBandwidthPluginConfig ingressKbit egressKbit
        = .ok (.bandwidth
            { Type_ := "bandwidth"
              IngressRate := if ingressKbit = 0 then 0 else ingressKbit * 1000 % 2 ^ 64
              IngressBurst := if ingressKbit = 0 then 0 else 12800
              EgressRate := if egressKbit = 0 then 0 else egressKbit * 1000 % 2 ^ 64
              EgressBurst := if egressKbit = 0 then 0 else 12800 }) ∧
      (ingressKbit ≤ 18446744073709551 →
        (getBandwidthConf ingressKbit egressKbit).IngressRate = ingressKbit * 1000) ∧
      (egressKbit ≤ 18446744073709551 →
        (getBandwidthConf ingressKbit egressKbit).EgressRate = egressKbit * 1000) := by
  have hconf : getBandwidthConf ingressKbit egressKbit
      = { Type_ := "bandwidth"
          IngressRate := if ingressKbit = 0 then 0 else ingressKbit * 1000 % 2 ^ 64
          IngressBurst := if ingressKbit = 0 then 0 else 12800
          EgressRate := if egressKbit = 0 then 0 else egressKbit * 1000 % 2 ^ 64
          EgressBurst := if egressKbit = 0 then 0 else 12800 } := by
    unfold getBandwidthConf uint64Mod burstLen
    by_cases hi : ingressKbit = 0 <;> by_cases he : egressKbit = 0 <;>
      simp [hi, he, Nat.pos_iff_ne_zero]
  refine ⟨by unfold getBandwidthPluginConfig; rw [hconf], ?_, ?_⟩
  · intro hle
    rw [hconf]
    by_cases hi : ingressKbit = 0
    · simp [hi]
    · simp only [hi, if_false]
      apply Nat.mod_eq_of_lt
      omega
  · intro hle
    rw [hconf]
    by_cases he : egressKbit = 0
    · simp [he]
    · simp only [he, if_false]
      apply Nat.mod_eq_of_lt
      omega

theorem bandwidth_rates_witness :
    (getBandwidthConf 500 0).IngressRate = 500 * 1000 ∧
      (getBandwidthConf 500 0).EgressRate = 0 * 1000 :=
  ⟨(bandwidth_rates 500 0).2.1 (by decide), (bandwidth_rates 500 0).2.2 (by decide)⟩

/-! ## Hostnames -/

theorem baseHostnameList_eq_assembledHostnames (params : NetworkParams) :
    baseHostnameList params = assembledHostnames params := by
  unfold baseHostnameList assembledHostnames
  by_cases hh : params.Hostname = "" <;> by_cases hs : params.ServiceID = "" <;>
    by_cases hj : params.SubjectID = "" <;> by_cases hi : params.Instance = 0 <;>
    simp [hh, hs, hj, hi]

theorem stringsContainsAny_dot (hostname : String) :
    stringsContainsAny hostname "." = hasDot hostname := by
  unfold stringsContainsAny hasDot
  have hdot : ".".toList = ['.'] := rfl
  rw [hdot]
  induction hostname.toList with
  | nil => simp
  | cons c cs ih =>
    simp only [List.any_cons, ih, List.mem_cons]
    by_cases hc : c = '.'
    · simp [hc]
    · have hc' : ¬ '.' = c := fun e => hc e.symm
      simp [hc, hc']

/-- Appending the domain names of the dotted entries of `hosts` to any list
`acc`. -/
theorem tryAppendDomainName_foldl (hosts acc : List String) (networkID : String) :
    hosts.foldl
        (fun acc hostname =>
          if stringsContainsAny hostname "." then acc ++ [stringsJoin [hostname, networkID] "."]
          else acc)
        acc
      = acc ++ (hosts.filter hasDot).map fun entry => entry ++ "." ++ networkID := by
  induction hosts generalizing acc with
  | nil => simp
  | cons hostname rest ih =>
    rw [List.foldl_cons, ih, stringsContainsAny_dot]
    by_cases hd : hasDot hostname = true
    · simp [hd, List.filter_cons, stringsJoin]
    · simp [hd, List.filter_cons]

theorem baseHostnameList_example :
    baseHostnameList
        { noParams with
          Aliases := ["a.b", "c"], Hostname := "web", ServiceID := "svc", SubjectID := "sub" }
        = ["a.b", "c", "web", "0.sub.svc", "sub.svc"] ∧
      baseHostnameList
        { noParams with Instance := 3, ServiceID := "svc", SubjectID := "sub" }
        = ["3.sub.svc"] ∧
      baseHostnameList { noParams with Instance := 3, ServiceID := "svc" } = [] := by
  decide

theorem tryAppendDomainNameToHostname_example :
    tryAppendDomainNameToHostname ["a.b", "c", "x.y"] "n1"
      = ["a.b", "c", "x.y", "a.b.n1", "x.y.n1"] := by
  decide

/-- C15: hostname assembly. The base list that `prepareHostnameList` builds
before domain suffixing is the assembled list of the specification: all
aliases, the hostname if not empty, and, only with both identifiers present,
"<Instance>.<SubjectID>.<ServiceID>" followed by "<SubjectID>.<ServiceID>"
exactly when the instance index is 0. What `prepareHostnameList` returns on
success is that list with the domain names appended (the list itself when it
is empty); with no aliases, no hostname and a missing service or subject
identifier it returns the empty list and no error. -/
theorem hostname_assembly (params : NetworkParams) :
    baseHostnameList params = assembledHostnames params ∧
    (∀ manager networkID hosts, prepareHostnameList manager networkID params = .ok hosts →
      hosts = if assembledHostnames params = [] then []
        else tryAppendDomainNameToHostname (assembledHostnames params) networkID) ∧
    (params.Aliases = [] → params.Hostname = "" →
      (params.ServiceID = "" ∨ params.SubjectID = "") →
      assembledHostnames params = [] ∧
        ∀ manager networkID, prepareHostnameList manager networkID params = .ok []) := by
  have hbase := baseHostnameList_eq_assembledHostnames params
  refine ⟨hbase, ?_, ?_⟩
  · intro manager networkID hosts h
    unfold prepareHostnameList at h
    rw [hbase] at h
    by_cases hempty : assembledHostnames params = []
    · simp only [hempty, List.length_nil, ne_eq, not_true_eq_false, if_false,
        Except.ok.injEq] at h
      simp [hempty, h]
    · have hlen : (assembledHostnames params).length ≠ 0 := by
        simpa [List.length_eq_zero] using hempty
      simp only [hlen, ne_eq, not_false_eq_true, if_true] at h
      simp only [hempty, if_false]
      cases hex : isHostnameExists manager networkID
          (tryAppendDomainNameToHostname (assembledHostnames params) networkID) with
      | error e => simp [hex] at h
      | ok u =>
        simp only [hex, Except.ok.injEq] at h
        exact h.symm
  · intro ha hh hid
    have hempty : assembledHostnames params = [] := by
      unfold assembledHostnames
      simp [ha, hh, hid]
    refine ⟨hempty, ?_⟩
    intro manager networkID
    unfold prepareHostnameList
    rw [hbase, hempty]
    simp

theorem hostname_assembly_witness :
    assembledHostnames noParams = [] ∧
      ∀ manager networkID, prepareHostnameList manager networkID noParams = .ok [] :=
  (hostname_assembly noParams).2.2 rfl rfl (Or.inl rfl)

/-- C16: domain suffixing. `tryAppendDomainNameToHostname` returns `hosts`
followed by, for each entry of `hosts` that contains a dot and in the same
order, the entry followed by "." and the networkID. Entries without a dot get
no additional name and the appended names are not suffixed again: the length
of the result is the length of `hosts` plus the number of its dotted
entries. -/
theorem domain_suffixing (hosts : List String) (networkID : String) :
    tryAppendDomainNameToHostname hosts networkID
        = hosts ++ (hosts.filter hasDot).map (fun entry => entry ++ "." ++ networkID) ∧
      (tryAppendDomainNameToHostname hosts networkID).length
        = hosts.length + hosts.countP hasDot := by
  have h : tryAppendDomainNameToHostname hosts networkID
      = hosts ++ (hosts.filter hasDot).map (fun entry => entry ++ "." ++ networkID) := by
    unfold tryAppendDomainNameToHostname
    exact tryAppendDomainName_foldl hosts hosts networkID
  refine ⟨h, ?_⟩
  rw [h, List.length_append, List.length_map, List.countP_eq_length_filter]

/-! ## The resolv.conf servers -/

/-- C17, counterexample: the caller supplies the DNS server 1.1.1.1 and a
resolv.conf path and the runtime returned no nameserver. The resolv.conf
writer is called with 8.8.8.8 as the main server and 1.1.1.1 as additional
server: the fallback to the public resolver has taken place although the
caller supplied a DNS server, and 8.8.8.8 is among the servers handed to the
writer. -/
theorem public_resolver_written_next_to_caller_servers :
    dnsParams.DNSSevers = ["1.1.1.1"] ∧ dnsParams.ResolvConfFilePath = "/etc/resolv.conf" ∧
      createResolvConfAndHostFile envOK "n1" "172.17.0.2" [] dnsParams emptyWorld
        = (.ok (),
            { manager := emptyManager
              trace := [.writeResolveConfFile "/etc/resolv.conf" ["8.8.8.8"] ["1.1.1.1"]] }) := by
  decide

/-- C17, amended: when a resolv.conf path is supplied and the hosts-file step
has not failed, `createResolvConfAndHostFile` ends with the call of the
resolv.conf writer and returns its outcome. The main DNS servers handed to the
writer are the runtime's nameservers when the runtime returned any, and the
fixed public resolver 8.8.8.8 whenever the runtime returned none, whether or
not the caller supplied DNS servers in params; the caller's DNS servers are
handed over as the additional servers. -/
theorem resolv_conf_main_servers (env : Env) (networkID instanceIP : String)
    (nameservers : List String) (params : NetworkParams) (w : World)
    (hpath : params.ResolvConfFilePath ≠ "")
    (hhosts : params.HostsFilePath = "" ∨
      env.writeHostToHostsFile w.trace params.HostsFilePath instanceIP networkID
        params.Hostname params.Hosts = .ok ()) :
    (∃ before,
      (before = w.trace ∨
        before = w.trace ++ [Call.writeHostToHostsFile params.HostsFilePath instanceIP networkID
          params.Hostname params.Hosts]) ∧
      createResolvConfAndHostFile env networkID instanceIP nameservers params w
        = (env.writeResolveConfFile before params.ResolvConfFilePath (mainServersOf nameservers)
              params.DNSSevers,
            { manager := w.manager
              trace := before ++ [Call.writeResolveConfFile params.ResolvConfFilePath
                (mainServersOf nameservers) params.DNSSevers] })) ∧
      (nameservers ≠ [] → mainServersOf nameservers = nameservers) ∧
      (nameservers = [] → mainServersOf nameservers = ["8.8.8.8"]) := by
  have hmain : (if nameservers.length ≠ 0 then nameservers else ["8.8.8.8"])
      = mainServersOf nameservers := rfl
  refine ⟨?_, ?_, ?_⟩
  · unfold createResolvConfAndHostFile
    by_cases hfile : params.HostsFilePath = ""
    · refine ⟨w.trace, Or.inl rfl, ?_⟩
      simp only [hfile, ne_eq, not_true_eq_false, if_false, hpath, not_false_eq_true, if_true,
        hmain]
      unfold writeResolveConfFile World.record
      cases env.writeResolveConfFile w.trace params.ResolvConfFilePath
        (mainServersOf nameservers) params.DNSSevers <;> rfl
    · have hok := hhosts.resolve_left hfile
      refine ⟨_, Or.inr rfl, ?_⟩
      simp only [hfile, ne_eq, not_false_eq_true, if_true, hpath, hmain]
      unfold writeHostToHostsFile writeResolveConfFile World.record
      simp only [hok]
      cases env.writeResolveConfFile
        (w.trace ++ [Call.writeHostToHostsFile params.HostsFilePath instanceIP networkID
          params.Hostname params.Hosts]) params.ResolvConfFilePath
        (mainServersOf nameservers) params.DNSSevers <;> rfl
  · intro hne
    unfold mainServersOf
    have : nameservers.length ≠ 0 := by
      simpa [List.length_eq_zero] using hne
    simp [this]
  · intro he
    simp [mainServersOf, he]

theorem resolv_conf_main_servers_witness :
    mainServersOf [] = ["8.8.8.8"] ∧ mainServersOf ["10.0.0.1"] = ["10.0.0.1"] :=
  ⟨(resolv_conf_main_servers envOK "n1" "172.17.0.2" [] dnsParams emptyWorld (by decide)
      (Or.inl rfl)).2.2 rfl,
    (resolv_conf_main_servers envOK "n1" "172.17.0.2" ["10.0.0.1"] dnsParams emptyWorld
      (by decide) (Or.inl rfl)).2.1 (by decide)⟩

/-! ## Detach without a cached configuration -/

/-- C18, counterexample: i1 is attached to n1 and the runtime's cached-config
lookup reports no configuration for it (no bytes, no error), everything else
succeeding. The detach fails with the "instance not found in network" error
and the pair is still in the cache; the namespace deletion was attempted. -/
theorem detach_without_cached_config_fails :
    isInstanceInNetwork webWorld.manager "i1" "n1" = true ∧
      (∀ t, envNoCachedConfig.GetNetworkListCachedConfig t (getRuntimeNetConfig "i1" "n1").1
        (getRuntimeNetConfig "i1" "n1").2 = .ok (none, (getRuntimeNetConfig "i1" "n1").2)) ∧
      RemoveInstanceFromNetwork envNoCachedConfig "i1" "n1" webWorld
        = (.error .instanceNotFound,
            { manager := webWorld.manager
              trace := [.GetNetworkListCachedConfig (getRuntimeNetConfig "i1" "n1").1
                          (getRuntimeNetConfig "i1" "n1").2,
                        .DeleteNamed "i1"] }) ∧
      isInstanceInNetwork
        (RemoveInstanceFromNetwork envNoCachedConfig "i1" "n1" webWorld).2.manager "i1" "n1"
        = true := by
  refine ⟨by decide, fun _ => rfl, by decide, by decide⟩

/-- C18, amended: when, during `RemoveInstanceFromNetwork` of a cached pair,
the traffic monitor (if there is one) has been stopped and the runtime's
cached-config lookup reports no configuration for the instance (no bytes and
no error), the detach fails with the "instance not found in network" error.
The namespace deletion is still attempted, the manager is unchanged and the
pair stays in the cache. -/
theorem detach_without_cached_config (env : Env) (instanceID networkID : String) (w : World)
    (runtimeConfig : RuntimeConf)
    (hin : isInstanceInNetwork w.manager instanceID networkID = true)
    (hstop : w.manager.trafficMonitoring.isSome = true →
      env.stopInstanceTrafficMonitor w.trace instanceID = .ok ())
    (hlookup : env.GetNetworkListCachedConfig
        (if w.manager.trafficMonitoring.isSome then
          w.trace ++ [Call.stopInstanceTrafficMonitor instanceID]
        else w.trace)
        (getRuntimeNetConfig instanceID networkID).1 (getRuntimeNetConfig instanceID networkID).2
      = .ok (none, runtimeConfig)) :
    RemoveInstanceFromNetwork env instanceID networkID w
        = (.error .instanceNotFound,
            { manager := w.manager
              trace :=
                (if w.manager.trafficMonitoring.isSome then
                  w.trace ++ [Call.stopInstanceTrafficMonitor instanceID]
                else w.trace)
                  ++ [Call.GetNetworkListCachedConfig (getRuntimeNetConfig instanceID networkID).1
                        (getRuntimeNetConfig instanceID networkID).2,
                      Call.DeleteNamed instanceID] }) ∧
      isInstanceInNetwork (RemoveInstanceFromNetwork env instanceID networkID w).2.manager
        instanceID networkID = true := by
  have hres : RemoveInstanceFromNetwork env instanceID networkID w
        = (.error .instanceNotFound,
            { manager := w.manager
              trace :=
                (if w.manager.trafficMonitoring.isSome then
                  w.trace ++ [Call.stopInstanceTrafficMonitor instanceID]
                else w.trace)
                  ++ [Call.GetNetworkListCachedConfig (getRuntimeNetConfig instanceID networkID).1
                        (getRuntimeNetConfig instanceID networkID).2,
                      Call.DeleteNamed instanceID] }) := by
    unfold RemoveInstanceFromNetwork
    simp only [hin, Bool.not_true, Bool.false_eq_true, if_false]
    cases hm : w.manager.trafficMonitoring with
    | none =>
      simp only [hm, Option.isSome_none, Bool.false_eq_true, if_false] at hlookup ⊢
      unfold removeInstanceFromNetwork removeInstanceFromNetworkBody GetNetworkListCachedConfig
        DeleteNamed
      simp only [hlookup, World.record]
      cases env.DeleteNamed _ instanceID <;> simp
    | some monitor =>
      simp only [hm, Option.isSome_some, if_true] at hlookup ⊢
      have hs := hstop (by simp [hm])
      unfold stopInstanceTrafficMonitor
      simp only [hs, World.record]
      unfold removeInstanceFromNetwork removeInstanceFromNetworkBody GetNetworkListCachedConfig
        DeleteNamed
      simp only [hlookup, World.record]
      cases env.DeleteNamed _ instanceID <;> simp
  rw [hres]
  exact ⟨rfl, hin⟩

theorem detach_without_cached_config_witness :
    RemoveInstanceFromNetwork envNoCachedConfig "i1" "n1" webWorld
        = (.error .instanceNotFound,
            { manager := webWorld.manager
              trace :=
                (if webWorld.manager.trafficMonitoring.isSome then
                  webWorld.trace ++ [Call.stopInstanceTrafficMonitor "i1"]
                else webWorld.trace)
                  ++ [Call.GetNetworkListCachedConfig (getRuntimeNetConfig "i1" "n1").1
                        (getRuntimeNetConfig "i1" "n1").2,
                      Call.DeleteNamed "i1"] }) ∧
      isInstanceInNetwork
        (RemoveInstanceFromNetwork envNoCachedConfig "i1" "n1" webWorld).2.manager "i1" "n1"
        = true :=
  detach_without_cached_config envNoCachedConfig "i1" "n1" webWorld
    (getRuntimeNetConfig "i1" "n1").2 (by decide) (by decide) rfl

/-! ## Teardown of a network -/

theorem networkInstances_length_eq_zero_iff (manager : NetworkManager) (networkID : String) :
    ((networkInstances manager networkID).length == 0) = true
      ↔ ∀ j, instanceData manager j networkID = none := by
  unfold networkInstances instanceData
  cases hg : Map.get manager.instancesData networkID with
  | none => simp
  | some instances =>
    simp only [Option.getD_some, Option.some_bind, beq_iff_eq]
    cases instances with
    | nil => simp [Map.get]
    | cons kv rest =>
      obtain ⟨k, v⟩ := kv
      simp only [List.length_cons, Nat.add_one_ne_zero, false_iff, not_forall]
      exact ⟨k, by simp [Map.get]⟩

theorem clearNetwork_eq (env : Env) (networkID : String) (w : World) :
    clearNetwork env networkID w
      = (env.removeBridgeInterface (w.trace ++ [Call.releaseIPNetPool networkID]) networkID,
          { manager := w.manager
            trace := w.trace
              ++ [Call.releaseIPNetPool networkID, Call.removeBridgeInterface networkID]
              ++ (if env.removeBridgeInterface (w.trace ++ [Call.releaseIPNetPool networkID])
                    networkID = .ok () then [Call.RemoveAll (w.manager.networkDir ++ [networkID])]
                  else []) }) := by
  unfold clearNetwork postNetworkClear removeBridgeInterface releaseIPNetPool RemoveAll
    World.record
  cases h : env.removeBridgeInterface (w.trace ++ [Call.releaseIPNetPool networkID]) networkID with
  | error e => simp [h]
  | ok u => simp [h]

/-- C19, counterexample: i1 is the last instance of n1 and the removal of the
bridge fails. No instance of n1 remains in the cache, the subnet is released
and the bridge removal is called, and yet the working directory of the network
is not deleted: the call returns the error of the bridge removal. -/
theorem directory_kept_when_bridge_removal_fails :
    (∀ t networkID, envBridgeFails.removeBridgeInterface t networkID = .error (.external 2)) ∧
      (∀ j, instanceData
        (deleteInstanceNetworkFromCache envBridgeFails "i1" "n1" webWorld).2.manager j "n1"
          = none) ∧
      (deleteInstanceNetworkFromCache envBridgeFails "i1" "n1" webWorld).1
        = .error (.external 2) ∧
      (deleteInstanceNetworkFromCache envBridgeFails "i1" "n1" webWorld).2.trace
        = [Call.releaseIPNetPool "n1", Call.removeBridgeInterface "n1"] ∧
      Call.RemoveAll ["/var/aos", "cni", "networks", "n1"]
        ∉ (deleteInstanceNetworkFromCache envBridgeFails "i1" "n1" webWorld).2.trace := by
  refine ⟨fun _ _ => rfl, ?_, by decide, by decide, by decide⟩
  intro j
  have h : (deleteInstanceNetworkFromCache envBridgeFails "i1" "n1" webWorld).2.manager
      = { emptyManager with instancesData := [("n1", [])] } := by decide
  rw [h]
  simp [instanceData, emptyManager, Map.get]

/-- C19, amended: `deleteInstanceNetworkFromCache` removes the pair from the
cache and leaves every other entry as it was. It invokes the network teardown,
which releases the subnet of the network, calls the bridge removal and, only
when that has succeeded, deletes the working directory of the network, if and
only if no instance of the network remains in the cache after the removal; its
result is then the one of the bridge removal. When another instance remains it
returns success without any call: the subnet allocation is untouched. -/
theorem network_torn_down_with_last_instance (env : Env) (instanceID networkID : String)
    (w : World) :
    (∀ j n',
      instanceData (deleteInstanceNetworkFromCache env instanceID networkID w).2.manager j n'
        = if networkID = n' ∧ instanceID = j then none else instanceData w.manager j n') ∧
    ((∃ calls, (deleteInstanceNetworkFromCache env instanceID networkID w).2.trace
        = w.trace ++ Call.releaseIPNetPool networkID
            :: Call.removeBridgeInterface networkID :: calls)
      ↔ ∀ j, instanceData (deleteInstanceNetworkFromCache env instanceID networkID w).2.manager
          j networkID = none) ∧
    ((∀ j, instanceData (deleteInstanceNetworkFromCache env instanceID networkID w).2.manager
          j networkID = none) →
      (deleteInstanceNetworkFromCache env instanceID networkID w).1
        = env.removeBridgeInterface (w.trace ++ [Call.releaseIPNetPool networkID]) networkID ∧
      (deleteInstanceNetworkFromCache env instanceID networkID w).2.trace
        = w.trace ++ [Call.releaseIPNetPool networkID, Call.removeBridgeInterface networkID]
            ++ (if env.removeBridgeInterface (w.trace ++ [Call.releaseIPNetPool networkID])
                  networkID = .ok () then [Call.RemoveAll (w.manager.networkDir ++ [networkID])]
                else [])) ∧
    ((∃ j d, instanceData (deleteInstanceNetworkFromCache env instanceID networkID w).2.manager
          j networkID = some d) →
      (deleteInstanceNetworkFromCache env instanceID networkID w).1 = .ok () ∧
      (deleteInstanceNetworkFromCache env instanceID networkID w).2.trace = w.trace) := by
  have hcache := instanceData_deleteInstanceNetworkFromCache env instanceID networkID w
  have hman := (deleteInstanceNetworkFromCache_extends env instanceID networkID w).1
  -- the two outcomes of the call
  have hcases :
      ((∀ j, instanceData (deleteInstanceNetworkFromCache env instanceID networkID w).2.manager
          j networkID = none) ∧
        deleteInstanceNetworkFromCache env instanceID networkID w
          = clearNetwork env networkID (w.setInstancesData
              (deleteFromInstancesData w.manager.instancesData instanceID networkID))) ∨
      ((∃ j d, instanceData (deleteInstanceNetworkFromCache env instanceID networkID w).2.manager
          j networkID = some d) ∧
        deleteInstanceNetworkFromCache env instanceID networkID w
          = (.ok (), w.setInstancesData
              (deleteFromInstancesData w.manager.instancesData instanceID networkID))) := by
    have hiff := networkInstances_length_eq_zero_iff
      (w.setInstancesData
        (deleteFromInstancesData w.manager.instancesData instanceID networkID)).manager networkID
    rw [← hman] at hiff
    by_cases hempty : ((networkInstances (w.setInstancesData
        (deleteFromInstancesData w.manager.instancesData instanceID networkID)).manager
        networkID).length == 0) = true
    · left
      refine ⟨by rw [← hman] at hempty; exact hiff.mp hempty, ?_⟩
      unfold deleteInstanceNetworkFromCache
      simp only [hempty, if_true]
    · right
      refine ⟨?_, ?_⟩
      · rw [← hman] at hempty
        have hnot : ¬ ∀ j, instanceData
            (deleteInstanceNetworkFromCache env instanceID networkID w).2.manager j networkID
              = none := fun hall => hempty (hiff.mpr hall)
        push_neg at hnot
        obtain ⟨j, hj⟩ := hnot
        cases hd : instanceData
            (deleteInstanceNetworkFromCache env instanceID networkID w).2.manager j networkID with
        | none => exact absurd hd hj
        | some d => exact ⟨j, d, hd⟩
      · unfold deleteInstanceNetworkFromCache
        simp only [hempty, Bool.false_eq_true, if_false]
  have hnodup : ∀ (j : String) (d : netInstanceData),
      instanceData (deleteInstanceNetworkFromCache env instanceID networkID w).2.manager
          j networkID = some d →
      ¬ ∀ j, instanceData (deleteInstanceNetworkFromCache env instanceID networkID w).2.manager
          j networkID = none := by
    intro j d hd hall
    rw [hall j] at hd
    cases hd
  refine ⟨hcache, ?_, ?_, ?_⟩
  · rcases hcases with ⟨hall, heq⟩ | ⟨⟨j, d, hd⟩, heq⟩
    · refine ⟨fun _ => hall, fun _ => ?_⟩
      rw [heq, clearNetwork_eq]
      refine ⟨if env.removeBridgeInterface (w.trace ++ [Call.releaseIPNetPool networkID])
            networkID = .ok () then [Call.RemoveAll (w.manager.networkDir ++ [networkID])]
          else [], ?_⟩
      simp [World.setInstancesData]
    · refine ⟨?_, fun hall => absurd hall (hnodup j d hd)⟩
      rintro ⟨calls, hcalls⟩
      rw [heq] at hcalls
      simp only [World.setInstancesData] at hcalls
      have := congrArg List.length hcalls
      simp at this
  · intro hall
    rcases hcases with ⟨-, heq⟩ | ⟨⟨j, d, hd⟩, -⟩
    · rw [heq, clearNetwork_eq]
      exact ⟨rfl, rfl⟩
    · exact absurd hall (hnodup j d hd)
  · rintro ⟨j, d, hd⟩
    rcases hcases with ⟨hall, -⟩ | ⟨-, heq⟩
    · exact absurd hall (hnodup j d hd)
    · rw [heq]
      exact ⟨rfl, rfl⟩

theorem network_torn_down_with_last_instance_witness :
    ((deleteInstanceNetworkFromCache envOK "i1" "n1" webWorld).1 = .ok () ∧
      (deleteInstanceNetworkFromCache envOK "i1" "n1" webWorld).2.trace
        = [Call.releaseIPNetPool "n1", Call.removeBridgeInterface "n1",
            Call.RemoveAll ["/var/aos", "cni", "networks", "n1"]]) ∧
    ((deleteInstanceNetworkFromCache envOK "i1" "n1" twoWorld).1 = .ok () ∧
      (deleteInstanceNetworkFromCache envOK "i1" "n1" twoWorld).2.trace = twoWorld.trace) :=
  ⟨(network_torn_down_with_last_instance envOK "i1" "n1" webWorld).2.2.1 (by
      intro j
      rw [(network_torn_down_with_last_instance envOK "i1" "n1" webWorld).1 j "n1"]
      by_cases hj : "i1" = j
      · simp [hj]
      · simp [hj, instanceData, webWorld, emptyManager, Map.get, hj]),
    (network_torn_down_with_last_instance envOK "i1" "n1" twoWorld).2.2.2
      ⟨"i2", { instanceIP := "172.17.0.3", hosts := ["db"] }, by decide⟩⟩

/-! ## Rollback of a failed attach -/

theorem deleteInstanceNetworkFromCache_teardown_calls (env : Env)
    (instanceID networkID : String) (w : World) :
    ∃ T, (deleteInstanceNetworkFromCache env instanceID networkID w).2.trace = w.trace ++ T ∧
      ∀ c ∈ T, c.isTeardown = true := by
  unfold deleteInstanceNetworkFromCache
  simp only
  split
  · rw [clearNetwork_eq]
    refine ⟨[Call.releaseIPNetPool networkID, Call.removeBridgeInterface networkID]
      ++ (if env.removeBridgeInterface
            ((w.setInstancesData (deleteFromInstancesData w.manager.instancesData instanceID
              networkID)).trace ++ [Call.releaseIPNetPool networkID]) networkID = .ok ()
          then [Call.RemoveAll ((w.setInstancesData (deleteFromInstancesData
            w.manager.instancesData instanceID networkID)).manager.networkDir ++ [networkID])]
          else []), ?_, ?_⟩
    · simp [World.setInstancesData]
    · intro c hc
      simp only [List.mem_append, List.mem_cons, List.mem_singleton, List.not_mem_nil,
        or_false] at hc
      rcases hc with (rfl | rfl) | hc
      · rfl
      · rfl
      · split at hc
        · simp only [List.mem_singleton] at hc
          subst hc
          rfl
        · simp at hc
  · exact ⟨[], by simp [World.setInstancesData], by simp⟩

theorem addInstanceToNetworkAttach_after_add (env : Env) (instanceID networkID : String)
    (params : NetworkParams) (netConfig : NetworkConfigList) (runtimeConfig : RuntimeConf)
    (hosts : List String) (w : World) :
    (w.trace ++ [Call.AddNetworkList netConfig runtimeConfig])
      <+: (addInstanceToNetworkAttach env instanceID networkID params netConfig runtimeConfig
            hosts w).2.trace := by
  generalize hres : addInstanceToNetworkAttach env instanceID networkID params netConfig
    runtimeConfig hosts w = res
  obtain ⟨r, w'⟩ := res
  cases r with
  | ok u =>
    obtain ⟨-, -, -, -, -, -, -, -, htr⟩ := addInstanceToNetworkAttach_ok _ _ _ _ _ _ _ _ _ hres
    exact htr
  | error e =>
    unfold addInstanceToNetworkAttach at hres
    have hw1 := addNetwork_world env instanceID netConfig runtimeConfig w
    generalize addNetwork env instanceID netConfig runtimeConfig w = x at hres hw1
    obtain ⟨r1, w1⟩ := x
    simp only at hw1
    have ht1 : w1.trace = w.trace ++ [Call.AddNetworkList netConfig runtimeConfig] := by
      rw [hw1]
      rfl
    rw [← ht1]
    cases r1 with
    | error e1 =>
      simp only [Prod.mk.injEq] at hres
      rw [← hres.2]
    | ok res =>
      obtain ⟨nameservers, instanceIP⟩ := res
      simp only at hres
      have e2 := createResolvConfAndHostFile_extends env networkID instanceIP nameservers
        params w1
      generalize createResolvConfAndHostFile env networkID instanceIP nameservers params w1 = y
        at hres e2
      obtain ⟨r2, w2⟩ := y
      cases r2 with
      | error e2' =>
        simp only [Prod.mk.injEq] at hres
        rw [← hres.2]
        exact e2.2
      | ok u =>
        simp only at hres
        have e3 : w2.Extends
            (match w2.manager.trafficMonitoring with
              | some _ => startInstanceTrafficMonitor env instanceID instanceIP
                  params.DownloadLimit params.UploadLimit w2
              | none => ((.ok () : Except Error Unit), w2)).2 := by
          cases w2.manager.trafficMonitoring with
          | none => exact World.extends_refl _
          | some m => exact World.extends_record _ _
        generalize (match w2.manager.trafficMonitoring with
              | some _ => startInstanceTrafficMonitor env instanceID instanceIP
                  params.DownloadLimit params.UploadLimit w2
              | none => ((.ok () : Except Error Unit), w2)) = z at hres e3
        obtain ⟨r3, w3⟩ := z
        have e13 : w1.Extends w3 := World.extends_trans e2 e3
        cases r3 with
        | error e3' =>
          simp only [Prod.mk.injEq] at hres
          rw [← hres.2]
          exact e13.2
        | ok u =>
          simp only at hres
          generalize updateInstanceNetworkCache w3.manager instanceID networkID instanceIP
            hosts = v at hres
          obtain ⟨r4, m4⟩ := v
          cases r4 with
          | error e4 =>
            simp only [Prod.mk.injEq] at hres
            rw [← hres.2]
            exact e13.2
          | ok u => simp at hres

theorem AddInstanceToNetwork_of_stage_error (env : Env) (instanceID networkID : String)
    (params : NetworkParams) (w w' : World) (ipSubnet : IPNet) (err : Error)
    (hnew : isInstanceInNetwork w.manager instanceID networkID = false)
    (hsub : env.GetIPSubnet w.trace networkID = .ok ipSubnet)
    (h : addInstanceToNetworkInNetNS env instanceID networkID ipSubnet params
      (afterPlaceholder instanceID networkID w) = (.error err, w')) :
    AddInstanceToNetwork env instanceID networkID params w
      = (.error err, (deleteInstanceNetworkFromCache env instanceID networkID w').2) := by
  unfold AddInstanceToNetwork GetIPSubnet
  simp only [hnew, Bool.false_eq_true, if_false, hsub]
  unfold afterPlaceholder at h
  simp only [World.record]
  rw [h]

/-- C21, counterexample: i2 is attached to n1 in an environment whose runtime
add fails, everything else succeeding. The add did not complete, and yet the
runtime deletion of the chain runs: the calls are subnet resolution, namespace
creation, validate, add (failing), del, namespace deletion. -/
theorem runtime_deletion_after_failed_add :
    (∀ t netConfig runtimeConfig,
        envAddFails.AddNetworkList t netConfig runtimeConfig = .error (.external 1)) ∧
      AddInstanceToNetwork envAddFails "i2" "n1" noParams webWorld
        = (.error (.external 1),
            { manager := webWorld.manager
              trace :=
                [.GetIPSubnet "n1", .createNetNS "i2", .ValidateNetworkList sampleChain,
                 .AddNetworkList sampleChain (prepareRuntimeConfig "i2" "n1" []),
                 .DelNetworkList sampleChain (prepareRuntimeConfig "i2" "n1" []),
                 .DeleteNamed "i2"] }) :=
  ⟨fun _ _ _ => rfl, by decide⟩

/-- C21, amended: ordered rollback. When `AddInstanceToNetwork` fails after
the placeholder insert, the compensating actions run in the reverse order of
the steps they undo: deletion of the chain via the runtime first, then
deletion of the namespace, then removal of the cache placeholder (with the
teardown of the network when it was its last instance). A compensating action
runs only if its step had been reached: when namespace creation fails there is
no namespace deletion and no runtime deletion; when the configuration is not
prepared and validated there is no runtime deletion; when the runtime add has
been attempted and a step from it on fails, add included, the runtime deletion
runs. In every case the error returned is the one of the failed step, whatever
the compensating actions return, and the pair is not in the cache. -/
theorem rollback_in_reverse_order (env : Env) (instanceID networkID : String)
    (params : NetworkParams) (w : World) (ipSubnet : IPNet)
    (hnew : isInstanceInNetwork w.manager instanceID networkID = false)
    (hsub : env.GetIPSubnet w.trace networkID = .ok ipSubnet) :
    (∀ err, env.createNetNS (afterPlaceholder instanceID networkID w).trace instanceID
        = .error err →
      (AddInstanceToNetwork env instanceID networkID params w).1 = .error err ∧
      ∃ T, (AddInstanceToNetwork env instanceID networkID params w).2.trace
          = w.trace ++ [Call.GetIPSubnet networkID, Call.createNetNS instanceID] ++ T ∧
        ∀ c ∈ T, c.isTeardown = true) ∧
    (∀ err w3, env.createNetNS (afterPlaceholder instanceID networkID w).trace instanceID
        = .ok () →
      prepareCNIConfig env instanceID networkID ipSubnet params
        ((afterPlaceholder instanceID networkID w).record (Call.createNetNS instanceID))
        = (.error err, w3) →
      (AddInstanceToNetwork env instanceID networkID params w).1 = .error err ∧
      (w3.trace = w.trace ++ [Call.GetIPSubnet networkID, Call.createNetNS instanceID] ∨
        ∃ netConfig, w3.trace = w.trace ++ [Call.GetIPSubnet networkID,
          Call.createNetNS instanceID, Call.ValidateNetworkList netConfig]) ∧
      ∃ T, (AddInstanceToNetwork env instanceID networkID params w).2.trace
          = w3.trace ++ [Call.DeleteNamed instanceID] ++ T ∧
        ∀ c ∈ T, c.isTeardown = true) ∧
    (∀ err netConfig runtimeConfig hosts w3 w4,
      env.createNetNS (afterPlaceholder instanceID networkID w).trace instanceID = .ok () →
      prepareCNIConfig env instanceID networkID ipSubnet params
        ((afterPlaceholder instanceID networkID w).record (Call.createNetNS instanceID))
        = (.ok (netConfig, runtimeConfig, hosts), w3) →
      addInstanceToNetworkAttach env instanceID networkID params netConfig runtimeConfig hosts
        w3 = (.error err, w4) →
      (AddInstanceToNetwork env instanceID networkID params w).1 = .error err ∧
      (w3.trace ++ [Call.AddNetworkList netConfig runtimeConfig]) <+: w4.trace ∧
      ∃ T, (AddInstanceToNetwork env instanceID networkID params w).2.trace
          = w4.trace ++ [Call.DelNetworkList netConfig runtimeConfig,
              Call.DeleteNamed instanceID] ++ T ∧
        ∀ c ∈ T, c.isTeardown = true) ∧
    (∀ err, (AddInstanceToNetwork env instanceID networkID params w).1 = .error err →
      isInstanceInNetwork (AddInstanceToNetwork env instanceID networkID params w).2.manager
        instanceID networkID = false) := by
  have hstage := AddInstanceToNetwork_of_stage_error env instanceID networkID params w
  have htrace1 : (afterPlaceholder instanceID networkID w).trace
      = w.trace ++ [Call.GetIPSubnet networkID] := rfl
  refine ⟨?_, ?_, ?_, ?_⟩
  · intro err hcreate
    have hin : addInstanceToNetworkInNetNS env instanceID networkID ipSubnet params
        (afterPlaceholder instanceID networkID w)
        = (.error err,
            (afterPlaceholder instanceID networkID w).record (Call.createNetNS instanceID)) := by
      unfold addInstanceToNetworkInNetNS createNetNS
      simp only [hcreate]
    rw [hstage _ ipSubnet err hnew hsub hin]
    obtain ⟨T, hT, hteardown⟩ := deleteInstanceNetworkFromCache_teardown_calls env instanceID
      networkID ((afterPlaceholder instanceID networkID w).record (Call.createNetNS instanceID))
    refine ⟨rfl, T, ?_, hteardown⟩
    rw [hT]
    simp [World.record, htrace1]
  · intro err w3 hcreate hprep
    have hconf : addInstanceToNetworkConfigured env instanceID networkID ipSubnet params
        ((afterPlaceholder instanceID networkID w).record (Call.createNetNS instanceID))
        = (.error err, w3) := by
      unfold addInstanceToNetworkConfigured
      simp only [hprep]
    have hin : addInstanceToNetworkInNetNS env instanceID networkID ipSubnet params
        (afterPlaceholder instanceID networkID w)
        = (.error err, w3.record (Call.DeleteNamed instanceID)) := by
      unfold addInstanceToNetworkInNetNS createNetNS
      simp only [hcreate, hconf, DeleteNamed]
    rw [hstage _ ipSubnet err hnew hsub hin]
    obtain ⟨T, hT, hteardown⟩ := deleteInstanceNetworkFromCache_teardown_calls env instanceID
      networkID (w3.record (Call.DeleteNamed instanceID))
    refine ⟨rfl, ?_, T, ?_, hteardown⟩
    · unfold prepareCNIConfig at hprep
      cases h1 : prepareHostnameList
          ((afterPlaceholder instanceID networkID w).record
            (Call.createNetNS instanceID)).manager networkID params with
      | error e =>
        simp only [h1, Prod.mk.injEq] at hprep
        left
        rw [← hprep.2]
        simp [World.record, htrace1]
      | ok hosts =>
        simp only [h1] at hprep
        cases h2 : prepareNetworkConfigList env
            ((afterPlaceholder instanceID networkID w).record
              (Call.createNetNS instanceID)).manager.networkDir instanceID networkID ipSubnet
            params with
        | error e =>
          simp only [h2, Prod.mk.injEq] at hprep
          left
          rw [← hprep.2]
          simp [World.record, htrace1]
        | ok netConfig =>
          simp only [h2] at hprep
          unfold ValidateNetworkList at hprep
          cases h3 : env.ValidateNetworkList
              ((afterPlaceholder instanceID networkID w).record
                (Call.createNetNS instanceID)).trace netConfig with
          | error e =>
            simp only [h3, Prod.mk.injEq] at hprep
            right
            refine ⟨netConfig, ?_⟩
            rw [← hprep.2]
            simp [World.record, htrace1]
          | ok u => simp [h3] at hprep
    · rw [hT]
      simp [World.record]
  · intro err netConfig runtimeConfig hosts w3 w4 hcreate hprep hattach
    have hconf : addInstanceToNetworkConfigured env instanceID networkID ipSubnet params
        ((afterPlaceholder instanceID networkID w).record (Call.createNetNS instanceID))
        = (.error err, w4.record (Call.DelNetworkList netConfig runtimeConfig)) := by
      unfold addInstanceToNetworkConfigured
      simp only [hprep, hattach, DelNetworkList]
    have hin : addInstanceToNetworkInNetNS env instanceID networkID ipSubnet params
        (afterPlaceholder instanceID networkID w)
        = (.error err, (w4.record (Call.DelNetworkList netConfig runtimeConfig)).record
            (Call.DeleteNamed instanceID)) := by
      unfold addInstanceToNetworkInNetNS createNetNS
      simp only [hcreate, hconf, DeleteNamed]
    rw [hstage _ ipSubnet err hnew hsub hin]
    obtain ⟨T, hT, hteardown⟩ := deleteInstanceNetworkFromCache_teardown_calls env instanceID
      networkID ((w4.record (Call.DelNetworkList netConfig runtimeConfig)).record
        (Call.DeleteNamed instanceID))
    refine ⟨rfl, ?_, T, ?_, hteardown⟩
    · have := addInstanceToNetworkAttach_after_add env instanceID networkID params netConfig
        runtimeConfig hosts w3
      rw [hattach] at this
      exact this
    · rw [hT]
      simp [World.record]
  · intro err herr
    generalize hres : AddInstanceToNetwork env instanceID networkID params w = res at herr
    obtain ⟨r, w'⟩ := res
    simp only at herr
    subst herr
    have hsame := AddInstanceToNetwork_error_cache _ _ _ _ _ _ _ hres instanceID networkID
    rw [isInstanceInNetwork_eq_isSome] at hnew ⊢
    simp only
    rw [hsame]
    exact hnew

theorem rollback_in_reverse_order_witness :
    (AddInstanceToNetwork envAddFails "i2" "n1" noParams webWorld).1 = .error (.external 1) ∧
      ∃ T, (AddInstanceToNetwork envAddFails "i2" "n1" noParams webWorld).2.trace
          = ((afterPlaceholder "i2" "n1" webWorld).record (Call.createNetNS "i2")).trace
              ++ [Call.ValidateNetworkList sampleChain,
                  Call.AddNetworkList sampleChain (prepareRuntimeConfig "i2" "n1" [])]
              ++ [Call.DelNetworkList sampleChain (prepareRuntimeConfig "i2" "n1" []),
                  Call.DeleteNamed "i2"] ++ T ∧
        ∀ c ∈ T, c.isTeardown = true :=
  have h := (rollback_in_reverse_order envAddFails "i2" "n1" noParams webWorld sampleSubnet
    (by decide) rfl).2.2.1 (.external 1) sampleChain (prepareRuntimeConfig "i2" "n1" []) []
    (((afterPlaceholder "i2" "n1" webWorld).record (Call.createNetNS "i2")).record
      (Call.ValidateNetworkList sampleChain))
    ((((afterPlaceholder "i2" "n1" webWorld).record (Call.createNetNS "i2")).record
      (Call.ValidateNetworkList sampleChain)).record
      (Call.AddNetworkList sampleChain (prepareRuntimeConfig "i2" "n1" [])))
    rfl (by decide) (by decide)
  ⟨h.1, h.2.2⟩

/-! ## Failure of a detach -/

theorem removeInstanceFromNetworkBody_calls (env : Env) (instanceID networkID : String)
    (w : World) :
    ∃ calls, (removeInstanceFromNetworkBody env instanceID networkID w).2.trace
        = w.trace ++ calls ∧ ∀ c ∈ calls, c.isTeardown = false := by
  unfold removeInstanceFromNetworkBody GetNetworkListCachedConfig
  simp only
  have c1 : ∃ calls, (w.record (.GetNetworkListCachedConfig
      (getRuntimeNetConfig instanceID networkID).1
      (getRuntimeNetConfig instanceID networkID).2)).trace = w.trace ++ calls ∧
      ∀ c ∈ calls, c.isTeardown = false :=
    ⟨[_], rfl, by simp [Call.isTeardown]⟩
  cases env.GetNetworkListCachedConfig w.trace (getRuntimeNetConfig instanceID networkID).1
      (getRuntimeNetConfig instanceID networkID).2 with
  | error e => exact c1
  | ok res =>
    obtain ⟨confBytes, runtimeConfig⟩ := res
    cases confBytes with
    | none => exact c1
    | some confBytes =>
      simp only
      cases ConfListFromBytes env confBytes with
      | error e => exact c1
      | ok networkConfig =>
        simp only
        unfold DelNetworkList
        have c2 : ∃ calls, ((w.record (.GetNetworkListCachedConfig
            (getRuntimeNetConfig instanceID networkID).1
            (getRuntimeNetConfig instanceID networkID).2)).record
            (.DelNetworkList networkConfig runtimeConfig)).trace = w.trace ++ calls ∧
            ∀ c ∈ calls, c.isTeardown = false :=
          ⟨[Call.GetNetworkListCachedConfig (getRuntimeNetConfig instanceID networkID).1
              (getRuntimeNetConfig instanceID networkID).2,
            Call.DelNetworkList networkConfig runtimeConfig],
            by simp [World.record], by simp [Call.isTeardown]⟩
        cases env.DelNetworkList _ networkConfig runtimeConfig with
        | error e => exact c2
        | ok u =>
          simp only
          generalize World.record (World.record w _) _ = w2 at c2
          cases hm : w2.manager.trafficMonitoring with
          | none => exact c2
          | some m =>
            simp only
            unfold stopInstanceTrafficMonitor
            obtain ⟨calls, hcalls, hno⟩ := c2
            have c3 : ∃ calls, (w2.record (.stopInstanceTrafficMonitor instanceID)).trace
                = w.trace ++ calls ∧ ∀ c ∈ calls, c.isTeardown = false := by
              refine ⟨calls ++ [Call.stopInstanceTrafficMonitor instanceID], ?_, ?_⟩
              · simp [World.record, hcalls]
              · intro c hc
                rcases List.mem_append.mp hc with h | h
                · exact hno c h
                · simp only [List.mem_singleton] at h
                  subst h
                  rfl
            cases env.stopInstanceTrafficMonitor w2.trace instanceID <;> exact c3

theorem removeInstanceFromNetwork_eq (env : Env) (instanceID networkID : String) (w : World) :
    (removeInstanceFromNetwork env instanceID networkID w).2
        = (removeInstanceFromNetworkBody env instanceID networkID w).2.record
            (Call.DeleteNamed instanceID) ∧
      (removeInstanceFromNetwork env instanceID networkID w).1
        = match (removeInstanceFromNetworkBody env instanceID networkID w).1 with
          | .error err => .error err
          | .ok () =>
            env.DeleteNamed (removeInstanceFromNetworkBody env instanceID networkID w).2.trace
              instanceID := by
  unfold removeInstanceFromNetwork DeleteNamed
  generalize removeInstanceFromNetworkBody env instanceID networkID w = x
  obtain ⟨err, w1⟩ := x
  simp only
  cases hdel : env.DeleteNamed w1.trace instanceID with
  | error delErr => cases err <;> exact ⟨rfl, rfl⟩
  | ok u => cases err <;> exact ⟨rfl, rfl⟩

theorem RemoveInstanceFromNetwork_of_cached (env : Env) (instanceID networkID : String)
    (w : World) (hin : isInstanceInNetwork w.manager instanceID networkID = true) :
    (∀ err w1, stopMonitorStep env instanceID w = (.error err, w1) →
      RemoveInstanceFromNetwork env instanceID networkID w = (.error err, w1)) ∧
    (∀ err w1 w2, stopMonitorStep env instanceID w = (.ok (), w1) →
      removeInstanceFromNetwork env instanceID networkID w1 = (.error err, w2) →
      RemoveInstanceFromNetwork env instanceID networkID w = (.error err, w2)) ∧
    (∀ w1 w2, stopMonitorStep env instanceID w = (.ok (), w1) →
      removeInstanceFromNetwork env instanceID networkID w1 = (.ok (), w2) →
      RemoveInstanceFromNetwork env instanceID networkID w
        = deleteInstanceNetworkFromCache env instanceID networkID w2) := by
  unfold RemoveInstanceFromNetwork stopMonitorStep
  simp only [hin, Bool.not_true, Bool.false_eq_true, if_false]
  refine ⟨?_, ?_, ?_⟩
  · intro err w1 h
    rw [h]
  · intro err w1 w2 h h2
    rw [h]
    simp only [h2]
  · intro w1 w2 h h2
    rw [h]
    simp only [h2]

theorem stopMonitorStep_world (env : Env) (instanceID : String) (w : World) :
    (stopMonitorStep env instanceID w).2.manager = w.manager ∧
      ((stopMonitorStep env instanceID w).2.trace = w.trace ∨
        (stopMonitorStep env instanceID w).2.trace
          = w.trace ++ [Call.stopInstanceTrafficMonitor instanceID]) ∧
      ∀ err, (stopMonitorStep env instanceID w).1 = .error err →
        (stopMonitorStep env instanceID w).2.trace
          = w.trace ++ [Call.stopInstanceTrafficMonitor instanceID] := by
  unfold stopMonitorStep
  cases w.manager.trafficMonitoring with
  | none => exact ⟨rfl, Or.inl rfl, fun err h => by cases h⟩
  | some m => exact ⟨rfl, Or.inr rfl, fun _ _ => rfl⟩

/-- C22: a failed detach is not applied to the cache. For a cached pair: when
the traffic-monitor stop fails, `RemoveInstanceFromNetwork` returns its error
and has made no other call; when the runtime cleanup fails (cached-config
lookup error or missing config, config parsing, runtime del, monitor stop
inside the cleanup, namespace deletion), it returns the error of the cleanup.
In both cases the manager is unchanged, so the pair is still reported as
attached and `GetInstanceIP` returns what it returned before, and none of the
calls made belongs to a teardown: no subnet is released. The namespace
deletion is the last call of the runtime cleanup on every path, and the error
of the cleanup is the first that occurred: the one of its body, or the one of
the namespace deletion when the body had none. -/
theorem detach_failure_keeps_cache (env : Env) (instanceID networkID : String) (w : World)
    (hin : isInstanceInNetwork w.manager instanceID networkID = true) :
    (∀ err w1, stopMonitorStep env instanceID w = (.error err, w1) →
      RemoveInstanceFromNetwork env instanceID networkID w = (.error err, w1) ∧
      w1.manager = w.manager ∧
      w1.trace = w.trace ++ [Call.stopInstanceTrafficMonitor instanceID] ∧
      isInstanceInNetwork w1.manager instanceID networkID = true ∧
      GetInstanceIP w1.manager instanceID networkID
        = GetInstanceIP w.manager instanceID networkID) ∧
    (∀ err w1 w2, stopMonitorStep env instanceID w = (.ok (), w1) →
      removeInstanceFromNetwork env instanceID networkID w1 = (.error err, w2) →
      RemoveInstanceFromNetwork env instanceID networkID w = (.error err, w2) ∧
      w2.manager = w.manager ∧
      isInstanceInNetwork w2.manager instanceID networkID = true ∧
      GetInstanceIP w2.manager instanceID networkID
        = GetInstanceIP w.manager instanceID networkID ∧
      ∃ calls, w2.trace = w.trace ++ calls ++ [Call.DeleteNamed instanceID] ∧
        ∀ c ∈ calls, c.isTeardown = false) ∧
    (∀ w1 : World,
      (removeInstanceFromNetwork env instanceID networkID w1).2.trace
        = (removeInstanceFromNetworkBody env instanceID networkID w1).2.trace
            ++ [Call.DeleteNamed instanceID] ∧
      (removeInstanceFromNetwork env instanceID networkID w1).1
        = match (removeInstanceFromNetworkBody env instanceID networkID w1).1 with
          | .error err => .error err
          | .ok () =>
            env.DeleteNamed (removeInstanceFromNetworkBody env instanceID networkID w1).2.trace
              instanceID) := by
  obtain ⟨hA, hB, -⟩ := RemoveInstanceFromNetwork_of_cached env instanceID networkID w hin
  obtain ⟨hsm, hst, hserr⟩ := stopMonitorStep_world env instanceID w
  refine ⟨?_, ?_, ?_⟩
  · intro err w1 h
    rw [h] at hsm hserr
    simp only at hsm hserr
    refine ⟨hA err w1 h, hsm, hserr err rfl, ?_, ?_⟩
    · rw [hsm]
      exact hin
    · rw [hsm]
  · intro err w1 w2 h h2
    rw [h] at hsm hst
    simp only at hsm hst
    have hext := removeInstanceFromNetwork_extends env instanceID networkID w1
    rw [h2] at hext
    have hm : w2.manager = w.manager := hext.1.trans hsm
    refine ⟨hB err w1 w2 h h2, hm, ?_, ?_, ?_⟩
    · rw [hm]
      exact hin
    · rw [hm]
    · obtain ⟨hworld, -⟩ := removeInstanceFromNetwork_eq env instanceID networkID w1
      rw [h2] at hworld
      simp only at hworld
      obtain ⟨calls, hcalls, hno⟩ := removeInstanceFromNetworkBody_calls env instanceID
        networkID w1
      rcases hst with ht | ht
      · refine ⟨calls, ?_, hno⟩
        rw [hworld]
        simp [World.record, hcalls, ht]
      · refine ⟨Call.stopInstanceTrafficMonitor instanceID :: calls, ?_, ?_⟩
        · rw [hworld]
          simp [World.record, hcalls, ht]
        · intro c hc
          rcases List.mem_cons.mp hc with rfl | hc'
          · rfl
          · exact hno c hc'
  · intro w1
    obtain ⟨hworld, herr⟩ := removeInstanceFromNetwork_eq env instanceID networkID w1
    refine ⟨?_, herr⟩
    rw [hworld]
    rfl

theorem detach_failure_keeps_cache_witness :
    RemoveInstanceFromNetwork envDelFails "i1" "n1" webWorld
        = (.error (.external 4), (removeInstanceFromNetwork envDelFails "i1" "n1" webWorld).2) ∧
      (removeInstanceFromNetwork envDelFails "i1" "n1" webWorld).2.manager = webWorld.manager ∧
      isInstanceInNetwork (removeInstanceFromNetwork envDelFails "i1" "n1" webWorld).2.manager
        "i1" "n1" = true ∧
      GetInstanceIP (removeInstanceFromNetwork envDelFails "i1" "n1" webWorld).2.manager
        "i1" "n1" = GetInstanceIP webWorld.manager "i1" "n1" ∧
      ∃ calls, (removeInstanceFromNetwork envDelFails "i1" "n1" webWorld).2.trace
          = webWorld.trace ++ calls ++ [Call.DeleteNamed "i1"] ∧
        ∀ c ∈ calls, c.isTeardown = false :=
  (detach_failure_keeps_cache envDelFails "i1" "n1" webWorld (by decide)).2.1 (.external 4)
    webWorld _ (by decide) (by decide)

/-! ## Two concurrent attaches -/

/-- The steps of one call, run without another call in between, are
`AddInstanceToNetwork`. -/
theorem attachRun_alone (env : Env) (instanceID networkID : String) (params : NetworkParams)
    (w : World) :
    attachRun env instanceID networkID params 5 (.atCheck, w)
      = (.returned (AddInstanceToNetwork env instanceID networkID params w).1,
          (AddInstanceToNetwork env instanceID networkID params w).2) := by
  simp only [attachRun]
  unfold AddInstanceToNetwork
  cases hin : isInstanceInNetwork w.manager instanceID networkID with
  | true => simp [attachStep, hin]
  | false =>
    simp only [attachStep, hin, Bool.false_eq_true, if_false]
    generalize GetIPSubnet env networkID w = x
    obtain ⟨r, w1⟩ := x
    cases r with
    | error err => simp [attachStep]
    | ok ipSubnet =>
      simp only [attachStep]
      unfold addInstanceToNetworkInNetNS
      generalize createNetNS env instanceID
        { w1 with manager := addInstanceNetworkToCache w1.manager instanceID networkID } = y
      obtain ⟨r2, w2⟩ := y
      cases r2 with
      | error err => simp [attachStep]
      | ok u =>
        simp only [attachStep]
        generalize addInstanceToNetworkConfigured env instanceID networkID ipSubnet params w2 = z
        obtain ⟨r3, w3⟩ := z
        cases r3 with
        | error err => simp [attachStep]
        | ok u => simp [attachStep]

/-- Two calls for a pair that is not cached both pass the check when both
checks run before a placeholder is inserted: the check changes nothing. -/
theorem checks_before_placeholder_pass (env : Env) (instanceID networkID : String)
    (paramsFirst paramsSecond : NetworkParams) (w : World)
    (hnew : isInstanceInNetwork w.manager instanceID networkID = false) :
    runSchedule env instanceID networkID paramsFirst paramsSecond [.first, .second]
        (Concurrent.start w)
      = { stateFirst := .atSubnet, stateSecond := .atSubnet, world := w } := by
  simp [runSchedule, concurrentStep, Concurrent.start, attachStep, hnew]

/-- A call whose check runs after the placeholder insert of the other call
returns the already-in-network error. -/
theorem check_after_placeholder_rejected (env : Env) (instanceID networkID : String)
    (paramsFirst paramsSecond : NetworkParams) (w : World) (ipSubnet : IPNet)
    (hnew : isInstanceInNetwork w.manager instanceID networkID = false)
    (hsub : env.GetIPSubnet w.trace networkID = .ok ipSubnet) :
    (runSchedule env instanceID networkID paramsFirst paramsSecond checkAfterPlaceholder
        (Concurrent.start w)).stateSecond = .returned (.error .alreadyInNetwork) := by
  have hin : isInstanceInNetwork (addInstanceNetworkToCache w.manager instanceID networkID)
      instanceID networkID = true := by
    rw [isInstanceInNetwork_eq_isSome, instanceData_addInstanceNetworkToCache]
    simp
  simp [runSchedule, checkAfterPlaceholder, concurrentStep, Concurrent.start, attachStep, hnew,
    GetIPSubnet, hsub, World.record, hin]

/-- C20, two concurrent attaches of the pair (i2, n1), which is not cached,
where a namespace that exists cannot be created again. When both checks run
before either placeholder insert, both calls pass the check, and nothing has
changed that the other call could observe. Run on to their returns, the first
call succeeds and the second creates the namespace again and fails there, with
the error of the namespace creation and not the already-in-network error; its
rollback removes the pair from the cache, so the attachment of the first call
is no longer cached. Only a call whose check runs after the placeholder insert
of the other one fails with the already-in-network error. -/
theorem concurrent_attaches_both_pass_check :
    runSchedule envNetNSExclusive "i2" "n1" noParams noParams [.first, .second]
        (Concurrent.start webWorld)
      = { stateFirst := .atSubnet, stateSecond := .atSubnet, world := webWorld } ∧
    (runSchedule envNetNSExclusive "i2" "n1" noParams noParams checksFirst
        (Concurrent.start webWorld)).stateFirst = .returned (.ok ()) ∧
    (runSchedule envNetNSExclusive "i2" "n1" noParams noParams checksFirst
        (Concurrent.start webWorld)).stateSecond = .returned (.error (.external 5)) ∧
    (runSchedule envNetNSExclusive "i2" "n1" noParams noParams checksFirst
        (Concurrent.start webWorld)).world.trace
      = [.GetIPSubnet "n1", .createNetNS "i2", .ValidateNetworkList sampleChain,
         .AddNetworkList sampleChain (prepareRuntimeConfig "i2" "n1" []),
         .GetIPSubnet "n1", .createNetNS "i2"] ∧
    isInstanceInNetwork (runSchedule envNetNSExclusive "i2" "n1" noParams noParams checksFirst
        (Concurrent.start webWorld)).world.manager "i2" "n1" = false ∧
    (runSchedule envNetNSExclusive "i2" "n1" noParams noParams checkAfterPlaceholder
        (Concurrent.start webWorld)).stateSecond = .returned (.error .alreadyInNetwork) := by
  decide

end networkmanager

namespace servicemanager

/-! ## The digest of a directory -/

instance stringLE.isTotal : IsTotal String stringLE :=
  ⟨fun a b => le_total a.toList b.toList⟩

instance stringLE.isTrans : IsTrans String stringLE :=
  ⟨fun _ _ _ hab hbc => le_trans (α := List Char) hab hbc⟩

instance stringLE.isAntisymm : IsAntisymm String stringLE :=
  ⟨fun _ _ hab hba => String.ext (le_antisymm (α := List Char) hab hba)⟩

theorem sortStrings_sorted (files : List String) : (sortStrings files).Sorted stringLE :=
  List.sorted_insertionSort stringLE files

theorem sortStrings_perm (files : List String) : (sortStrings files).Perm files :=
  List.perm_insertionSort stringLE files

theorem sortStrings_eq_of_perm {files files' : List String} (h : files.Perm files') :
    sortStrings files = sortStrings files' :=
  List.eq_of_perm_of_sorted
    (((sortStrings_perm files).trans h).trans (sortStrings_perm files').symm)
    (sortStrings_sorted files) (sortStrings_sorted files')

theorem dirDigestLoop_ok (sha256 : Bytes → Bytes) (open_ : Opener) (content : String → Bytes)
    (names : List String) (h : String)
    (hnames : ∀ file ∈ names,
      stringsContains file '\n' = false ∧ open_ file = .ok (.ok (content file))) :
    dirDigestLoop sha256 open_ names h = .ok (h ++ hashLines sha256 content names) := by
  induction names generalizing h with
  | nil => simp [dirDigestLoop, hashLines]
  | cons file rest ih =>
    obtain ⟨hnl, hopen⟩ := hnames file (List.mem_cons_self _ _)
    have hrest := fun f hf => hnames f (List.mem_cons_of_mem _ hf)
    unfold dirDigestLoop
    simp only [hnl, Bool.false_eq_true, if_false, hopen]
    rw [ih _ hrest]
    simp [hashLines, String.append_assoc]

theorem dirDigestLoop_newline (sha256 : Bytes → Bytes) (open_ : Opener)
    (pre post : List String) (file : String) (h : String)
    (hfile : stringsContains file '\n' = true)
    (hpre : ∀ g ∈ pre, stringsContains g '\n' = false ∧ ∃ content, open_ g = .ok (.ok content)) :
    dirDigestLoop sha256 open_ (pre ++ file :: post) h = .error .newLineInFileName := by
  induction pre generalizing h with
  | nil =>
    simp only [List.nil_append]
    unfold dirDigestLoop
    simp [hfile]
  | cons g rest ih =>
    obtain ⟨hnl, content, hopen⟩ := hpre g (List.mem_cons_self _ _)
    have hrest := fun f hf => hpre f (List.mem_cons_of_mem _ hf)
    simp only [List.cons_append]
    unfold dirDigestLoop
    simp only [hnl, Bool.false_eq_true, if_false, hopen]
    exact ih _ hrest

theorem dirDigestLoop_fails (sha256 : Bytes → Bytes) (open_ : Opener) (names : List String)
    (h : String) (hnames : ∃ file ∈ names, stringsContains file '\n' = true) :
    ∃ err, dirDigestLoop sha256 open_ names h = .error err := by
  induction names generalizing h with
  | nil =>
    obtain ⟨f, hf, -⟩ := hnames
    simp at hf
  | cons file rest ih =>
    unfold dirDigestLoop
    by_cases hnl : stringsContains file '\n' = true
    · exact ⟨.newLineInFileName, by simp [hnl]⟩
    · simp only [hnl, Bool.false_eq_true, if_false]
      cases open_ file with
      | error err => exact ⟨err, rfl⟩
      | ok r =>
        cases r with
        | error err => exact ⟨err, rfl⟩
        | ok content =>
          simp only
          apply ih
          obtain ⟨f, hf, hfnl⟩ := hnames
          rcases List.mem_cons.mp hf with rfl | hf'
          · exact absurd hfnl hnl
          · exact ⟨f, hf', hfnl⟩

/-- C23: `dirDigest` does not depend on the order of the file names. For
every file list, every permutation of it and every `open` that is a function
of the name, it returns the same result, the same digest or the same failure,
because it works on the names in sorted order: the names it goes through are
the sorted permutation of the list, and when every file is read the digest is
the hash of the lines of content hashes in that order. The list of the caller
is unmodified. It fails whenever some name contains a newline, and with the
file-name error when such a name is reached in sorted order, that is when the
names before it have no newline and can be opened and read. -/
theorem dirDigest_order_independent (sha256 : Bytes → Bytes) (open_ : Opener)
    (files files' : List String) (hperm : files.Perm files') :
    (dirDigest sha256 files open_).1 = (dirDigest sha256 files' open_).1 ∧
    (dirDigest sha256 files open_).2 = files ∧
    ((sortStrings files).Sorted stringLE ∧ (sortStrings files).Perm files) ∧
    (∀ content : String → Bytes,
      (∀ file ∈ files,
        stringsContains file '\n' = false ∧ open_ file = .ok (.ok (content file))) →
      (dirDigest sha256 files open_).1
        = .ok ("sha256:" ++ hexEncode
            (sha256 (textBytes (hashLines sha256 content (sortStrings files)))))) ∧
    ((∃ file ∈ files, stringsContains file '\n' = true) →
      ∃ err, (dirDigest sha256 files open_).1 = .error err) ∧
    (∀ pre file post, sortStrings files = pre ++ file :: post →
      stringsContains file '\n' = true →
      (∀ g ∈ pre, stringsContains g '\n' = false ∧ ∃ content, open_ g = .ok (.ok content)) →
      (dirDigest sha256 files open_).1 = .error .newLineInFileName) := by
  have hcaller : ∀ l : List String, (dirDigest sha256 l open_).2 = l := by
    intro l
    unfold dirDigest
    simp only [List.nil_append]
    cases dirDigestLoop sha256 open_ (sortStrings l) "" <;> rfl
  have hresult : ∀ l : List String, (dirDigest sha256 l open_).1
      = match dirDigestLoop sha256 open_ (sortStrings l) "" with
        | .error err => .error err
        | .ok h => .ok ("sha256:" ++ hexEncode (sha256 (textBytes h))) := by
    intro l
    unfold dirDigest
    simp only [List.nil_append]
    cases dirDigestLoop sha256 open_ (sortStrings l) "" <;> rfl
  refine ⟨?_, hcaller files, ⟨sortStrings_sorted files, sortStrings_perm files⟩, ?_, ?_, ?_⟩
  · rw [hresult files, hresult files', sortStrings_eq_of_perm hperm]
  · intro content hfiles
    have hsorted : ∀ file ∈ sortStrings files,
        stringsContains file '\n' = false ∧ open_ file = .ok (.ok (content file)) :=
      fun file hf => hfiles file ((sortStrings_perm files).subset hf)
    rw [hresult files, dirDigestLoop_ok sha256 open_ content _ "" hsorted]
    simp
  · rintro ⟨file, hf, hnl⟩
    obtain ⟨err, herr⟩ := dirDigestLoop_fails sha256 open_ (sortStrings files) ""
      ⟨file, (sortStrings_perm files).symm.subset hf, hnl⟩
    exact ⟨err, by rw [hresult files, herr]⟩
  · intro pre file post hsort hnl hpre
    rw [hresult files, hsort, dirDigestLoop_newline sha256 open_ pre post file "" hnl hpre]

theorem dirDigest_order_independent_witness :
    (dirDigest sampleSha ["b", "a"] sampleOpen).1 = (dirDigest sampleSha ["a", "b"] sampleOpen).1 ∧
      (dirDigest sampleSha ["b", "a"] sampleOpen).2 = ["b", "a"] ∧
      (∃ err, (dirDigest sampleSha ["b", "a\n"] sampleOpen).1 = .error err) :=
  ⟨(dirDigest_order_independent sampleSha sampleOpen ["b", "a"] ["a", "b"]
      (List.Perm.swap "a" "b" [])).1,
    (dirDigest_order_independent sampleSha sampleOpen ["b", "a"] ["a", "b"]
      (List.Perm.swap "a" "b" [])).2.1,
    (dirDigest_order_independent sampleSha sampleOpen ["b", "a\n"] ["a\n", "b"]
      (List.Perm.swap "a\n" "b" [])).2.2.2.2.1 ⟨"a\n", by decide, by decide⟩⟩

theorem dirDigest_example :
    dirDigest sampleSha ["b", "a"] sampleOpen = (.ok "sha256:0a0a", ["b", "a"]) ∧
      dirDigest sampleSha ["z", "b", "a\n"] sampleOpen
        = (.error .newLineInFileName, ["z", "b", "a\n"]) ∧
      dirDigest sampleSha ["c", "b", "d\n"] sampleOpen
        = (.error (.external 2), ["c", "b", "d\n"]) := by
  decide

end servicemanager
